import Mathlib

/-!
Verification of the Durak card-game engine (`src/lib/engine/game.ts`).

This file shallowly embeds the engine's data model and operations in Lean.
Operations are translated statement-by-statement from the TypeScript source.
JavaScript `Map`s keyed by strings become insertion-ordered association lists;
in-place mutation of `Player` objects becomes functional update of the player
entry addressed by name (the engine's maps never hold duplicate keys).

Exceptions: a mutating method that throws leaves the (partially mutated)
JavaScript object behind for the caller, so mutating operations return
`Except (String × Game) Game`: an error carries the state of the object at
the moment of the throw.  The constructor is different: a throwing `new`
produces no object at all, so construction returns `Except String Game`.

Randomness (`shuffleArray`, `getRandomKey`) is modelled by passing the chosen
shuffle result and the chosen random key as explicit parameters, and
`Date.now()` timestamps by an explicit `now : Nat` parameter.
-/

set_option maxRecDepth 20000

/-! ### Card codec (`CardNumerics`, `CardSuits`, `generateCardDeck`, `parseCard`) -/

def CardNumerics : List String :=
  ["2", "3", "4", "5", "6", "7", "8", "9", "10", "J", "Q", "K", "A"]

def CardSuits : List String := ["H", "D", "C", "S"]

/-- `generateCardDeck()`: one card label per (numeric, suit) pair, numerics outermost. -/
def generateCardDeck : List String :=
  (CardNumerics.map (fun label => CardSuits.map (fun suit => label ++ suit))).flatten

structure CardType where
  value : Nat
  suit : String
  card : String
deriving Repr, DecidableEq

/-- Error messages of the source, verbatim (`\x27` is the apostrophe character). -/
def msgVictory : String := "Can\x27t mutate game state after victory."
def msgTableFull : String := "Player deck already full."
def msgInvalidState : String := "Invalid game state."
def msgInvalidStateNoDot : String := "Invalid game state"
def msgNotHolding : String := "Player doesn\x27t hold current card"
def msgRankMismatch : String := "Card numerical value isn\x27t present on the table top."
def msgTransferCovered : String := "Player can\x27t transfer defense since they have covered a card."
def msgNotEnough : String := "Player doesn\x27t have enough cards to cover attack."
def msgImproperTransfer : String := "Improper card for the transfer of defense state to next player."
def msgNotInLobby : String := "Player doesn\x27t exist within the lobby."
def msgFinaliseNoCards : String := "Cannot finalise round before any cards have been played."
def msgFinaliseTurnNoCards : String := "Cannot finalise turn when no cards have been placed."
def msgDefCardNotInDeck : String := "Defending card is not present in the defending players deck."
def msgCoverTooLow : String := "Covering card must have a higher value."
def msgCoverWrongSuit : String :=
  "Covering card suit must be the same suit as the table card and have a higher numerical value."
def msgPosition (pos : Nat) : String :=
  "Can\x27t get table top card at position \x27" ++ toString pos ++ "\x27"
def msgUniqueNames : String := "Player names must be unique."
def msgTooMany : String := "Number of players cannot be greater than eight."
def msgPositiveCount : String := "Number of players must be a positive integer."
def msgInvalidSuit : String := "Invalid card suit."
def msgInvalidNumeric : String := "Invalid card numeric."
/-- Not a source message: returned when the recursion-fuel of the embedding runs out.
The engine's recursion depth is statically bounded (see `finaliseRoundF`), so with the
generous wrapper fuel this error is never produced on the states of this development. -/
def msgFuel : String := "embedding fuel exhausted"

/-- `parseCard(card)`: last character is the suit, the rest the numeric. -/
def parseCardE (card : String) : Except String CardType :=
  let suit := card.drop (card.length - 1)
  let rawNumeric := card.take (card.length - 1)
  if CardSuits.contains suit then
    match CardNumerics.findIdx? (fun n => n == rawNumeric) with
    | some i => .ok ⟨i + 2, suit, card⟩
    | none => .error msgInvalidNumeric
  else .error msgInvalidSuit

def parseCard? (card : String) : Option CardType := (parseCardE card).toOption

/-! ### Player record

Modelled from the spec: the `Player` class (`src/lib/engine/player.ts`) is not among
the provided sources.  Spec §3 gives its fields (hand of card labels, the four
per-round boolean flags, an optional elimination timestamp) and the JavaScript
sibling `src/src/lib/game.js` initialises exactly this shape with all flags false
and an empty hand; `addCard` appends a card label to the hand. -/

structure Player where
  deck : List String := []
  canAttack : Bool := false
  beganRound : Bool := false
  turned : Bool := false
  isDefending : Bool := false
  out : Option Nat := none
deriving Repr, DecidableEq

/-- Modelled from the spec: `Player.addCard` appends the dealt card label to the hand. -/
def Player.addCard (p : Player) (c : String) : Player := { p with deck := p.deck ++ [c] }

/-! ### Association-list model of the JavaScript `Map` -/

def mapHas {α : Type} (m : List (String × α)) (k : String) : Bool :=
  m.any (fun p => p.1 == k)

def mapGet? {α : Type} (m : List (String × α)) (k : String) : Option α :=
  (m.find? (fun p => p.1 == k)).map (·.2)

/-- `Map.set`: update in place (keeping insertion order) if the key exists, else append. -/
def mapSet {α : Type} (m : List (String × α)) (k : String) (v : α) : List (String × α) :=
  if mapHas m k then m.map (fun p => if p.1 == k then (k, v) else p) else m ++ [(k, v)]

/-! ### Game state -/

structure Game where
  deck : List String
  trumpCard : CardType
  tableTop : List (String × Option String)
  players : List (String × Player)
  victory : Bool
deriving Repr, DecidableEq

instance : Inhabited Game :=
  ⟨{ deck := [], trumpCard := ⟨0, "", ""⟩, tableTop := [], players := [], victory := false }⟩

/-- The card labels of a table-top association list: entries flattened to
`[k₁, v₁, k₂, v₂, …]` with the nulls dropped. -/
def tableCardsL (m : List (String × Option String)) : List String :=
  ((m.map (fun p => [some p.1, p.2])).flatten).filterMap id

/-- `getTableTopDeck()`: entries flattened to `[k₁, v₁, k₂, v₂, …]`, nulls dropped. -/
def Game.getTableTopDeck (g : Game) : List String := tableCardsL g.tableTop

/-- `getCoveredCount()`: number of non-null table values. -/
def Game.getCoveredCount (g : Game) : Nat :=
  (g.tableTop.filter (fun p => p.2.isSome)).length

/-- `getActivePlayers()`: players (in insertion order) with `out === null`. -/
def Game.getActivePlayers (g : Game) : List (String × Player) :=
  g.players.filter (fun p => p.2.out == none)

/-- `getDefendingPlayerName()` before its is-undefined check: the first player key
whose record has `isDefending` set. -/
def Game.getDefendingPlayerName? (g : Game) : Option String :=
  (g.players.find? (fun p => p.2.isDefending)).map (·.1)

/-- `getRoundStarter()` before its is-undefined check: the first player key whose
record has `beganRound` set. -/
def Game.getRoundStarter? (g : Game) : Option String :=
  (g.players.find? (fun p => p.2.beganRound)).map (·.1)

def Game.getPlayer? (g : Game) (name : String) : Option Player :=
  mapGet? g.players name

/-- JavaScript array indexing with a possibly negative index: `xs[i]` is
`undefined` (here `none`) for any index outside `[0, length)`. -/
def jsArrayGetInt (xs : List String) (i : Int) : Option String :=
  if 0 ≤ i then xs.get? i.toNat else none

/-- `getCardOnTableTopAt(pos)`: bounds check, then the `pos`-th table key
(`none` models the JavaScript `undefined` for a position beyond the table size).
The source also rejects a negative `pos`; positions are naturals here. -/
def Game.getCardOnTableTopAtE (g : Game) (pos : Nat) : Except String (Option String) :=
  if pos > 5 then .error (msgPosition pos)
  else .ok ((g.tableTop.map (·.1)).get? pos)

/-- `getPlayerNameByOffset(name, offset)`: index into the active players, adding the
length once if the raw index is negative, then JavaScript `%` (truncating, sign of
the dividend).  An index still negative after the single correction yields
`undefined`, modelled as `.ok none`. -/
def Game.getPlayerNameByOffsetE (g : Game) (name : String) (offset : Int) :
    Except String (Option String) :=
  let playerNames := g.getActivePlayers.map (·.1)
  match playerNames.findIdx? (fun n => n == name) with
  | none => .error msgNotInLobby
  | some playerIndex =>
    let index : Int := offset + playerIndex
    let index := if index < 0 then index + playerNames.length else index
    .ok (jsArrayGetInt playerNames (Int.tmod index playerNames.length))

/-- Functional form of mutating the player object referenced by `name` in place. -/
def Game.updatePlayer (g : Game) (name : String) (f : Player → Player) : Game :=
  { g with players := g.players.map (fun p => if p.1 == name then (p.1, f p.2) else p) }

/-- Result of a mutating engine method: an error carries the partially mutated state. -/
abbrev GRes := Except (String × Game) Game

/-! ### `setDefendingPlayer` (game.ts lines 397-418)

Order of effects is as in the source: fetch the target (throwing `Invalid game
state.` if absent), reset every player's four role flags, look up the ring
neighbour at offset -1 (an inactive target makes this throw after the reset),
then set the attacker's and defender's flags. -/

/-- The `players.forEach` reset loop of `setDefendingPlayer`: clear every player's
four role flags. -/
def Game.resetRoleFlags (g : Game) : Game :=
  { g with players := g.players.map (fun p =>
      (p.1, { p.2 with canAttack := false, beganRound := false, isDefending := false,
                       turned := false })) }

def Game.setDefendingPlayer (g : Game) (name : String) : GRes :=
  if g.victory then .error (msgVictory, g) else
  match g.getPlayer? name with
  | none => .error (msgInvalidState, g)
  | some _ =>
    let g1 : Game := g.resetRoleFlags
    match g1.getPlayerNameByOffsetE name (-1) with
    | .error e => .error (e, g1)
    | .ok none => .error (msgInvalidState, g1)  -- getPlayer(undefined) throws
    | .ok (some attName) =>
      match g1.getPlayer? attName with
      | none => .error (msgInvalidState, g1)  -- unreachable: attName is an active key
      | some _ =>
        let g2 := g1.updatePlayer attName
          (fun p => { p with canAttack := true, beganRound := true })
        .ok (g2.updatePlayer name (fun p => { p with isDefending := true }))

/-! ### `transferCardOntoTable` (lines 616-631)

The source receives the live `Player` object; callers always pass the record of
`name`, so the embedding addresses the player by name (the `none` branch is
unreachable from the engine's call sites). -/

def Game.transferCardOntoTable (g : Game) (name : String) (card : String) : GRes :=
  if g.victory then .error (msgVictory, g) else
  if g.tableTop.length == 6 then .error (msgTableFull, g) else
  match g.getPlayer? name with
  | none => .error (msgInvalidState, g)
  | some p =>
    if !(p.deck.contains card) then .error (msgDefCardNotInDeck, g) else
    .ok { (g.updatePlayer name (fun q => { q with deck := q.deck.erase card })) with
          tableTop := mapSet g.tableTop card none }

/-! ### Card replenishment loop of `finaliseRound` (lines 174-188)

The `for` loop walks offsets `0, 1, …` from the round starter while
`offset < getActivePlayers().length`, topping each hand up to 6 from the front
of the deck (`splice(0, 6 - hand)`), and breaks once the deck is empty.  The
loop body never changes any `out` marker, so the number of active players is
constant during the loop; the structural `fuel`, initialised to that number by
the caller, therefore makes the recursion run exactly as the source loop. -/

def replenishLoop (roundStarter : String) : Nat → Nat → Game → GRes
  | 0, _, g => .ok g
  | fuel + 1, offset, g =>
    if offset < g.getActivePlayers.length then
      match g.getPlayerNameByOffsetE roundStarter offset with
      | .error e => .error (e, g)
      | .ok none => .error (msgInvalidState, g)  -- getPlayer(undefined) throws
      | .ok (some playerName) =>
        match g.getPlayer? playerName with
        | none => .error (msgInvalidState, g)
        | some p =>
          let g1 :=
            if p.deck.length < 6 then
              { (g.updatePlayer playerName
                  (fun q => { q with deck := q.deck ++ g.deck.take (6 - q.deck.length) })) with
                deck := g.deck.drop (6 - p.deck.length) }
            else g
          if g1.deck.length == 0 then .ok g1
          else replenishLoop roundStarter fuel (offset + 1) g1
    else .ok g

/-- The character-set size of `new Set(...cards)`.  The source spreads the card
array into the `Set` constructor, so only the first card label reaches it as
`Set`'s iterable argument and the "set" is the set of *characters* of that
label (an empty spread gives an empty set). -/
def jsSetSpreadSize (xs : List String) : Nat :=
  match xs with
  | [] => 0
  | h :: _ => h.toList.dedup.length

/-! ### `finaliseRound` / `finalisePlayerTurn` and the elimination sweep
(lines 140-211 and 430-491)

The two methods are mutually recursive: `finalisePlayerTurn` may call
`finaliseRound` (three call sites), and `finaliseRound`'s elimination sweep
calls `finalisePlayerTurn` for each player it marks out.  The recursion is
statically shallow: the sweep runs strictly after `voidTableTop()`, and nothing
re-populates the table before it, so any `finalisePlayerTurn` it invokes hits
the `tableTop.size === 0` guard (or the victory guard) and throws immediately.
The embedding uses a structural fuel; the wrappers below pass fuel 64, far
beyond the bounded depth actually reachable, and the fuel-exhaustion error
`msgFuel` never arises in this development. -/

/-- The `getActivePlayers().forEach` grant loop of `finalisePlayerTurn` (lines
448-454): every active player except the defender may now attack. -/
def Game.grantAttackExceptDefender (g : Game) (defendingPlayerName : String) : Game :=
  { g with players := g.players.map (fun p =>
      if p.2.out == none && p.1 != defendingPlayerName then
        (p.1, { p.2 with canAttack := true })
      else p) }

/-- The `getActivePlayers().forEach` reset loop of `coverCardOnTableTop` (lines
382-386): clear `turned` for every active player. -/
def Game.resetTurnedActive (g : Game) : Game :=
  { g with players := g.players.map (fun p =>
      if p.2.out == none then (p.1, { p.2 with turned := false }) else p) }

mutual

def finaliseRoundF : Nat → Nat → Game → GRes
  | 0, _, g => .error (msgFuel, g)
  | fuel + 1, now, g =>
    if g.victory then .error (msgVictory, g) else
    if g.tableTop.length == 0 then .error (msgFinaliseNoCards, g) else
    match g.getRoundStarter? with
    | none => .error (msgInvalidStateNoDot, g)
    | some roundStarter =>
      let forfeitRound := (g.tableTop.map (·.2)).any (fun c => c == none)
      let step1 : GRes :=
        if forfeitRound then
          match g.getDefendingPlayerName? with
          | none => .error (msgInvalidState, g)
          | some defName =>
            match g.getPlayer? defName with
            | none => .error (msgInvalidState, g)
            | some _ =>
              let g1 := g.updatePlayer defName
                (fun q => { q with deck := q.deck ++ g.getTableTopDeck })
              -- the source re-reads getDefendingPlayerName() for the offset call
              match g1.getDefendingPlayerName? with
              | none => .error (msgInvalidState, g1)
              | some defName2 =>
                match g1.getPlayerNameByOffsetE defName2 2 with
                | .error e => .error (e, g1)
                | .ok none => .error (msgInvalidState, g1)  -- setDefendingPlayer(undefined)
                | .ok (some newDef) => g1.setDefendingPlayer newDef
        else
          match g.getDefendingPlayerName? with
          | none => .error (msgInvalidState, g)
          | some defName =>
            match g.getPlayerNameByOffsetE defName 1 with
            | .error e => .error (e, g)
            | .ok none => .error (msgInvalidState, g)  -- setDefendingPlayer(undefined)
            | .ok (some newDef) => g.setDefendingPlayer newDef
      match step1 with
      | .error e => .error e
      | .ok g2 =>
        let g3 : Game := { g2 with tableTop := [] }  -- voidTableTop()
        let repl : GRes :=
          if g3.deck.length > 0 then
            replenishLoop roundStarter g3.getActivePlayers.length 0 g3
          else .ok g3
        match repl with
        | .error e => .error e
        | .ok g4 =>
          match sweepLoopF fuel now (g4.getActivePlayers.map (·.1)) true g4 with
          | .error e => .error e
          | .ok (g5, hasVictory) => .ok { g5 with victory := hasVictory }

/-- The elimination/victory sweep (lines 190-208): a `forEach` over a snapshot of
the active players taken at entry; each body re-reads the live player record.
`hasVictory` is the accumulated flag, initially `true`. -/
def sweepLoopF : Nat → Nat → List String → Bool → Game → Except (String × Game) (Game × Bool)
  | 0, _, names, hasVictory, g =>
    match names with
    | [] => .ok (g, hasVictory)
    | _ :: _ => .error (msgFuel, g)
  | fuel + 1, now, names, hasVictory, g =>
    match names with
    | [] => .ok (g, hasVictory)
    | name :: rest =>
      match g.getPlayer? name with
      | none => .error (msgInvalidState, g)  -- unreachable: snapshot of existing keys
      | some p =>
        let afterMark : GRes :=
          if p.deck.length == 0 then
            let gm := g.updatePlayer name (fun q => { q with out := some now })
            finalisePlayerTurnF fuel now name gm
          else .ok g
        match afterMark with
        | .error e => .error e
        | .ok g1 =>
          match g1.getDefendingPlayerName? with
          | none => .error (msgInvalidState, g1)
          | some defName =>
            match g1.getPlayer? name with
            | none => .error (msgInvalidState, g1)
            | some pNow =>
              let hasVictory := if name != defName && pNow.out == none then false else hasVictory
              sweepLoopF fuel now rest hasVictory g1

def finalisePlayerTurnF : Nat → Nat → String → Game → GRes
  | 0, _, _, g => .error (msgFuel, g)
  | fuel + 1, now, name, g =>
    if g.victory then .error (msgVictory, g) else
    if g.tableTop.length == 0 then .error (msgFinaliseTurnNoCards, g) else
    match g.getPlayer? name with
    | none => .error (msgInvalidState, g)
    | some _ =>
      let g1 := g.updatePlayer name (fun q => { q with turned := true })
      match g1.getDefendingPlayerName? with
      | none => .error (msgInvalidState, g1)
      | some defendingPlayerName =>
        match g1.getPlayerNameByOffsetE defendingPlayerName (-1) with
        | .error e => .error (e, g1)
        | .ok attackingPlayer =>
          -- `attackingPlayer === name` is false when the lookup gave undefined
          let g2 :=
            if attackingPlayer == some name || defendingPlayerName == name then
              g1.grantAttackExceptDefender defendingPlayerName
            else g1
          let step1 : GRes :=
            if g2.getActivePlayers.all (fun p => p.2.turned) then finaliseRoundF fuel now g2
            else .ok g2
          match step1 with
          | .error e => .error e
          | .ok g3 =>
            let canFinalise := g3.getActivePlayers.all
              (fun p => p.2.turned || p.1 == defendingPlayerName)
            let uncoveredCards := g3.tableTop.length - g3.getCoveredCount
            let step2 : GRes :=
              if name == defendingPlayerName then
                match g3.getPlayer? name with
                | none => .error (msgInvalidState, g3)  -- unreachable: keys are stable
                | some pNow =>
                  if g3.tableTop.length == 6 || uncoveredCards == pNow.deck.length ||
                      (g3.tableTop.length == 4 && uncoveredCards == 4 &&
                        jsSetSpreadSize g3.getTableTopDeck == 1) then
                    finaliseRoundF fuel now g3
                  else .ok g3
              else .ok g3
            match step2 with
            | .error e => .error e
            | .ok g4 =>
              if canFinalise && g4.getCoveredCount == g4.tableTop.length then
                finaliseRoundF fuel now g4
              else .ok g4

end

/-! ### `addCardToTableTop` (lines 235-301) -/

/-- `tableTopCards.map(item => parseCard(item).value)`: parses every element
(the first malformed label throws), then the values. -/
def parseValuesE (cards : List String) : Except String (List Nat) :=
  cards.mapM (fun c => (parseCardE c).map (·.value))

/-- `Array.from(tableTop.keys()).some(c => parseCard(c).value !== v)`: sequential
short-circuit evaluation, parsing (and possibly throwing) as it goes. -/
def someKeyValueNeq (target : Nat) : List String → Except String Bool
  | [] => .ok false
  | c :: rest =>
    match parseCardE c with
    | .error e => .error e
    | .ok cc => if cc.value != target then .ok true else someKeyValueNeq target rest

def addCardToTableTopF (fuel : Nat) (now : Nat) (name card : String) (g : Game) : GRes :=
  if g.victory then .error (msgVictory, g) else
  if g.tableTop.length == 6 then .error (msgTableFull, g) else
  match g.getPlayer? name with
  | none => .error (msgInvalidState, g)  -- getPlayer throws for an unknown name
  | some player =>
    if !(player.deck.contains card) then .error (msgNotHolding, g) else
    match parseCardE card with
    | .error e => .error (e, g)
    | .ok coveringCard =>
      let tableTopCards := g.getTableTopDeck
      match parseValuesE tableTopCards with
      | .error e => .error (e, g)
      | .ok vals =>
        if tableTopCards.length > 0 && !(vals.contains coveringCard.value) then
          .error (msgRankMismatch, g)
        else
          let step1 : GRes :=
            if player.isDefending then
              if g.getCoveredCount != 0 then .error (msgTransferCovered, g) else
              match g.getPlayerNameByOffsetE name 1 with
              | .error e => .error (e, g)
              | .ok none => .error (msgInvalidState, g)  -- getPlayer(undefined) throws
              | .ok (some nextName) =>
                match g.getPlayer? nextName with
                | none => .error (msgInvalidState, g)
                | some nextPlayer =>
                  if g.tableTop.length + 1 > nextPlayer.deck.length then
                    .error (msgNotEnough, g)
                  else
                    match someKeyValueNeq coveringCard.value (g.tableTop.map (·.1)) with
                    | .error e => .error (e, g)
                    | .ok bad =>
                      if bad then .error (msgImproperTransfer, g) else
                      -- the source recomputes getPlayerNameByOffset(name, 1) here
                      match g.getPlayerNameByOffsetE name 1 with
                      | .error e => .error (e, g)
                      | .ok none => .error (msgInvalidState, g)
                      | .ok (some nd) => g.setDefendingPlayer nd
            else .ok g
          match step1 with
          | .error e => .error e
          | .ok g1 =>
            match g1.transferCardOntoTable name card with
            | .error e => .error e
            | .ok g2 =>
              -- `player` is the live record of `name`; re-read it
              match g2.getPlayer? name with
              | none => .error (msgInvalidState, g2)
              | some pNow =>
                if pNow.deck.length == 0 && g2.deck.length == 0 then
                  let g3 := g2.updatePlayer name (fun q => { q with out := some now })
                  match finalisePlayerTurnF fuel now name g3 with
                  | .error e => .error e
                  | .ok g4 =>
                    if g4.getActivePlayers.length == 1 then .ok { g4 with victory := true }
                    else .ok g4
                else .ok g2

/-! ### `coverCardOnTableTop` (lines 330-387) -/

def coverCardOnTableTopF (fuel : Nat) (now : Nat) (card : String) (pos : Nat) (g : Game) :
    GRes :=
  -- the defender lookup precedes even the victory check in the source
  match g.getDefendingPlayerName? with
  | none => .error (msgInvalidState, g)
  | some defName =>
    match g.getPlayer? defName with
    | none => .error (msgInvalidState, g)
    | some defendingPlayer =>
      if g.victory then .error (msgVictory, g) else
      if !(defendingPlayer.deck.contains card) then .error (msgDefCardNotInDeck, g) else
      match g.getCardOnTableTopAtE pos with
      | .error e => .error (e, g)
      | .ok none => .error (msgDefCardNotInDeck, g)
      | .ok (some placed) =>
        match parseCardE placed with
        | .error e => .error (e, g)
        | .ok placedCard =>
          match parseCardE card with
          | .error e => .error (e, g)
          | .ok coveringCard =>
            let proceed : GRes :=
              let g1 : Game := { g with tableTop := mapSet g.tableTop placed (some card) }
              let g2 := g1.updatePlayer defName
                (fun q => { q with deck := q.deck.filter (fun c => c != card) })
              match g2.getPlayer? defName with
              | none => .error (msgInvalidState, g2)
              | some defNow =>
                if g2.getCoveredCount == 6 || defNow.deck.length == 0 then
                  finaliseRoundF fuel now g2
                else
                  -- reset `turned` for every *active* player (the source comment says
                  -- "except defender" but the loop body resets the defender too)
                  .ok g2.resetTurnedActive
            if coveringCard.suit == placedCard.suit then
              if placedCard.value > coveringCard.value then .error (msgCoverTooLow, g)
              else proceed
            else if coveringCard.suit != g.trumpCard.suit then .error (msgCoverWrongSuit, g)
            else proceed

/-! ### Fuel wrappers: the public mutating interface -/

def engineFuel : Nat := 64

def Game.finaliseRound (now : Nat) (g : Game) : GRes := finaliseRoundF engineFuel now g

def Game.finalisePlayerTurn (now : Nat) (name : String) (g : Game) : GRes :=
  finalisePlayerTurnF engineFuel now name g

def Game.addCardToTableTop (now : Nat) (name card : String) (g : Game) : GRes :=
  addCardToTableTopF engineFuel now name card g

def Game.coverCardOnTableTop (now : Nat) (card : String) (pos : Nat) (g : Game) : GRes :=
  coverCardOnTableTopF engineFuel now card pos g

/-! ### Construction (lines 43-98)

`shuffleArray` permutes the freshly generated deck in place and `getRandomKey`
picks a random key of the players map; both live in the absent `utils.ts`, so
they are modelled from the spec as parameters: `shuffled` is the deck after the
shuffle, and `chosen` the picked key (`none` when the map is empty, as
`getRandomKey` of an empty collection yields `undefined`).

Note the verbatim first guard of the source:
`if (!Number.isInteger(players.length) && players.length < 1)`.
`Number.isInteger` of an array length is always true, so the conjunction is
always false and an empty name list is *not* rejected here. -/

def jsNumberIsIntegerOfLength (_n : Nat) : Bool := true

/-- One pass of the dealing loop: each player in insertion order shifts the front
card of the deck into their hand.  (With at most 8 players and a 52-card deck the
deck cannot run dry during dealing; an empty shift, which in the source would
push `undefined`, is modelled as a no-op.) -/
def dealOnce : List (String × Player) → List String → List (String × Player) × List String
  | [], deck => ([], deck)
  | (n, p) :: rest, [] =>
    let (rest', deck') := dealOnce rest []
    ((n, p) :: rest', deck')
  | (n, p) :: rest, c :: deck =>
    let (rest', deck') := dealOnce rest deck
    ((n, p.addCard c) :: rest', deck')

def dealLoop : Nat → List (String × Player) → List String → List (String × Player) × List String
  | 0, ps, deck => (ps, deck)
  | k + 1, ps, deck =>
    let (ps', deck') := dealOnce ps deck
    dealLoop k ps' deck'

def newGame (names : List String) (shuffled : List String) (chosen : Option String) :
    Except String Game :=
  if !(jsNumberIsIntegerOfLength names.length) && names.length < 1 then .error msgPositiveCount
  else if names.length > 8 then .error msgTooMany
  else if names.dedup.length != names.length then .error msgUniqueNames
  else
    let players0 := names.map (fun n => (n, ({} : Player)))
    let (players1, deck1) := dealLoop 6 players0 shuffled
    -- `trumpCard` is still unassigned at this point in the source; the draft uses a
    -- placeholder that nothing below reads before it is overwritten
    let draft : Game :=
      { deck := deck1, trumpCard := ⟨0, "", ""⟩, tableTop := [], players := players1,
        victory := false }
    match chosen with
    | none => .error msgInvalidState  -- setDefendingPlayer(undefined): getPlayer throws
    | some chosenName =>
      match draft.setDefendingPlayer chosenName with
      | .error e => .error e.1  -- a throwing constructor yields no object
      | .ok g1 =>
        match g1.deck with
        | [] => .error msgInvalidSuit  -- parseCard(undefined); unreachable for 1..8 players
        | top :: rest =>
          match parseCardE top with
          | .error e => .error e
          | .ok t =>
            .ok { g1 with trumpCard := ⟨t.value, t.suit, top⟩, deck := rest ++ [top] }

/-! ### Serialization (lines 749-758) and `fromState` (lines 116-126) -/

/-- The snapshot shape (`src/lib/engine/state.ts`): `serialize` stores the live
`Map`s and deck of the game (the opaque history reference is omitted here; the
engine never reads it). -/
structure GameState where
  players : List (String × Player)
  tableTop : List (String × Option String)
  deck : List String
  trumpCard : CardType
  victory : Bool
deriving Repr, DecidableEq

def Game.serialize (g : Game) : GameState :=
  { players := g.players, tableTop := g.tableTop, deck := g.deck, trumpCard := g.trumpCard,
    victory := g.victory }

/-- `Object.keys` applied to the snapshot's `players` field.  `serialize` stores the
engine's `Map` object there, and in JavaScript `Object.keys` of a `Map` instance
returns `[]`: map entries are not own enumerable properties. -/
def jsObjectKeysOfMap (_m : List (String × Player)) : List String := []

/-- `Object.entries` applied to a `Map`-valued field: `[]`, for the same reason. -/
def jsObjectEntriesOfPlayersMap (_m : List (String × Player)) : List (String × Player) := []

/-- `Object.entries` applied to the `Map`-valued `tableTop` field: `[]`. -/
def jsObjectEntriesOfTableMap (_m : List (String × Option String)) :
    List (String × Option String) := []

/-- `Game.fromState(state)`: runs the full constructor on `Object.keys(state.players)`
(with a fresh shuffle and random defender choice, here the parameters `shuffled` and
`chosen`), then overwrites `trumpCard`, `tableTop`, `players`, `deck` and `victory`
from the snapshot. -/
def Game.fromState (state : GameState) (shuffled : List String) (chosen : Option String) :
    Except String Game :=
  match newGame (jsObjectKeysOfMap state.players) shuffled chosen with
  | .error e => .error e
  | .ok game0 =>
    .ok { game0 with
          trumpCard := state.trumpCard,
          tableTop := jsObjectEntriesOfTableMap state.tableTop,
          players := jsObjectEntriesOfPlayersMap state.players,
          deck := state.deck,
          victory := state.victory }

/-! ### Per-player projection `getStateForPlayer` (lines 687-724) -/

/-- The shape produced for each *other* player: flags and elimination marker, with
the hand replaced by its size. -/
structure OtherPlayerView where
  name : String
  canAttack : Bool
  beganRound : Bool
  turned : Bool
  isDefending : Bool
  out : Bool
  deck : Nat
deriving Repr, DecidableEq

/-- The object literal returned by `getStateForPlayer`: the player's own record
spread (full hand), `out` as a boolean, trump card, deck *size*, the full table
top, and the transposed list of views of the other players. -/
structure PlayerGameState where
  deck : List String
  canAttack : Bool
  beganRound : Bool
  turned : Bool
  isDefending : Bool
  out : Bool
  trumpCard : CardType
  deckSize : Nat
  tableTop : List (String × Option String)
  players : List OtherPlayerView
deriving Repr, DecidableEq

def Game.getStateForPlayer (g : Game) (playerName : String) :
    Except String PlayerGameState :=
  match g.getPlayer? playerName with
  | none => .error (msgInvalidState)
  | some player =>
    let names := g.players.map (·.1)
    let idx := (names.findIdx? (fun n => n == playerName)).getD 0
    let playerOrder := names.drop (idx + 1) ++ names.take idx
    .ok
      { deck := player.deck,
        canAttack := player.canAttack,
        beganRound := player.beganRound,
        turned := player.turned,
        isDefending := player.isDefending,
        out := player.out != none,
        trumpCard := g.trumpCard,
        deckSize := g.deck.length,
        tableTop := g.tableTop,
        players := playerOrder.filterMap (fun n =>
          (g.getPlayer? n).map (fun p =>
            { name := n, canAttack := p.canAttack, beganRound := p.beganRound,
              turned := p.turned, isDefending := p.isDefending,
              out := p.out != none, deck := p.deck.length })) }

/-! ### Reachability

The states a game can actually be in: produced by the constructor (for any
shuffle outcome and any admissible random defender choice) and closed under the
four *successful* public mutations.  A call that throws leaves no new reachable
state: the spec's concurrency model (§5) treats a failed move as aborting. -/

/-- Admissible outcomes of `getRandomKey(players)`: a key of the map, or
`undefined` when the map is empty. -/
def chosenValid (names : List String) (chosen : Option String) : Prop :=
  match names with
  | [] => chosen = none
  | _ :: _ => ∃ k, chosen = some k ∧ k ∈ names

inductive Reachable : Game → Prop
  | init {names shuffled chosen g} :
      shuffled.Perm generateCardDeck → chosenValid names chosen →
      newGame names shuffled chosen = .ok g → Reachable g
  | attack {g g' : Game} {now : Nat} {name card : String} :
      Reachable g → Game.addCardToTableTop now name card g = .ok g' → Reachable g'
  | cover {g g' : Game} {now : Nat} {card : String} {pos : Nat} :
      Reachable g → Game.coverCardOnTableTop now card pos g = .ok g' → Reachable g'
  | turn {g g' : Game} {now : Nat} {name : String} :
      Reachable g → Game.finalisePlayerTurn now name g = .ok g' → Reachable g'
  | roundEnd {g g' : Game} {now : Nat} :
      Reachable g → Game.finaliseRound now g = .ok g' → Reachable g'

/-! ### Quantities the claims speak about -/

/-- Total number of cards in all hands. -/
def Game.handsTotal (g : Game) : Nat := (g.players.map (fun p => p.2.deck.length)).sum

/-- INV1's left-hand side: deck size + hand sizes + cards on the table top
(uncovered keys plus non-null covering values). -/
def Game.cardsInPlay (g : Game) : Nat :=
  g.deck.length + g.handsTotal + g.getTableTopDeck.length

/-- Number of players that are not eliminated (`out === null`) and have
`isDefending` set. -/
def Game.activeDefenderCount (g : Game) : Nat :=
  (g.players.filter (fun p => p.2.out == none && p.2.isDefending)).length

/-- The multiset of card labels currently in play: draw deck, every hand, and the
cards on the table top. -/
def Game.inPlayM (g : Game) : Multiset String :=
  (g.deck : Multiset String) + (g.players.map (fun p => (p.2.deck : Multiset String))).sum
    + (g.getTableTopDeck : Multiset String)

/-- The player-map keys are pairwise distinct (a JavaScript `Map` guarantee). -/
def NamesNodup (g : Game) : Prop := (g.players.map (·.1)).Nodup

/-- The data `activeDefenderCount` depends on: key, elimination marker and
defending flag of each player, in order. -/
def rolesOf (g : Game) : List (String × Option Nat × Bool) :=
  g.players.map (fun p => (p.1, p.2.out, p.2.isDefending))

/-- The multiset of cards held in the hands of a player list. -/
def handsMOf (l : List (String × Player)) : Multiset String :=
  (l.map (fun p => (p.2.deck : Multiset String))).sum

/-- No eliminated player is marked as defending: whenever a player is marked out
the engine has already moved the `isDefending` flag elsewhere
(`setDefendingPlayer` clears every flag before setting one on an active player). -/
def OutND (g : Game) : Prop :=
  ∀ pe ∈ g.players, pe.2.out ≠ none → pe.2.isDefending = false

/-- The engine invariant established by construction and preserved by every
successful mutation: distinct player keys, a unique active defender while the
game is running, no eliminated defender, and the cards in play forming a
sub-multiset of the generated deck (so: no duplicated card, and at most 52
cards in play). -/
def EngineInv (g : Game) : Prop :=
  NamesNodup g ∧ (g.victory = false → g.activeDefenderCount = 1) ∧ OutND g ∧
    g.inPlayM ≤ (generateCardDeck : Multiset String)

/-! ### Concrete test states

The states below are literal snapshots of a game trace; the `*_step` theorems
later in the file prove that each one is exactly the result of the stated
engine call on its predecessor, so the whole family is reachable.

`dck2` is a concrete shuffle outcome for a two-player game: hands are dealt
round-robin from the front, so player "A" receives the even and "B" the odd
positions of the first twelve cards; position 12 becomes the trump card `3H`. -/

def used2 : List String :=
  ["7H", "8H", "7D", "8D", "7C", "8C", "7S", "8S", "2H", "2C", "2D", "2S", "3H"]

def dck2 : List String := used2 ++ (generateCardDeck.filter (fun c => !(used2.contains c)))

def names2 : List String := ["A", "B"]

/-! Eight-player deal for the failure-atomicity scenario: the deck after dealing
has only four cards.  "D2" defends, "P1" attacks first in the ring, and "P3"
holds six cards that chain rank-matches so that "P3" can empty their hand while
the deck is still non-empty. -/

def d2cards : List String := ["8H", "9D", "10H", "JD", "QH", "KD"]
def p3cards : List String := ["7H", "8D", "9H", "10D", "JH", "QD"]
def tail8 : List String := ["2H", "2D", "2C", "2S"]
def used8 : List String := d2cards ++ p3cards ++ tail8
def others8 : List String := generateCardDeck.filter (fun c => !(used8.contains c))

/-- The shuffle outcome: row `r` of the deal gives positions `8r..8r+7` to the
eight players in seating order; `D2` sits at offset 1 and `P3` at offset 2. -/
def deck8 : List String :=
  (List.range 6).flatMap (fun r =>
    [others8.getD (6 * r) "", d2cards.getD r "", p3cards.getD r ""] ++
    ((others8.drop (6 * r + 1)).take 5)) ++ tail8

def names8 : List String := ["P1", "D2", "P3", "Q4", "Q5", "Q6", "Q7", "Q8"]

def sA0 : Game :=
{ deck := ["3D", "3C", "3S", "4H", "4D", "4C", "4S", "5H", "5D", "5C", "5S", "6H", "6D", "6C", "6S",
           "9H", "9D", "9C", "9S", "10H", "10D", "10C", "10S", "JH", "JD", "JC", "JS", "QH", "QD",
           "QC", "QS", "KH", "KD", "KC", "KS", "AH", "AD", "AC", "AS", "3H"],
  trumpCard := { value := 3, suit := "H", card := "3H" },
  tableTop := [],
  players := [("A",
               { deck := ["7H", "7D", "7C", "7S", "2H", "2D"],
                 canAttack := true,
                 beganRound := true,
                 turned := false,
                 isDefending := false,
                 out := none }),
              ("B",
               { deck := ["8H", "8D", "8C", "8S", "2C", "2S"],
                 canAttack := false,
                 beganRound := false,
                 turned := false,
                 isDefending := true,
                 out := none })],
  victory := false }

def sA1 : Game :=
{ deck := ["3D", "3C", "3S", "4H", "4D", "4C", "4S", "5H", "5D", "5C", "5S", "6H", "6D", "6C", "6S",
           "9H", "9D", "9C", "9S", "10H", "10D", "10C", "10S", "JH", "JD", "JC", "JS", "QH", "QD",
           "QC", "QS", "KH", "KD", "KC", "KS", "AH", "AD", "AC", "AS", "3H"],
  trumpCard := { value := 3, suit := "H", card := "3H" },
  tableTop := [("7H", none)],
  players := [("A",
               { deck := ["7D", "7C", "7S", "2H", "2D"],
                 canAttack := true,
                 beganRound := true,
                 turned := false,
                 isDefending := false,
                 out := none }),
              ("B",
               { deck := ["8H", "8D", "8C", "8S", "2C", "2S"],
                 canAttack := false,
                 beganRound := false,
                 turned := false,
                 isDefending := true,
                 out := none })],
  victory := false }

def sA2 : Game :=
{ deck := ["3D", "3C", "3S", "4H", "4D", "4C", "4S", "5H", "5D", "5C", "5S", "6H", "6D", "6C", "6S",
           "9H", "9D", "9C", "9S", "10H", "10D", "10C", "10S", "JH", "JD", "JC", "JS", "QH", "QD",
           "QC", "QS", "KH", "KD", "KC", "KS", "AH", "AD", "AC", "AS", "3H"],
  trumpCard := { value := 3, suit := "H", card := "3H" },
  tableTop := [("7H", some "8H")],
  players := [("A",
               { deck := ["7D", "7C", "7S", "2H", "2D"],
                 canAttack := true,
                 beganRound := true,
                 turned := false,
                 isDefending := false,
                 out := none }),
              ("B",
               { deck := ["8D", "8C", "8S", "2C", "2S"],
                 canAttack := false,
                 beganRound := false,
                 turned := false,
                 isDefending := true,
                 out := none })],
  victory := false }

def sA3 : Game :=
{ deck := ["3S", "4H", "4D", "4C", "4S", "5H", "5D", "5C", "5S", "6H", "6D", "6C", "6S", "9H", "9D",
           "9C", "9S", "10H", "10D", "10C", "10S", "JH", "JD", "JC", "JS", "QH", "QD", "QC", "QS",
           "KH", "KD", "KC", "KS", "AH", "AD", "AC", "AS", "3H"],
  trumpCard := { value := 3, suit := "H", card := "3H" },
  tableTop := [],
  players := [("A",
               { deck := ["7D", "7C", "7S", "2H", "2D", "3D"],
                 canAttack := false,
                 beganRound := false,
                 turned := false,
                 isDefending := true,
                 out := none }),
              ("B",
               { deck := ["8D", "8C", "8S", "2C", "2S", "3C"],
                 canAttack := true,
                 beganRound := true,
                 turned := false,
                 isDefending := false,
                 out := none })],
  victory := false }

def sB2 : Game :=
{ deck := ["3D", "3C", "3S", "4H", "4D", "4C", "4S", "5H", "5D", "5C", "5S", "6H", "6D", "6C", "6S",
           "9H", "9D", "9C", "9S", "10H", "10D", "10C", "10S", "JH", "JD", "JC", "JS", "QH", "QD",
           "QC", "QS", "KH", "KD", "KC", "KS", "AH", "AD", "AC", "AS", "3H"],
  trumpCard := { value := 3, suit := "H", card := "3H" },
  tableTop := [("7H", none), ("7D", none)],
  players := [("A",
               { deck := ["7C", "7S", "2H", "2D"],
                 canAttack := true,
                 beganRound := true,
                 turned := false,
                 isDefending := false,
                 out := none }),
              ("B",
               { deck := ["8H", "8D", "8C", "8S", "2C", "2S"],
                 canAttack := false,
                 beganRound := false,
                 turned := false,
                 isDefending := true,
                 out := none })],
  victory := false }

def sB3 : Game :=
{ deck := ["3D", "3C", "3S", "4H", "4D", "4C", "4S", "5H", "5D", "5C", "5S", "6H", "6D", "6C", "6S",
           "9H", "9D", "9C", "9S", "10H", "10D", "10C", "10S", "JH", "JD", "JC", "JS", "QH", "QD",
           "QC", "QS", "KH", "KD", "KC", "KS", "AH", "AD", "AC", "AS", "3H"],
  trumpCard := { value := 3, suit := "H", card := "3H" },
  tableTop := [("7H", none), ("7D", none), ("7C", none)],
  players := [("A",
               { deck := ["7S", "2H", "2D"],
                 canAttack := true,
                 beganRound := true,
                 turned := false,
                 isDefending := false,
                 out := none }),
              ("B",
               { deck := ["8H", "8D", "8C", "8S", "2C", "2S"],
                 canAttack := false,
                 beganRound := false,
                 turned := false,
                 isDefending := true,
                 out := none })],
  victory := false }

def sB4 : Game :=
{ deck := ["3D", "3C", "3S", "4H", "4D", "4C", "4S", "5H", "5D", "5C", "5S", "6H", "6D", "6C", "6S",
           "9H", "9D", "9C", "9S", "10H", "10D", "10C", "10S", "JH", "JD", "JC", "JS", "QH", "QD",
           "QC", "QS", "KH", "KD", "KC", "KS", "AH", "AD", "AC", "AS", "3H"],
  trumpCard := { value := 3, suit := "H", card := "3H" },
  tableTop := [("7H", none), ("7D", none), ("7C", none), ("7S", none)],
  players := [("A",
               { deck := ["2H", "2D"],
                 canAttack := true,
                 beganRound := true,
                 turned := false,
                 isDefending := false,
                 out := none }),
              ("B",
               { deck := ["8H", "8D", "8C", "8S", "2C", "2S"],
                 canAttack := false,
                 beganRound := false,
                 turned := false,
                 isDefending := true,
                 out := none })],
  victory := false }

def sB5 : Game :=
{ deck := ["3D", "3C", "3S", "4H", "4D", "4C", "4S", "5H", "5D", "5C", "5S", "6H", "6D", "6C", "6S",
           "9H", "9D", "9C", "9S", "10H", "10D", "10C", "10S", "JH", "JD", "JC", "JS", "QH", "QD",
           "QC", "QS", "KH", "KD", "KC", "KS", "AH", "AD", "AC", "AS", "3H"],
  trumpCard := { value := 3, suit := "H", card := "3H" },
  tableTop := [("7H", none), ("7D", none), ("7C", none), ("7S", none)],
  players := [("A",
               { deck := ["2H", "2D"],
                 canAttack := true,
                 beganRound := true,
                 turned := false,
                 isDefending := false,
                 out := none }),
              ("B",
               { deck := ["8H", "8D", "8C", "8S", "2C", "2S"],
                 canAttack := false,
                 beganRound := false,
                 turned := true,
                 isDefending := true,
                 out := none })],
  victory := false }

def sC0 : Game :=
{ deck := ["2D", "2C", "2S", "2H"],
  trumpCard := { value := 2, suit := "H", card := "2H" },
  tableTop := [],
  players := [("P1",
               { deck := ["3H", "4C", "6H", "7S", "10S", "KC"],
                 canAttack := true,
                 beganRound := true,
                 turned := false,
                 isDefending := false,
                 out := none }),
              ("D2",
               { deck := ["8H", "9D", "10H", "JD", "QH", "KD"],
                 canAttack := false,
                 beganRound := false,
                 turned := false,
                 isDefending := true,
                 out := none }),
              ("P3",
               { deck := ["7H", "8D", "9H", "10D", "JH", "QD"],
                 canAttack := false,
                 beganRound := false,
                 turned := false,
                 isDefending := false,
                 out := none }),
              ("Q4",
               { deck := ["3D", "4S", "6D", "8C", "JC", "KS"],
                 canAttack := false,
                 beganRound := false,
                 turned := false,
                 isDefending := false,
                 out := none }),
              ("Q5",
               { deck := ["3C", "5H", "6C", "8S", "JS", "AH"],
                 canAttack := false,
                 beganRound := false,
                 turned := false,
                 isDefending := false,
                 out := none }),
              ("Q6",
               { deck := ["3S", "5D", "6S", "9C", "QC", "AD"],
                 canAttack := false,
                 beganRound := false,
                 turned := false,
                 isDefending := false,
                 out := none }),
              ("Q7",
               { deck := ["4H", "5C", "7D", "9S", "QS", "AC"],
                 canAttack := false,
                 beganRound := false,
                 turned := false,
                 isDefending := false,
                 out := none }),
              ("Q8",
               { deck := ["4D", "5S", "7C", "10C", "KH", "AS"],
                 canAttack := false,
                 beganRound := false,
                 turned := false,
                 isDefending := false,
                 out := none })],
  victory := false }

def sC1 : Game :=
{ deck := ["2D", "2C", "2S", "2H"],
  trumpCard := { value := 2, suit := "H", card := "2H" },
  tableTop := [("7H", none)],
  players := [("P1",
               { deck := ["3H", "4C", "6H", "7S", "10S", "KC"],
                 canAttack := true,
                 beganRound := true,
                 turned := false,
                 isDefending := false,
                 out := none }),
              ("D2",
               { deck := ["8H", "9D", "10H", "JD", "QH", "KD"],
                 canAttack := false,
                 beganRound := false,
                 turned := false,
                 isDefending := true,
                 out := none }),
              ("P3",
               { deck := ["8D", "9H", "10D", "JH", "QD"],
                 canAttack := false,
                 beganRound := false,
                 turned := false,
                 isDefending := false,
                 out := none }),
              ("Q4",
               { deck := ["3D", "4S", "6D", "8C", "JC", "KS"],
                 canAttack := false,
                 beganRound := false,
                 turned := false,
                 isDefending := false,
                 out := none }),
              ("Q5",
               { deck := ["3C", "5H", "6C", "8S", "JS", "AH"],
                 canAttack := false,
                 beganRound := false,
                 turned := false,
                 isDefending := false,
                 out := none }),
              ("Q6",
               { deck := ["3S", "5D", "6S", "9C", "QC", "AD"],
                 canAttack := false,
                 beganRound := false,
                 turned := false,
                 isDefending := false,
                 out := none }),
              ("Q7",
               { deck := ["4H", "5C", "7D", "9S", "QS", "AC"],
                 canAttack := false,
                 beganRound := false,
                 turned := false,
                 isDefending := false,
                 out := none }),
              ("Q8",
               { deck := ["4D", "5S", "7C", "10C", "KH", "AS"],
                 canAttack := false,
                 beganRound := false,
                 turned := false,
                 isDefending := false,
                 out := none })],
  victory := false }

def sC2 : Game :=
{ deck := ["2D", "2C", "2S", "2H"],
  trumpCard := { value := 2, suit := "H", card := "2H" },
  tableTop := [("7H", some "8H")],
  players := [("P1",
               { deck := ["3H", "4C", "6H", "7S", "10S", "KC"],
                 canAttack := true,
                 beganRound := true,
                 turned := false,
                 isDefending := false,
                 out := none }),
              ("D2",
               { deck := ["9D", "10H", "JD", "QH", "KD"],
                 canAttack := false,
                 beganRound := false,
                 turned := false,
                 isDefending := true,
                 out := none }),
              ("P3",
               { deck := ["8D", "9H", "10D", "JH", "QD"],
                 canAttack := false,
                 beganRound := false,
                 turned := false,
                 isDefending := false,
                 out := none }),
              ("Q4",
               { deck := ["3D", "4S", "6D", "8C", "JC", "KS"],
                 canAttack := false,
                 beganRound := false,
                 turned := false,
                 isDefending := false,
                 out := none }),
              ("Q5",
               { deck := ["3C", "5H", "6C", "8S", "JS", "AH"],
                 canAttack := false,
                 beganRound := false,
                 turned := false,
                 isDefending := false,
                 out := none }),
              ("Q6",
               { deck := ["3S", "5D", "6S", "9C", "QC", "AD"],
                 canAttack := false,
                 beganRound := false,
                 turned := false,
                 isDefending := false,
                 out := none }),
              ("Q7",
               { deck := ["4H", "5C", "7D", "9S", "QS", "AC"],
                 canAttack := false,
                 beganRound := false,
                 turned := false,
                 isDefending := false,
                 out := none }),
              ("Q8",
               { deck := ["4D", "5S", "7C", "10C", "KH", "AS"],
                 canAttack := false,
                 beganRound := false,
                 turned := false,
                 isDefending := false,
                 out := none })],
  victory := false }

def sC3 : Game :=
{ deck := ["2D", "2C", "2S", "2H"],
  trumpCard := { value := 2, suit := "H", card := "2H" },
  tableTop := [("7H", some "8H"), ("8D", none)],
  players := [("P1",
               { deck := ["3H", "4C", "6H", "7S", "10S", "KC"],
                 canAttack := true,
                 beganRound := true,
                 turned := false,
                 isDefending := false,
                 out := none }),
              ("D2",
               { deck := ["9D", "10H", "JD", "QH", "KD"],
                 canAttack := false,
                 beganRound := false,
                 turned := false,
                 isDefending := true,
                 out := none }),
              ("P3",
               { deck := ["9H", "10D", "JH", "QD"],
                 canAttack := false,
                 beganRound := false,
                 turned := false,
                 isDefending := false,
                 out := none }),
              ("Q4",
               { deck := ["3D", "4S", "6D", "8C", "JC", "KS"],
                 canAttack := false,
                 beganRound := false,
                 turned := false,
                 isDefending := false,
                 out := none }),
              ("Q5",
               { deck := ["3C", "5H", "6C", "8S", "JS", "AH"],
                 canAttack := false,
                 beganRound := false,
                 turned := false,
                 isDefending := false,
                 out := none }),
              ("Q6",
               { deck := ["3S", "5D", "6S", "9C", "QC", "AD"],
                 canAttack := false,
                 beganRound := false,
                 turned := false,
                 isDefending := false,
                 out := none }),
              ("Q7",
               { deck := ["4H", "5C", "7D", "9S", "QS", "AC"],
                 canAttack := false,
                 beganRound := false,
                 turned := false,
                 isDefending := false,
                 out := none }),
              ("Q8",
               { deck := ["4D", "5S", "7C", "10C", "KH", "AS"],
                 canAttack := false,
                 beganRound := false,
                 turned := false,
                 isDefending := false,
                 out := none })],
  victory := false }

def sC4 : Game :=
{ deck := ["2D", "2C", "2S", "2H"],
  trumpCard := { value := 2, suit := "H", card := "2H" },
  tableTop := [("7H", some "8H"), ("8D", some "9D")],
  players := [("P1",
               { deck := ["3H", "4C", "6H", "7S", "10S", "KC"],
                 canAttack := true,
                 beganRound := true,
                 turned := false,
                 isDefending := false,
                 out := none }),
              ("D2",
               { deck := ["10H", "JD", "QH", "KD"],
                 canAttack := false,
                 beganRound := false,
                 turned := false,
                 isDefending := true,
                 out := none }),
              ("P3",
               { deck := ["9H", "10D", "JH", "QD"],
                 canAttack := false,
                 beganRound := false,
                 turned := false,
                 isDefending := false,
                 out := none }),
              ("Q4",
               { deck := ["3D", "4S", "6D", "8C", "JC", "KS"],
                 canAttack := false,
                 beganRound := false,
                 turned := false,
                 isDefending := false,
                 out := none }),
              ("Q5",
               { deck := ["3C", "5H", "6C", "8S", "JS", "AH"],
                 canAttack := false,
                 beganRound := false,
                 turned := false,
                 isDefending := false,
                 out := none }),
              ("Q6",
               { deck := ["3S", "5D", "6S", "9C", "QC", "AD"],
                 canAttack := false,
                 beganRound := false,
                 turned := false,
                 isDefending := false,
                 out := none }),
              ("Q7",
               { deck := ["4H", "5C", "7D", "9S", "QS", "AC"],
                 canAttack := false,
                 beganRound := false,
                 turned := false,
                 isDefending := false,
                 out := none }),
              ("Q8",
               { deck := ["4D", "5S", "7C", "10C", "KH", "AS"],
                 canAttack := false,
                 beganRound := false,
                 turned := false,
                 isDefending := false,
                 out := none })],
  victory := false }

def sC5 : Game :=
{ deck := ["2D", "2C", "2S", "2H"],
  trumpCard := { value := 2, suit := "H", card := "2H" },
  tableTop := [("7H", some "8H"), ("8D", some "9D"), ("9H", none)],
  players := [("P1",
               { deck := ["3H", "4C", "6H", "7S", "10S", "KC"],
                 canAttack := true,
                 beganRound := true,
                 turned := false,
                 isDefending := false,
                 out := none }),
              ("D2",
               { deck := ["10H", "JD", "QH", "KD"],
                 canAttack := false,
                 beganRound := false,
                 turned := false,
                 isDefending := true,
                 out := none }),
              ("P3",
               { deck := ["10D", "JH", "QD"],
                 canAttack := false,
                 beganRound := false,
                 turned := false,
                 isDefending := false,
                 out := none }),
              ("Q4",
               { deck := ["3D", "4S", "6D", "8C", "JC", "KS"],
                 canAttack := false,
                 beganRound := false,
                 turned := false,
                 isDefending := false,
                 out := none }),
              ("Q5",
               { deck := ["3C", "5H", "6C", "8S", "JS", "AH"],
                 canAttack := false,
                 beganRound := false,
                 turned := false,
                 isDefending := false,
                 out := none }),
              ("Q6",
               { deck := ["3S", "5D", "6S", "9C", "QC", "AD"],
                 canAttack := false,
                 beganRound := false,
                 turned := false,
                 isDefending := false,
                 out := none }),
              ("Q7",
               { deck := ["4H", "5C", "7D", "9S", "QS", "AC"],
                 canAttack := false,
                 beganRound := false,
                 turned := false,
                 isDefending := false,
                 out := none }),
              ("Q8",
               { deck := ["4D", "5S", "7C", "10C", "KH", "AS"],
                 canAttack := false,
                 beganRound := false,
                 turned := false,
                 isDefending := false,
                 out := none })],
  victory := false }

def sC6 : Game :=
{ deck := ["2D", "2C", "2S", "2H"],
  trumpCard := { value := 2, suit := "H", card := "2H" },
  tableTop := [("7H", some "8H"), ("8D", some "9D"), ("9H", some "10H")],
  players := [("P1",
               { deck := ["3H", "4C", "6H", "7S", "10S", "KC"],
                 canAttack := true,
                 beganRound := true,
                 turned := false,
                 isDefending := false,
                 out := none }),
              ("D2",
               { deck := ["JD", "QH", "KD"],
                 canAttack := false,
                 beganRound := false,
                 turned := false,
                 isDefending := true,
                 out := none }),
              ("P3",
               { deck := ["10D", "JH", "QD"],
                 canAttack := false,
                 beganRound := false,
                 turned := false,
                 isDefending := false,
                 out := none }),
              ("Q4",
               { deck := ["3D", "4S", "6D", "8C", "JC", "KS"],
                 canAttack := false,
                 beganRound := false,
                 turned := false,
                 isDefending := false,
                 out := none }),
              ("Q5",
               { deck := ["3C", "5H", "6C", "8S", "JS", "AH"],
                 canAttack := false,
                 beganRound := false,
                 turned := false,
                 isDefending := false,
                 out := none }),
              ("Q6",
               { deck := ["3S", "5D", "6S", "9C", "QC", "AD"],
                 canAttack := false,
                 beganRound := false,
                 turned := false,
                 isDefending := false,
                 out := none }),
              ("Q7",
               { deck := ["4H", "5C", "7D", "9S", "QS", "AC"],
                 canAttack := false,
                 beganRound := false,
                 turned := false,
                 isDefending := false,
                 out := none }),
              ("Q8",
               { deck := ["4D", "5S", "7C", "10C", "KH", "AS"],
                 canAttack := false,
                 beganRound := false,
                 turned := false,
                 isDefending := false,
                 out := none })],
  victory := false }

def sC7 : Game :=
{ deck := ["2D", "2C", "2S", "2H"],
  trumpCard := { value := 2, suit := "H", card := "2H" },
  tableTop := [("7H", some "8H"), ("8D", some "9D"), ("9H", some "10H"), ("10D", none)],
  players := [("P1",
               { deck := ["3H", "4C", "6H", "7S", "10S", "KC"],
                 canAttack := true,
                 beganRound := true,
                 turned := false,
                 isDefending := false,
                 out := none }),
              ("D2",
               { deck := ["JD", "QH", "KD"],
                 canAttack := false,
                 beganRound := false,
                 turned := false,
                 isDefending := true,
                 out := none }),
              ("P3",
               { deck := ["JH", "QD"],
                 canAttack := false,
                 beganRound := false,
                 turned := false,
                 isDefending := false,
                 out := none }),
              ("Q4",
               { deck := ["3D", "4S", "6D", "8C", "JC", "KS"],
                 canAttack := false,
                 beganRound := false,
                 turned := false,
                 isDefending := false,
                 out := none }),
              ("Q5",
               { deck := ["3C", "5H", "6C", "8S", "JS", "AH"],
                 canAttack := false,
                 beganRound := false,
                 turned := false,
                 isDefending := false,
                 out := none }),
              ("Q6",
               { deck := ["3S", "5D", "6S", "9C", "QC", "AD"],
                 canAttack := false,
                 beganRound := false,
                 turned := false,
                 isDefending := false,
                 out := none }),
              ("Q7",
               { deck := ["4H", "5C", "7D", "9S", "QS", "AC"],
                 canAttack := false,
                 beganRound := false,
                 turned := false,
                 isDefending := false,
                 out := none }),
              ("Q8",
               { deck := ["4D", "5S", "7C", "10C", "KH", "AS"],
                 canAttack := false,
                 beganRound := false,
                 turned := false,
                 isDefending := false,
                 out := none })],
  victory := false }

def sC8 : Game :=
{ deck := ["2D", "2C", "2S", "2H"],
  trumpCard := { value := 2, suit := "H", card := "2H" },
  tableTop := [("7H", some "8H"), ("8D", some "9D"), ("9H", some "10H"), ("10D", some "JD")],
  players := [("P1",
               { deck := ["3H", "4C", "6H", "7S", "10S", "KC"],
                 canAttack := true,
                 beganRound := true,
                 turned := false,
                 isDefending := false,
                 out := none }),
              ("D2",
               { deck := ["QH", "KD"],
                 canAttack := false,
                 beganRound := false,
                 turned := false,
                 isDefending := true,
                 out := none }),
              ("P3",
               { deck := ["JH", "QD"],
                 canAttack := false,
                 beganRound := false,
                 turned := false,
                 isDefending := false,
                 out := none }),
              ("Q4",
               { deck := ["3D", "4S", "6D", "8C", "JC", "KS"],
                 canAttack := false,
                 beganRound := false,
                 turned := false,
                 isDefending := false,
                 out := none }),
              ("Q5",
               { deck := ["3C", "5H", "6C", "8S", "JS", "AH"],
                 canAttack := false,
                 beganRound := false,
                 turned := false,
                 isDefending := false,
                 out := none }),
              ("Q6",
               { deck := ["3S", "5D", "6S", "9C", "QC", "AD"],
                 canAttack := false,
                 beganRound := false,
                 turned := false,
                 isDefending := false,
                 out := none }),
              ("Q7",
               { deck := ["4H", "5C", "7D", "9S", "QS", "AC"],
                 canAttack := false,
                 beganRound := false,
                 turned := false,
                 isDefending := false,
                 out := none }),
              ("Q8",
               { deck := ["4D", "5S", "7C", "10C", "KH", "AS"],
                 canAttack := false,
                 beganRound := false,
                 turned := false,
                 isDefending := false,
                 out := none })],
  victory := false }

def sC9 : Game :=
{ deck := ["2D", "2C", "2S", "2H"],
  trumpCard := { value := 2, suit := "H", card := "2H" },
  tableTop := [("7H", some "8H"),
               ("8D", some "9D"),
               ("9H", some "10H"),
               ("10D", some "JD"),
               ("JH", none)],
  players := [("P1",
               { deck := ["3H", "4C", "6H", "7S", "10S", "KC"],
                 canAttack := true,
                 beganRound := true,
                 turned := false,
                 isDefending := false,
                 out := none }),
              ("D2",
               { deck := ["QH", "KD"],
                 canAttack := false,
                 beganRound := false,
                 turned := false,
                 isDefending := true,
                 out := none }),
              ("P3",
               { deck := ["QD"],
                 canAttack := false,
                 beganRound := false,
                 turned := false,
                 isDefending := false,
                 out := none }),
              ("Q4",
               { deck := ["3D", "4S", "6D", "8C", "JC", "KS"],
                 canAttack := false,
                 beganRound := false,
                 turned := false,
                 isDefending := false,
                 out := none }),
              ("Q5",
               { deck := ["3C", "5H", "6C", "8S", "JS", "AH"],
                 canAttack := false,
                 beganRound := false,
                 turned := false,
                 isDefending := false,
                 out := none }),
              ("Q6",
               { deck := ["3S", "5D", "6S", "9C", "QC", "AD"],
                 canAttack := false,
                 beganRound := false,
                 turned := false,
                 isDefending := false,
                 out := none }),
              ("Q7",
               { deck := ["4H", "5C", "7D", "9S", "QS", "AC"],
                 canAttack := false,
                 beganRound := false,
                 turned := false,
                 isDefending := false,
                 out := none }),
              ("Q8",
               { deck := ["4D", "5S", "7C", "10C", "KH", "AS"],
                 canAttack := false,
                 beganRound := false,
                 turned := false,
                 isDefending := false,
                 out := none })],
  victory := false }

def sC10 : Game :=
{ deck := ["2D", "2C", "2S", "2H"],
  trumpCard := { value := 2, suit := "H", card := "2H" },
  tableTop := [("7H", some "8H"),
               ("8D", some "9D"),
               ("9H", some "10H"),
               ("10D", some "JD"),
               ("JH", some "QH")],
  players := [("P1",
               { deck := ["3H", "4C", "6H", "7S", "10S", "KC"],
                 canAttack := true,
                 beganRound := true,
                 turned := false,
                 isDefending := false,
                 out := none }),
              ("D2",
               { deck := ["KD"],
                 canAttack := false,
                 beganRound := false,
                 turned := false,
                 isDefending := true,
                 out := none }),
              ("P3",
               { deck := ["QD"],
                 canAttack := false,
                 beganRound := false,
                 turned := false,
                 isDefending := false,
                 out := none }),
              ("Q4",
               { deck := ["3D", "4S", "6D", "8C", "JC", "KS"],
                 canAttack := false,
                 beganRound := false,
                 turned := false,
                 isDefending := false,
                 out := none }),
              ("Q5",
               { deck := ["3C", "5H", "6C", "8S", "JS", "AH"],
                 canAttack := false,
                 beganRound := false,
                 turned := false,
                 isDefending := false,
                 out := none }),
              ("Q6",
               { deck := ["3S", "5D", "6S", "9C", "QC", "AD"],
                 canAttack := false,
                 beganRound := false,
                 turned := false,
                 isDefending := false,
                 out := none }),
              ("Q7",
               { deck := ["4H", "5C", "7D", "9S", "QS", "AC"],
                 canAttack := false,
                 beganRound := false,
                 turned := false,
                 isDefending := false,
                 out := none }),
              ("Q8",
               { deck := ["4D", "5S", "7C", "10C", "KH", "AS"],
                 canAttack := false,
                 beganRound := false,
                 turned := false,
                 isDefending := false,
                 out := none })],
  victory := false }

def sC11 : Game :=
{ deck := ["2D", "2C", "2S", "2H"],
  trumpCard := { value := 2, suit := "H", card := "2H" },
  tableTop := [("7H", some "8H"),
               ("8D", some "9D"),
               ("9H", some "10H"),
               ("10D", some "JD"),
               ("JH", some "QH"),
               ("QD", none)],
  players := [("P1",
               { deck := ["3H", "4C", "6H", "7S", "10S", "KC"],
                 canAttack := true,
                 beganRound := true,
                 turned := false,
                 isDefending := false,
                 out := none }),
              ("D2",
               { deck := ["KD"],
                 canAttack := false,
                 beganRound := false,
                 turned := false,
                 isDefending := true,
                 out := none }),
              ("P3",
               { deck := [],
                 canAttack := false,
                 beganRound := false,
                 turned := false,
                 isDefending := false,
                 out := none }),
              ("Q4",
               { deck := ["3D", "4S", "6D", "8C", "JC", "KS"],
                 canAttack := false,
                 beganRound := false,
                 turned := false,
                 isDefending := false,
                 out := none }),
              ("Q5",
               { deck := ["3C", "5H", "6C", "8S", "JS", "AH"],
                 canAttack := false,
                 beganRound := false,
                 turned := false,
                 isDefending := false,
                 out := none }),
              ("Q6",
               { deck := ["3S", "5D", "6S", "9C", "QC", "AD"],
                 canAttack := false,
                 beganRound := false,
                 turned := false,
                 isDefending := false,
                 out := none }),
              ("Q7",
               { deck := ["4H", "5C", "7D", "9S", "QS", "AC"],
                 canAttack := false,
                 beganRound := false,
                 turned := false,
                 isDefending := false,
                 out := none }),
              ("Q8",
               { deck := ["4D", "5S", "7C", "10C", "KH", "AS"],
                 canAttack := false,
                 beganRound := false,
                 turned := false,
                 isDefending := false,
                 out := none })],
  victory := false }

def sC12bad : Game :=
{ deck := [],
  trumpCard := { value := 2, suit := "H", card := "2H" },
  tableTop := [],
  players := [("P1",
               { deck := ["3H", "4C", "6H", "7S", "10S", "KC"],
                 canAttack := false,
                 beganRound := false,
                 turned := false,
                 isDefending := false,
                 out := none }),
              ("D2",
               { deck := ["2D", "2C", "2S", "2H"],
                 canAttack := true,
                 beganRound := true,
                 turned := false,
                 isDefending := false,
                 out := none }),
              ("P3",
               { deck := [],
                 canAttack := false,
                 beganRound := false,
                 turned := false,
                 isDefending := true,
                 out := some 0 }),
              ("Q4",
               { deck := ["3D", "4S", "6D", "8C", "JC", "KS"],
                 canAttack := false,
                 beganRound := false,
                 turned := false,
                 isDefending := false,
                 out := none }),
              ("Q5",
               { deck := ["3C", "5H", "6C", "8S", "JS", "AH"],
                 canAttack := false,
                 beganRound := false,
                 turned := false,
                 isDefending := false,
                 out := none }),
              ("Q6",
               { deck := ["3S", "5D", "6S", "9C", "QC", "AD"],
                 canAttack := false,
                 beganRound := false,
                 turned := false,
                 isDefending := false,
                 out := none }),
              ("Q7",
               { deck := ["4H", "5C", "7D", "9S", "QS", "AC"],
                 canAttack := false,
                 beganRound := false,
                 turned := false,
                 isDefending := false,
                 out := none }),
              ("Q8",
               { deck := ["4D", "5S", "7C", "10C", "KH", "AS"],
                 canAttack := false,
                 beganRound := false,
                 turned := false,
                 isDefending := false,
                 out := none })],
  victory := false }


/-- For the projection claim: the same state as `sA1` except that "B" holds six
different cards and the draw deck is a different 39-card sequence. -/
def sA1x : Game :=
  { (sA1.updatePlayer "B" (fun q => { q with deck := ["AH", "AD", "AC", "AS", "KH", "KC"] }))
    with deck := sA1.deck.reverse }

/-! ### Observational equivalence for the projection claim

Two states are `ObsEquivFor viewer` when they differ at most in the *contents*
of the draw deck and of the other players\x27 hands (sizes preserved), and in the
numeric values of elimination timestamps: exactly the data `getStateForPlayer`
is supposed to hide from `viewer`. -/

def PlayerViewEq (viewer : String) (p q : String × Player) : Prop :=
  p.1 = q.1 ∧ q.2.canAttack = p.2.canAttack ∧ q.2.beganRound = p.2.beganRound ∧
    q.2.turned = p.2.turned ∧ q.2.isDefending = p.2.isDefending ∧
    (q.2.out = none ↔ p.2.out = none) ∧ q.2.deck.length = p.2.deck.length ∧
    (p.1 = viewer → q.2.deck = p.2.deck)

def ObsEquivFor (viewer : String) (g g' : Game) : Prop :=
  g'.trumpCard = g.trumpCard ∧ g'.tableTop = g.tableTop ∧
    g'.deck.length = g.deck.length ∧
    List.Forall₂ (PlayerViewEq viewer) g.players g'.players

/-! ### The step theorems: each literal state is the result of the stated call -/

theorem dck2_perm : dck2.Perm generateCardDeck := List.isPerm_iff.mp (by decide)

theorem deck8_perm : deck8.Perm generateCardDeck := List.isPerm_iff.mp (by decide)

theorem sA0_step : newGame names2 dck2 (some "B") = .ok sA0 := rfl

theorem sA1_step : Game.addCardToTableTop 0 "A" "7H" sA0 = .ok sA1 := rfl

theorem sA2_step : Game.coverCardOnTableTop 0 "8H" 0 sA1 = .ok sA2 := rfl

theorem sA3_step : Game.finalisePlayerTurn 0 "A" sA2 = .ok sA3 := rfl

theorem sB2_step : Game.addCardToTableTop 0 "A" "7D" sA1 = .ok sB2 := rfl

theorem sB3_step : Game.addCardToTableTop 0 "A" "7C" sB2 = .ok sB3 := rfl

theorem sB4_step : Game.addCardToTableTop 0 "A" "7S" sB3 = .ok sB4 := rfl

theorem sB5_step : Game.finalisePlayerTurn 0 "B" sB4 = .ok sB5 := rfl

theorem sC0_step : newGame names8 deck8 (some "D2") = .ok sC0 := rfl

theorem sC1_step : Game.addCardToTableTop 0 "P3" "7H" sC0 = .ok sC1 := rfl

theorem sC2_step : Game.coverCardOnTableTop 0 "8H" 0 sC1 = .ok sC2 := rfl

theorem sC3_step : Game.addCardToTableTop 0 "P3" "8D" sC2 = .ok sC3 := rfl

theorem sC4_step : Game.coverCardOnTableTop 0 "9D" 1 sC3 = .ok sC4 := rfl

theorem sC5_step : Game.addCardToTableTop 0 "P3" "9H" sC4 = .ok sC5 := rfl

theorem sC6_step : Game.coverCardOnTableTop 0 "10H" 2 sC5 = .ok sC6 := rfl

theorem sC7_step : Game.addCardToTableTop 0 "P3" "10D" sC6 = .ok sC7 := rfl

theorem sC8_step : Game.coverCardOnTableTop 0 "JD" 3 sC7 = .ok sC8 := rfl

theorem sC9_step : Game.addCardToTableTop 0 "P3" "JH" sC8 = .ok sC9 := rfl

theorem sC10_step : Game.coverCardOnTableTop 0 "QH" 4 sC9 = .ok sC10 := rfl

theorem sC11_step : Game.addCardToTableTop 0 "P3" "QD" sC10 = .ok sC11 := rfl

theorem sC12_step :
    Game.coverCardOnTableTop 0 "KD" 5 sC11 = .error (msgFinaliseTurnNoCards, sC12bad) := rfl

/-! ### Reachability of the concrete states -/

theorem chosen2_valid : chosenValid names2 (some "B") := ⟨"B", rfl, by decide⟩

theorem chosen8_valid : chosenValid names8 (some "D2") := ⟨"D2", rfl, by decide⟩

theorem reach_sA0 : Reachable sA0 := .init dck2_perm chosen2_valid sA0_step

theorem reach_sA1 : Reachable sA1 := .attack reach_sA0 sA1_step

theorem reach_sA2 : Reachable sA2 := .cover reach_sA1 sA2_step

theorem reach_sA3 : Reachable sA3 := .turn reach_sA2 sA3_step

theorem reach_sB2 : Reachable sB2 := .attack reach_sA1 sB2_step

theorem reach_sB3 : Reachable sB3 := .attack reach_sB2 sB3_step

theorem reach_sB4 : Reachable sB4 := .attack reach_sB3 sB4_step

theorem reach_sB5 : Reachable sB5 := .turn reach_sB4 sB5_step

theorem reach_sC0 : Reachable sC0 := .init deck8_perm chosen8_valid sC0_step

theorem reach_sC1 : Reachable sC1 := .attack reach_sC0 sC1_step

theorem reach_sC2 : Reachable sC2 := .cover reach_sC1 sC2_step

theorem reach_sC3 : Reachable sC3 := .attack reach_sC2 sC3_step

theorem reach_sC4 : Reachable sC4 := .cover reach_sC3 sC4_step

theorem reach_sC5 : Reachable sC5 := .attack reach_sC4 sC5_step

theorem reach_sC6 : Reachable sC6 := .cover reach_sC5 sC6_step

theorem reach_sC7 : Reachable sC7 := .attack reach_sC6 sC7_step

theorem reach_sC8 : Reachable sC8 := .cover reach_sC7 sC8_step

theorem reach_sC9 : Reachable sC9 := .attack reach_sC8 sC9_step

theorem reach_sC10 : Reachable sC10 := .cover reach_sC9 sC10_step

theorem reach_sC11 : Reachable sC11 := .attack reach_sC10 sC11_step

/-! ### Claim C1 -/

/-- **C1.** The claim states that `Game.fromState(g.serialize())` reconstructs a game
observationally equal to `g`.  In fact the composition *never* yields a game:
`serialize` stores the engine's `Map` objects in the snapshot, and `fromState`
reads them back with `Object.keys` / `Object.entries`, which return `[]` on a
JavaScript `Map`.  The constructor therefore runs on an empty name list and its
`setDefendingPlayer(getRandomKey(emptyMap))` call throws `Invalid game state.`
(for *any* fresh shuffle and any admissible random key, including the
`undefined` that `getRandomKey` yields on the empty reconstructed player map).
This proves the claim false on the code; the in-repo test
"Game.fromState should produce the same object" (game.spec.ts) documents that
the round-trip was intended to succeed, so the code, not the claim, is wrong. -/
theorem c1_fromState_of_serialize_always_throws :
    ∀ (g : Game) (shuffled : List String) (chosen : Option String),
      Game.fromState (Game.serialize g) shuffled chosen = .error msgInvalidState := by
  intro g shuffled chosen
  cases chosen <;> rfl

/-! ### Claim C5 -/

/-- **C5.** Construction from the empty name list is claimed to fail with the
invalid-player-count error.  It does fail — but with `Invalid game state.`, thrown
much later by `setDefendingPlayer(undefined)`: the guard
`if (!Number.isInteger(players.length) && players.length < 1)` uses `&&` where the
intent (visible in its own error message "Number of players must be a positive
integer.") requires `||`, and `Number.isInteger` of an array length is always
true, so the guard never fires.  The count/duplicate checks for the other cases
(`> 8`, duplicates within 1..8, success for 1..8 unique names) behave as claimed;
the empty list is the failing input. -/
theorem c5_empty_roster_not_rejected_by_count_guard :
    (∀ (shuffled : List String) (chosen : Option String),
        newGame [] shuffled chosen = .error msgInvalidState) ∧
      msgInvalidState ≠ msgPositiveCount := by
  refine ⟨fun shuffled chosen => ?_, by decide⟩
  cases chosen <;> rfl

/-! ### Claim C7 -/

/-- **C7.** In the reachable state `sB4` the table holds exactly four uncovered
entries, all of rank 7, the defender "B" holds six cards (≠ 4) and the table is
not full, yet `finalisePlayerTurn("B")` does *not* invoke `finaliseRound`: the
round-end would have cleared the table, but the table survives unchanged.  The
source evaluates `new Set(...this.getTableTopDeck()).size === 1`, which spreads
the card array into the `Set` constructor so that only the first label ("7H")
arrives as `Set`'s iterable argument; the "size" is the number of distinct
*characters* of that label (here 2) and can never be 1 for a generated card, so
the same-rank auto-finalisation documented by the adjacent source comment
(and by the spec) never fires.  The claim is right and the code is wrong. -/
theorem c7_four_same_rank_uncovered_does_not_finalise :
    Reachable sB4 ∧
      sB4.victory = false ∧
      sB4.getDefendingPlayerName? = some "B" ∧
      sB4.tableTop = [("7H", none), ("7D", none), ("7C", none), ("7S", none)] ∧
      (sB4.tableTop.map (fun p => (parseCard? p.1).map (·.value))) =
        [some 7, some 7, some 7, some 7] ∧
      sB4.getCoveredCount = 0 ∧
      (sB4.getPlayer? "B").map (fun p => p.deck.length) = some 6 ∧
      jsSetSpreadSize sB4.getTableTopDeck = 2 ∧
      Game.finalisePlayerTurn 0 "B" sB4 = .ok sB5 ∧
      sB5.tableTop = sB4.tableTop := by
  exact ⟨reach_sB4, rfl, rfl, rfl, rfl, rfl, rfl, rfl, sB5_step, rfl⟩

/-! ### Claim C4 -/

/-- **C4.** A mutating call that throws is claimed to leave the state exactly as it
was.  Counterexample on a reachable state: in `sC11` (eight players, draw deck
down to four cards, six table entries with five covered, the attacker "P3"
already empty-handed but still active), the defender's final
`coverCardOnTableTop("KD", 5)` triggers `finaliseRound`, which reassigns the
defence, voids the table and replenishes hands — and *then* its elimination
sweep marks "P3" out and calls `finalisePlayerTurn` on the already-voided
table, which throws `Cannot finalise turn when no cards have been placed.`.
The throw escapes to the caller with the round-end half applied (table cleared,
defender reassigned to "P3", "P3" marked out), contradicting the claimed
zero-side-effect failure; the spec's §5 atomicity statement is clearly the
intent and the sweep's call on a voided table a slip, so this is a code bug. -/
theorem c4_failed_cover_leaves_partially_mutated_state :
    Reachable sC11 ∧
      Game.coverCardOnTableTop 0 "KD" 5 sC11 = .error (msgFinaliseTurnNoCards, sC12bad) ∧
      sC12bad ≠ sC11 ∧
      sC11.tableTop.length = 6 ∧
      sC12bad.tableTop = [] ∧
      (sC11.getPlayer? "P3").map (fun p => p.out) = some none ∧
      (sC12bad.getPlayer? "P3").map (fun p => p.out) = some (some 0) := by
  exact ⟨reach_sC11, sC12_step, by decide, rfl, rfl, rfl, rfl⟩

/-! ### Claim C2, counterexample half -/

/-- **C2 (counterexample).** Conservation at exactly the generated deck size fails:
after the reachable, successfully defended round ending in `sA3`, the covered
pair `7H`/`8H` has been discarded by `voidTableTop()` without entering any hand,
so deck + hands + table counts 50 cards, not 52. -/
theorem c2_counterexample_defended_round_discards_cards :
    Reachable sA3 ∧ generateCardDeck.length = 52 ∧ sA3.cardsInPlay = 50 := by
  exact ⟨reach_sA3, rfl, rfl⟩

/-! ### Claim C8, counterexample half -/

/-- **C8 (counterexample).** The claim promises normalization into `[0, count)` for
*every* negative offset.  The source adds `playerNames.length` at most once, so
in the reachable two-player state `sA0`, `getPlayerNameByOffset("A", -3)` computes
the JavaScript index `(-3 + 0 + 2) % 2 = -1` and returns `undefined` instead of
the active player at the normalized position `(-3) mod 2 = 1`, namely "B". -/
theorem c8_counterexample_offset_minus_three_undefined :
    Reachable sA0 ∧
      sA0.getActivePlayers.map (·.1) = ["A", "B"] ∧
      sA0.getPlayerNameByOffsetE "A" (-3) = .ok none ∧
      (sA0.getActivePlayers.map (·.1)).get? (((-3 : Int) + 0).emod 2).toNat = some "B" ∧
      (Except.ok none : Except String (Option String)) ≠ .ok (some "B") := by
  refine ⟨reach_sA0, rfl, rfl, rfl, fun h => ?_⟩
  exact Option.noConfusion (Except.ok.inj h)

/-! ### Claim C8, amended theorem -/

/-- **C8 (amended).** For every state and every anchor among the active players,
`getPlayerNameByOffset(anchor, k)` returns the active player at the normalized
position `(indexOf(anchor) + k) mod activeCount` whenever
`k + indexOf(anchor) ≥ -activeCount` (the source adds the length at most once).
For smaller (more negative) `k` the corrected index is still negative and the
truncating JavaScript `%` keeps its sign, so the lookup yields the *first* active
player when `activeCount` divides `k + indexOf(anchor)` (the remainder is `-0`,
and `arr[-0]` is `arr[0]`) and `undefined` (no player) otherwise.  The call fails
with `Player doesn\x27t exist within the lobby.` when the anchor is not among the
active players. -/
theorem c8_offset_normalization_amended (g : Game) (name : String) (k : Int) :
    (∀ i : Nat, (g.getActivePlayers.map (·.1)).findIdx? (fun s => s == name) = some i →
        -(((g.getActivePlayers.map (·.1)).length : Int)) ≤ k + i →
        ∃ p, (g.getActivePlayers.map (·.1)).get?
              (((k + (i : Int)) % ((g.getActivePlayers.map (·.1)).length : Int)).toNat) =
            some p ∧
          g.getPlayerNameByOffsetE name k = .ok (some p)) ∧
    (∀ i : Nat, (g.getActivePlayers.map (·.1)).findIdx? (fun s => s == name) = some i →
        k + i < -(((g.getActivePlayers.map (·.1)).length : Int)) →
        ((((g.getActivePlayers.map (·.1)).length : Int) ∣ (k + i) →
            ∃ p, (g.getActivePlayers.map (·.1)).get? 0 = some p ∧
              g.getPlayerNameByOffsetE name k = .ok (some p)) ∧
         (¬(((g.getActivePlayers.map (·.1)).length : Int) ∣ (k + i)) →
            g.getPlayerNameByOffsetE name k = .ok none))) ∧
    ((g.getActivePlayers.map (·.1)).findIdx? (fun s => s == name) = none →
        g.getPlayerNameByOffsetE name k = .error msgNotInLobby) := by
  refine ⟨?_, ?_, ?_⟩
  · intro i hfind hk
    set names := g.getActivePlayers.map (·.1) with hnames
    have hne : names ≠ [] := by
      intro h
      rw [h] at hfind
      simp [List.findIdx?] at hfind
    have hn : 0 < names.length := List.length_pos.mpr hne
    have hnz : ((names.length : Int)) ≠ 0 := by omega
    have hlt : (k + (i : Int)) % (names.length : Int) < (names.length : Int) :=
      Int.emod_lt_of_pos _ (by omega)
    have hge : 0 ≤ (k + (i : Int)) % (names.length : Int) := Int.emod_nonneg _ hnz
    have hget : ∃ p, names.get? (((k + (i : Int)) % (names.length : Int)).toNat) = some p := by
      have h2 : (((k + (i : Int)) % (names.length : Int)).toNat) < names.length := by omega
      exact ⟨names.get ⟨_, h2⟩, List.get?_eq_get h2⟩
    obtain ⟨p, hp⟩ := hget
    refine ⟨p, hp, ?_⟩
    simp only [Game.getPlayerNameByOffsetE]
    rw [← hnames, hfind]
    show Except.ok (jsArrayGetInt names
      ((if k + (i : Int) < 0 then k + i + names.length else k + i).tmod names.length)) =
        Except.ok (some p)
    have harith : Int.tmod (if k + (i : Int) < 0 then k + i + names.length else k + i)
        (names.length) = (k + (i : Int)) % (names.length : Int) := by
      split
      · rw [Int.tmod_eq_emod (by omega) (by omega)]
        have h3 := Int.add_mul_emod_self_left (a := k + (i : Int))
          (b := (names.length : Int)) (c := 1)
        rw [mul_one] at h3
        exact h3
      · rw [Int.tmod_eq_emod (by omega) (by omega)]
    rw [harith]
    unfold jsArrayGetInt
    rw [if_pos hge, hp]
  · intro i hfind hk
    set names := g.getActivePlayers.map (·.1) with hnames
    have hne : names ≠ [] := by
      intro h
      rw [h] at hfind
      simp [List.findIdx?] at hfind
    have hn : 0 < names.length := List.length_pos.mpr hne
    have hkin : k + (i : Int) < 0 := by omega
    constructor
    · intro hdvd
      have hdvd2 : ((names.length : Int)) ∣ (k + i + names.length) :=
        dvd_add hdvd (dvd_refl _)
      have htm : Int.tmod (k + (i : Int) + names.length) (names.length) = 0 :=
        Int.tmod_eq_zero_of_dvd hdvd2
      have hget : ∃ p, names.get? 0 = some p :=
        ⟨names.get ⟨0, hn⟩, List.get?_eq_get hn⟩
      obtain ⟨p, hp⟩ := hget
      refine ⟨p, hp, ?_⟩
      simp only [Game.getPlayerNameByOffsetE]
      rw [← hnames, hfind]
      show Except.ok (jsArrayGetInt names
        ((if k + (i : Int) < 0 then k + i + names.length else k + i).tmod names.length)) =
          Except.ok (some p)
      rw [if_pos hkin, htm]
      unfold jsArrayGetInt
      rw [if_pos (by omega)]
      show Except.ok (names.get? (Int.toNat 0)) = Except.ok (some p)
      rw [Int.toNat_zero, hp]
    · intro hndvd
      have hndvd2 : ¬ ((names.length : Int)) ∣ (k + i + names.length) := by
        intro hd
        apply hndvd
        have h4 := dvd_sub hd (dvd_refl ((names.length : Int)))
        simpa using h4
      have htneg : Int.tmod (k + (i : Int) + names.length) (names.length) < 0 := by
        have hflip : (-(k + (i : Int) + names.length)).tmod (names.length) =
            -((k + (i : Int) + names.length).tmod (names.length)) := by
          rw [Int.tmod_def, Int.tmod_def, Int.neg_tdiv]
          ring
        have hpos : 0 ≤ (-(k + (i : Int) + names.length)).tmod (names.length) :=
          Int.tmod_nonneg _ (by omega)
        have hne0 : Int.tmod (k + (i : Int) + names.length) (names.length) ≠ 0 := by
          intro h0
          exact hndvd2 (Int.dvd_of_tmod_eq_zero h0)
        omega
      simp only [Game.getPlayerNameByOffsetE]
      rw [← hnames, hfind]
      show Except.ok (jsArrayGetInt names
        ((if k + (i : Int) < 0 then k + i + names.length else k + i).tmod names.length)) =
          Except.ok none
      rw [if_pos hkin]
      unfold jsArrayGetInt
      rw [if_neg (by omega)]
  · intro hfind
    simp only [Game.getPlayerNameByOffsetE]
    rw [hfind]

theorem c8_offset_normalization_amended_witness :
    sA0.getPlayerNameByOffsetE "A" (-2) = .ok (some "A") ∧
      sA0.getPlayerNameByOffsetE "A" (-4) = .ok (some "A") ∧
      sA0.getPlayerNameByOffsetE "A" (-5) = .ok none := by
  refine ⟨?_, ?_, ?_⟩
  · obtain ⟨p, hp, hr⟩ :=
      (c8_offset_normalization_amended sA0 "A" (-2)).1 0 (by decide) (by decide)
    have h2 : (sA0.getActivePlayers.map (·.1)).get?
        (((-2 : Int) + ((0 : Nat) : Int)) %
          ((sA0.getActivePlayers.map (·.1)).length : Int)).toNat = some "A" := by decide
    rw [hp] at h2
    rw [Option.some.inj h2] at hr
    exact hr
  · obtain ⟨p, hp, hr⟩ :=
      ((c8_offset_normalization_amended sA0 "A" (-4)).2.1 0 (by decide) (by decide)).1
        (by decide)
    have h2 : (sA0.getActivePlayers.map (·.1)).get? 0 = some "A" := by decide
    rw [hp] at h2
    rw [Option.some.inj h2] at hr
    exact hr
  · exact ((c8_offset_normalization_amended sA0 "A" (-5)).2.1 0 (by decide)
      (by decide)).2 (by decide)

/-! ### Claim C9 -/

theorem forall2_keys_eq {v : String} :
    ∀ {l l' : List (String × Player)}, List.Forall₂ (PlayerViewEq v) l l' →
      l'.map (·.1) = l.map (·.1) := by
  intro l l' h
  induction h with
  | nil => rfl
  | cons hpq _ ih => simp [ih, hpq.1]

theorem forall2_find_rel {v n : String} :
    ∀ {l l' : List (String × Player)}, List.Forall₂ (PlayerViewEq v) l l' →
      Option.Rel (PlayerViewEq v)
        (l.find? (fun p => p.1 == n)) (l'.find? (fun p => p.1 == n)) := by
  intro l l' h
  induction h with
  | nil => exact .none
  | cons hpq htail ih =>
    rename_i p q l₁ l₂
    by_cases hc : p.1 = n
    · rw [List.find?_cons_of_pos _ (by simp [hc]),
        List.find?_cons_of_pos _ (by simp [← hpq.1, hc])]
      exact .some hpq
    · rw [List.find?_cons_of_neg _ (by simp [hc]),
        List.find?_cons_of_neg _ (by simp [← hpq.1, hc])]
      exact ih

theorem bne_none_congr {a b : Option Nat} (h : a = none ↔ b = none) :
    (a != none) = (b != none) := by
  cases a <;> cases b <;> first | rfl | simp_all

theorem getStateForPlayer_find_none {g : Game} {n : String}
    (hf : g.players.find? (fun r => r.1 == n) = none) :
    g.getStateForPlayer n = .error msgInvalidState := by
  unfold Game.getStateForPlayer Game.getPlayer? mapGet?
  rw [hf]
  rfl

theorem getStateForPlayer_find_some {g : Game} {n : String} {p : String × Player}
    (hf : g.players.find? (fun r => r.1 == n) = some p) :
    g.getStateForPlayer n = .ok
      { deck := p.2.deck, canAttack := p.2.canAttack, beganRound := p.2.beganRound,
        turned := p.2.turned, isDefending := p.2.isDefending, out := p.2.out != none,
        trumpCard := g.trumpCard, deckSize := g.deck.length, tableTop := g.tableTop,
        players := ((g.players.map (·.1)).drop
              ((((g.players.map (·.1)).findIdx? (fun s => s == n)).getD 0) + 1)
            ++ (g.players.map (·.1)).take
              (((g.players.map (·.1)).findIdx? (fun s => s == n)).getD 0)).filterMap
            (fun m => (g.getPlayer? m).map (fun q =>
              { name := m, canAttack := q.canAttack, beganRound := q.beganRound,
                turned := q.turned, isDefending := q.isDefending,
                out := q.out != none, deck := q.deck.length })) } := by
  unfold Game.getStateForPlayer Game.getPlayer? mapGet?
  rw [hf]
  rfl

theorem view_congr {v n : String} {g g' : Game}
    (hf : List.Forall₂ (PlayerViewEq v) g.players g'.players) :
    ((g.getPlayer? n).map (fun p =>
        ({ name := n, canAttack := p.canAttack, beganRound := p.beganRound,
           turned := p.turned, isDefending := p.isDefending,
           out := p.out != none, deck := p.deck.length } : OtherPlayerView))) =
      ((g'.getPlayer? n).map (fun p =>
        ({ name := n, canAttack := p.canAttack, beganRound := p.beganRound,
           turned := p.turned, isDefending := p.isDefending,
           out := p.out != none, deck := p.deck.length } : OtherPlayerView))) := by
  have hrel := forall2_find_rel (n := n) hf
  simp only [Game.getPlayer?, mapGet?]
  cases hf1 : g.players.find? (fun r => r.1 == n) with
  | none =>
    cases hf2 : g'.players.find? (fun r => r.1 == n) with
    | none => rfl
    | some q => rw [hf1, hf2] at hrel; cases hrel
  | some p =>
    cases hf2 : g'.players.find? (fun r => r.1 == n) with
    | none => rw [hf1, hf2] at hrel; cases hrel
    | some q =>
      rw [hf1, hf2] at hrel
      cases hrel with
      | some hpq =>
        obtain ⟨h1, h2, h3, h4, h5, h6, h7, h8⟩ := hpq
        simp only [Option.map_some']
        rw [h2, h3, h4, h5, h7, bne_none_congr h6]

/-- **C9.** `getStateForPlayer` reveals the named player's full hand but, for
every other player, only their hand size, role/round flags and a boolean
elimination marker, and reveals the draw deck only as a count: the projection is
unchanged under any replacement of the deck's contents and of other players'
hand contents that preserves sizes (and of elimination timestamps that
preserves the eliminated/active distinction). -/
theorem c9_projection_independent_of_hidden_data
    (viewer : String) (g g' : Game) (h : ObsEquivFor viewer g g') :
    g.getStateForPlayer viewer = g'.getStateForPlayer viewer := by
  obtain ⟨htr, htt, hdk, hf⟩ := h
  have hkeys : g'.players.map (·.1) = g.players.map (·.1) := forall2_keys_eq hf
  have hrel := forall2_find_rel (n := viewer) hf
  cases hf1 : g.players.find? (fun r => r.1 == viewer) with
  | none =>
    cases hf2 : g'.players.find? (fun r => r.1 == viewer) with
    | none => rw [getStateForPlayer_find_none hf1, getStateForPlayer_find_none hf2]
    | some q => rw [hf1, hf2] at hrel; cases hrel
  | some p =>
    cases hf2 : g'.players.find? (fun r => r.1 == viewer) with
    | none => rw [hf1, hf2] at hrel; cases hrel
    | some q =>
      rw [hf1, hf2] at hrel
      cases hrel with
      | some hpq =>
        obtain ⟨h1, h2, h3, h4, h5, h6, h7, h8⟩ := hpq
        have hpv : p.1 = viewer := by simpa using List.find?_some hf1
        rw [getStateForPlayer_find_some hf1, getStateForPlayer_find_some hf2]
        simp only [Except.ok.injEq, PlayerGameState.mk.injEq, hkeys]
        refine ⟨(h8 hpv).symm, h2.symm, h3.symm, h4.symm, h5.symm,
          (bne_none_congr h6).symm, htr.symm, hdk.symm, htt.symm, ?_⟩
        apply List.filterMap_congr
        intro m _
        exact view_congr (n := m) (v := viewer) hf

theorem c9_projection_independent_witness :
    sA1.getStateForPlayer "A" = sA1x.getStateForPlayer "A" := by
  apply c9_projection_independent_of_hidden_data
  refine ⟨rfl, rfl, by decide, ?_⟩
  refine List.Forall₂.cons ?_ (List.Forall₂.cons ?_ List.Forall₂.nil)
  · exact ⟨rfl, rfl, rfl, rfl, rfl, Iff.rfl, rfl, fun _ => rfl⟩
  · exact ⟨rfl, rfl, rfl, rfl, rfl, Iff.rfl, by decide, fun hc => absurd hc (by decide)⟩

/-! ### Generic lemmas about the association-list operations -/

theorem map_fst_of_fst_eq {α : Type} {l : List (String × α)} {F : (String × α) → (String × α)}
    (h : ∀ p, (F p).1 = p.1) : (l.map F).map (·.1) = l.map (·.1) := by
  induction l with
  | nil => rfl
  | cons a t ih => simp [h a, ih]

theorem updatePlayer_players (g : Game) (n : String) (f : Player → Player) :
    (g.updatePlayer n f).players =
      g.players.map (fun p => if p.1 == n then (p.1, f p.2) else p) := rfl

theorem keys_updatePlayer (g : Game) (n : String) (f : Player → Player) :
    (g.updatePlayer n f).players.map (·.1) = g.players.map (·.1) := by
  rw [updatePlayer_players]
  apply map_fst_of_fst_eq
  intro p
  by_cases h : p.1 == n <;> simp [h]

theorem mapGet?_map_key_preserving {α : Type} {l : List (String × α)}
    {F : (String × α) → (String × α)} (hk : ∀ p, (F p).1 = p.1) (n : String) :
    mapGet? (l.map F) n = ((l.find? (fun p => p.1 == n)).map F).map (·.2) := by
  unfold mapGet?
  congr 1
  induction l with
  | nil => rfl
  | cons a t ih =>
    simp only [List.map_cons, List.find?_cons]
    by_cases h : (a.1 == n) = true
    · simp [hk a, h]
    · simp [hk a, h, ih]

theorem getPlayer?_updatePlayer (g : Game) (n m : String) (f : Player → Player) :
    (g.updatePlayer n f).getPlayer? m =
      if n == m then (g.getPlayer? m).map f else g.getPlayer? m := by
  unfold Game.getPlayer?
  rw [updatePlayer_players,
    mapGet?_map_key_preserving (fun p => by by_cases h : (p.1 == n) = true <;> simp [h]) m]
  unfold mapGet?
  cases hf : g.players.find? (fun p => p.1 == m) with
  | none => simp
  | some p =>
    have hpm : p.1 = m := by
      have := List.find?_some hf
      simpa using this
    by_cases hnm : (n == m) = true
    · have h1 : (p.1 == n) = true := by
        have : n = m := by simpa using hnm
        simp [hpm, this]
      have hpn : p.1 = n := by simpa using h1
      simp [hnm, h1, hpn]
    · have h1 : (p.1 == n) = false := by
        have hne : n ≠ m := by simpa using hnm
        apply beq_eq_false_iff_ne.mpr
        intro he
        exact hne (by rw [← he, hpm])
      have hpn : p.1 ≠ n := by simpa using h1
      simp [hnm, h1, hpn]

theorem activeDefenderCount_eq_roles (g : Game) :
    g.activeDefenderCount = ((rolesOf g).filter (fun r => r.2.1 == none && r.2.2)).length := by
  unfold Game.activeDefenderCount rolesOf
  have hcomp : ((fun r : String × Option Nat × Bool => r.2.1 == none && r.2.2) ∘
      (fun p : String × Player => (p.1, p.2.out, p.2.isDefending))) =
      (fun p : String × Player => p.2.out == none && p.2.isDefending) := rfl
  rw [List.filter_map, hcomp, List.length_map]

theorem defCount_congr {g g' : Game} (h : rolesOf g' = rolesOf g) :
    g'.activeDefenderCount = g.activeDefenderCount := by
  rw [activeDefenderCount_eq_roles, activeDefenderCount_eq_roles, h]

theorem namesNodup_congr {g g' : Game} (h : g'.players.map (·.1) = g.players.map (·.1)) :
    NamesNodup g → NamesNodup g' := by
  unfold NamesNodup
  rw [h]
  exact id

theorem handsMOf_congr :
    ∀ {l l' : List (String × Player)},
      l'.map (fun p => p.2.deck) = l.map (fun p => p.2.deck) → handsMOf l' = handsMOf l := by
  intro l
  induction l with
  | nil =>
    intro l' h
    cases l' with
    | nil => rfl
    | cons b t' => simp at h
  | cons a t ih =>
    intro l' h
    cases l' with
    | nil => simp at h
    | cons b t' =>
      simp only [List.map_cons, List.cons.injEq] at h
      show (b.2.deck : Multiset String) + handsMOf t' = (a.2.deck : Multiset String) + handsMOf t
      rw [h.1, ih h.2]

theorem inPlayM_def (g : Game) :
    g.inPlayM = (g.deck : Multiset String) + handsMOf g.players
      + (tableCardsL g.tableTop : Multiset String) := rfl

theorem rolesOf_updatePlayer_of_preserve {g : Game} {n : String} {f : Player → Player}
    (h : ∀ q : Player, (f q).out = q.out ∧ (f q).isDefending = q.isDefending) :
    rolesOf (g.updatePlayer n f) = rolesOf g := by
  unfold rolesOf
  rw [updatePlayer_players, List.map_map]
  apply List.map_congr_left
  intro p _
  by_cases hp : p.1 = n <;> simp [hp, (h p.2).1, (h p.2).2]

theorem decks_updatePlayer_of_preserve {g : Game} {n : String} {f : Player → Player}
    (h : ∀ q : Player, (f q).deck = q.deck) :
    (g.updatePlayer n f).players.map (fun p => p.2.deck) =
      g.players.map (fun p => p.2.deck) := by
  rw [updatePlayer_players, List.map_map]
  apply List.map_congr_left
  intro p _
  by_cases hp : p.1 = n <;> simp [hp, h p.2]

theorem grantAttack_players (g : Game) (d : String) :
    (g.grantAttackExceptDefender d).players = g.players.map (fun p =>
      if p.2.out == none && p.1 != d then (p.1, { p.2 with canAttack := true }) else p) := rfl

theorem keys_grantAttack (g : Game) (d : String) :
    (g.grantAttackExceptDefender d).players.map (·.1) = g.players.map (·.1) := by
  rw [grantAttack_players]
  apply map_fst_of_fst_eq
  intro p
  by_cases h1 : p.2.out = none <;> by_cases h2 : p.1 = d <;> simp [h1, h2]

theorem rolesOf_grantAttack (g : Game) (d : String) :
    rolesOf (g.grantAttackExceptDefender d) = rolesOf g := by
  unfold rolesOf
  rw [grantAttack_players, List.map_map]
  apply List.map_congr_left
  intro p _
  by_cases h1 : p.2.out = none <;> by_cases h2 : p.1 = d <;> simp [h1, h2]

theorem decks_grantAttack (g : Game) (d : String) :
    (g.grantAttackExceptDefender d).players.map (fun p => p.2.deck) =
      g.players.map (fun p => p.2.deck) := by
  rw [grantAttack_players, List.map_map]
  apply List.map_congr_left
  intro p _
  by_cases h1 : p.2.out = none <;> by_cases h2 : p.1 = d <;> simp [h1, h2]

theorem resetTurned_players (g : Game) :
    (g.resetTurnedActive).players = g.players.map (fun p =>
      if p.2.out == none then (p.1, { p.2 with turned := false }) else p) := rfl

theorem keys_resetTurned (g : Game) :
    (g.resetTurnedActive).players.map (·.1) = g.players.map (·.1) := by
  rw [resetTurned_players]
  apply map_fst_of_fst_eq
  intro p
  by_cases h : p.2.out = none <;> simp [h]

theorem rolesOf_resetTurned (g : Game) : rolesOf (g.resetTurnedActive) = rolesOf g := by
  unfold rolesOf
  rw [resetTurned_players, List.map_map]
  apply List.map_congr_left
  intro p _
  by_cases h : p.2.out = none <;> simp [h]

theorem decks_resetTurned (g : Game) :
    (g.resetTurnedActive).players.map (fun p => p.2.deck) =
      g.players.map (fun p => p.2.deck) := by
  rw [resetTurned_players, List.map_map]
  apply List.map_congr_left
  intro p _
  by_cases h : p.2.out = none <;> simp [h]

theorem mapGet?_cons {α : Type} (a : String × α) (t : List (String × α)) (n : String) :
    mapGet? (a :: t) n = if (a.1 == n) = true then some a.2 else mapGet? t n := by
  unfold mapGet?
  rw [List.find?_cons]
  by_cases h : (a.1 == n) = true <;> simp [h]

theorem mem_eq_of_nodup_keys {α : Type} :
    ∀ {l : List (String × α)} {n : String} {p : α},
      (l.map (·.1)).Nodup → mapGet? l n = some p →
      ∀ {a : String × α}, a ∈ l → a.1 = n → a.2 = p := by
  intro l
  induction l with
  | nil => intro n p _ hp; simp [mapGet?] at hp
  | cons b t ih =>
    intro n p hnd hp a ha hk
    rw [List.map_cons, List.nodup_cons] at hnd
    rw [mapGet?_cons] at hp
    by_cases hb : (b.1 == n) = true
    · rw [if_pos hb] at hp
      cases ha with
      | head => exact Option.some.inj hp
      | tail _ hmem =>
        exfalso
        apply hnd.1
        have : b.1 = n := by simpa using hb
        rw [this, ← hk]
        exact List.mem_map_of_mem _ hmem
    · rw [if_neg hb] at hp
      cases ha with
      | head => exact absurd (beq_iff_eq.mpr hk) hb
      | tail _ hmem => exact ih hnd.2 hp hmem hk

theorem handsMOf_map_update_of_not_mem {n : String} {f : Player → Player} :
    ∀ {l : List (String × Player)}, n ∉ l.map (·.1) →
      handsMOf (l.map (fun q => if q.1 == n then (q.1, f q.2) else q)) = handsMOf l := by
  intro l
  induction l with
  | nil => intro _; rfl
  | cons a t ih =>
    intro h
    rw [List.map_cons, List.mem_cons] at h
    push_neg at h
    have ha : (a.1 == n) = false := beq_eq_false_iff_ne.mpr (fun he => h.1 he.symm)
    show handsMOf ((if (a.1 == n) = true then (a.1, f a.2) else a) ::
        t.map (fun q => if q.1 == n then (q.1, f q.2) else q)) = handsMOf (a :: t)
    rw [if_neg (by simp [ha])]
    show (a.2.deck : Multiset String) +
        handsMOf (t.map (fun q => if q.1 == n then (q.1, f q.2) else q)) =
      (a.2.deck : Multiset String) + handsMOf t
    rw [ih h.2]

theorem handsMOf_update {n : String} {f : Player → Player} :
    ∀ {l : List (String × Player)} {p : Player},
      (l.map (·.1)).Nodup → mapGet? l n = some p →
      handsMOf (l.map (fun q => if q.1 == n then (q.1, f q.2) else q)) +
          (p.deck : Multiset String) =
        handsMOf l + ((f p).deck : Multiset String) := by
  intro l
  induction l with
  | nil => intro p _ hp; simp [mapGet?] at hp
  | cons a t ih =>
    intro p hnd hp
    rw [List.map_cons, List.nodup_cons] at hnd
    rw [mapGet?_cons] at hp
    by_cases ha : (a.1 == n) = true
    · rw [if_pos ha] at hp
      have hpa : p = a.2 := (Option.some.inj hp).symm
      have hnot : n ∉ t.map (·.1) := by
        have : a.1 = n := by simpa using ha
        rw [← this]
        exact hnd.1
      simp only [List.map_cons, if_pos ha]
      show (((f a.2).deck : Multiset String) +
            handsMOf (t.map (fun q => if q.1 == n then (q.1, f q.2) else q))) +
          (p.deck : Multiset String) =
        ((a.2.deck : Multiset String) + handsMOf t) + ((f p).deck : Multiset String)
      rw [handsMOf_map_update_of_not_mem hnot, hpa]
      abel
    · rw [if_neg ha] at hp
      have h2 := ih hnd.2 hp
      simp only [List.map_cons, if_neg (by simp [ha] : ¬((a.1 == n) = true))]
      show ((a.2.deck : Multiset String) +
            handsMOf (t.map (fun q => if q.1 == n then (q.1, f q.2) else q))) +
          (p.deck : Multiset String) =
        ((a.2.deck : Multiset String) + handsMOf t) + ((f p).deck : Multiset String)
      rw [add_assoc, h2, add_assoc]

theorem exists_of_findIdx?_eq_some {α : Type} {p : α → Bool} :
    ∀ {l : List α} {s i : Nat}, List.findIdx? p l s = some i → ∃ a ∈ l, p a = true := by
  intro l
  induction l with
  | nil => intro s i h; simp [List.findIdx?] at h
  | cons a t ih =>
    intro s i h
    rw [List.findIdx?_cons] at h
    by_cases hp : p a = true
    · exact ⟨a, List.mem_cons_self _ _, hp⟩
    · rw [if_neg hp] at h
      obtain ⟨b, hb, hpb⟩ := ih h
      exact ⟨b, List.mem_cons_of_mem _ hb, hpb⟩

theorem filter_key_len_zero {q : Player → Bool} {n : String} :
    ∀ {l : List (String × Player)}, n ∉ l.map (·.1) →
      (l.filter (fun p => q p.2 && p.1 == n)).length = 0 := by
  intro l
  induction l with
  | nil => intro _; rfl
  | cons a t ih =>
    intro h
    rw [List.map_cons, List.mem_cons] at h
    push_neg at h
    rw [List.filter_cons, if_neg (by simp; intro _; exact fun he => h.1 he.symm)]
    exact ih h.2

theorem filter_key_len_one {q : Player → Bool} {n : String} :
    ∀ {l : List (String × Player)}, (l.map (·.1)).Nodup →
      n ∈ (l.filter (fun p => q p.2)).map (·.1) →
      (l.filter (fun p => q p.2 && p.1 == n)).length = 1 := by
  intro l
  induction l with
  | nil => intro _ hm; simp at hm
  | cons a t ih =>
    intro hnd hm
    rw [List.map_cons, List.nodup_cons] at hnd
    by_cases hq : q a.2 = true
    · rw [List.filter_cons, if_pos hq] at hm
      rw [List.map_cons, List.mem_cons] at hm
      by_cases hk : a.1 = n
      · have hnot : n ∉ t.map (·.1) := by rw [← hk]; exact hnd.1
        rw [List.filter_cons, if_pos (by simp [hq, hk])]
        simp only [List.length_cons]
        rw [filter_key_len_zero hnot]
      · cases hm with
        | inl he => exact absurd he.symm hk
        | inr hm2 =>
          have hm3 : n ∈ (t.filter (fun p => q p.2)).map (·.1) := hm2
          rw [List.filter_cons, if_neg (by simp [hq]; exact fun he => hk he)]
          exact ih hnd.2 hm3
    · rw [List.filter_cons, if_neg hq] at hm
      have hk : a.1 ≠ n := by
        intro he
        apply hnd.1
        rw [he]
        obtain ⟨b, hb, hbn⟩ := List.mem_map.mp hm
        rw [← hbn]
        exact List.mem_map_of_mem _ (List.mem_filter.mp hb).1
      rw [List.filter_cons, if_neg (by simp [hq])]
      exact ih hnd.2 hm

theorem resetRoleFlags_players (g : Game) :
    g.resetRoleFlags.players = g.players.map (fun p =>
      (p.1, { p.2 with canAttack := false, beganRound := false, isDefending := false,
                       turned := false })) := rfl

theorem keys_resetRoleFlags (g : Game) :
    g.resetRoleFlags.players.map (·.1) = g.players.map (·.1) := by
  rw [resetRoleFlags_players]
  exact map_fst_of_fst_eq (fun p => rfl)

theorem decks_resetRoleFlags (g : Game) :
    g.resetRoleFlags.players.map (fun p => p.2.deck) = g.players.map (fun p => p.2.deck) := by
  rw [resetRoleFlags_players, List.map_map]
  exact List.map_congr_left (fun p _ => rfl)

theorem activeNames_congr {g g' : Game}
    (h : g'.players.map (fun p => (p.1, p.2.out)) = g.players.map (fun p => (p.1, p.2.out))) :
    g'.getActivePlayers.map (·.1) = g.getActivePlayers.map (·.1) := by
  unfold Game.getActivePlayers
  have e1 : ∀ gg : Game, (gg.players.filter (fun p => p.2.out == none)).map (·.1) =
      ((gg.players.map (fun p => (p.1, p.2.out))).filter (fun r => r.2 == none)).map (·.1) := by
    intro gg
    rw [List.filter_map]
    rw [List.map_map]
    rfl
  rw [e1, e1, h]

theorem setDefendingPlayer_ok {g : Game} {name : String} {g' : Game}
    (h : g.setDefendingPlayer name = .ok g') :
    g.victory = false ∧ name ∈ g.getActivePlayers.map (·.1) ∧
      ∃ attName,
        g' = ((g.resetRoleFlags).updatePlayer attName
                (fun p => { p with canAttack := true, beganRound := true })).updatePlayer name
              (fun p => { p with isDefending := true }) := by
  simp only [Game.setDefendingPlayer] at h
  split at h
  · exact absurd h (by simp)
  · rename_i hvic
    split at h
    · exact absurd h (by simp)
    · rename_i p hp
      split at h
      · exact absurd h (by simp)
      · exact absurd h (by simp)
      · rename_i attName hoff
        split at h
        · exact absurd h (by simp)
        · rename_i q hq
          refine ⟨by simpa using hvic, ?_, attName, (Except.ok.inj h).symm⟩
          simp only [Game.getPlayerNameByOffsetE] at hoff
          split at hoff
          · exact absurd hoff (by simp)
          · rename_i i hfind
            obtain ⟨a, ha, hpa⟩ := exists_of_findIdx?_eq_some hfind
            have hname : name ∈ g.resetRoleFlags.getActivePlayers.map (·.1) := by
              have : a = name := by simpa using hpa
              rw [← this]
              exact ha
            have hmap : g.resetRoleFlags.players.map (fun p => (p.1, p.2.out)) =
                g.players.map (fun p => (p.1, p.2.out)) := by
              rw [resetRoleFlags_players, List.map_map]
              exact List.map_congr_left (fun p _ => rfl)
            rw [activeNames_congr hmap] at hname
            exact hname

theorem length_filter_congr {α : Type} {l : List α} {p q : α → Bool}
    (h : ∀ a ∈ l, p a = q a) : (l.filter p).length = (l.filter q).length := by
  rw [List.filter_congr h]

theorem setDefendingPlayer_post {g : Game} {name : String} {g' : Game} (hnd : NamesNodup g)
    (h : g.setDefendingPlayer name = .ok g') :
    NamesNodup g' ∧ g'.activeDefenderCount = 1 ∧ g'.victory = false ∧
      g'.deck = g.deck ∧ g'.tableTop = g.tableTop ∧ g'.trumpCard = g.trumpCard ∧
      g'.players.map (fun p => p.2.deck) = g.players.map (fun p => p.2.deck) ∧
      g'.players.map (·.1) = g.players.map (·.1) ∧ g'.inPlayM = g.inPlayM ∧
      (∀ pe ∈ g'.players, pe.2.isDefending = true → pe.1 = name) := by
  obtain ⟨hvic, hmem, attName, hshape⟩ := setDefendingPlayer_ok h
  subst hshape
  have hkeys : (((g.resetRoleFlags).updatePlayer attName
      (fun p => { p with canAttack := true, beganRound := true })).updatePlayer name
      (fun p => { p with isDefending := true })).players.map (·.1) =
      g.players.map (·.1) := by
    rw [keys_updatePlayer, keys_updatePlayer, keys_resetRoleFlags]
  have hdecks : (((g.resetRoleFlags).updatePlayer attName
      (fun p => { p with canAttack := true, beganRound := true })).updatePlayer name
      (fun p => { p with isDefending := true })).players.map (fun p => p.2.deck) =
      g.players.map (fun p => p.2.deck) := by
    rw [decks_updatePlayer_of_preserve (f := fun p =>
        { p with isDefending := true }) (fun q => rfl),
      decks_updatePlayer_of_preserve (f := fun p =>
        { p with canAttack := true, beganRound := true }) (fun q => rfl),
      decks_resetRoleFlags]
  have hcount : (((g.resetRoleFlags).updatePlayer attName
      (fun p => { p with canAttack := true, beganRound := true })).updatePlayer name
      (fun p => { p with isDefending := true })).activeDefenderCount = 1 := by
    unfold Game.activeDefenderCount
    rw [updatePlayer_players, updatePlayer_players, resetRoleFlags_players,
      List.map_map, List.map_map, List.filter_map, List.length_map]
    refine Eq.trans (length_filter_congr ?_)
      (filter_key_len_one (q := fun r => r.out == none) hnd hmem)
    intro p _
    by_cases h1 : p.1 = name <;> by_cases h2 : p.1 = attName
    · have h3 : name = attName := by rw [← h1, h2]
      simp [Function.comp, h1, h2, ← h3]
    · have h3 : name ≠ attName := fun he => h2 (h1.trans he)
      simp [Function.comp, h1, h2, h3]
    · have h3 : attName ≠ name := fun he => h1 (h2.trans he)
      simp [Function.comp, h1, h2, h3]
    · simp [Function.comp, h1, h2]
  refine ⟨namesNodup_congr hkeys hnd, hcount, by simpa using hvic, rfl, rfl, rfl,
    hdecks, hkeys, ?_, ?_⟩
  · rw [inPlayM_def, inPlayM_def, handsMOf_congr hdecks]
    rfl
  · intro pe hpe hd
    rw [updatePlayer_players] at hpe
    obtain ⟨q0, hq0, hq0e⟩ := List.mem_map.mp hpe
    by_cases hk : (q0.1 == name) = true
    · rw [← hq0e]
      simp only [if_pos hk]
      simpa using hk
    · exfalso
      rw [← hq0e] at hd
      simp only [if_neg hk] at hd
      rw [updatePlayer_players] at hq0
      obtain ⟨q1, hq1, hq1e⟩ := List.mem_map.mp hq0
      rw [resetRoleFlags_players] at hq1
      obtain ⟨q2, hq2, hq2e⟩ := List.mem_map.mp hq1
      by_cases hk2 : (q1.1 == attName) = true
      · rw [← hq1e] at hd
        simp only [if_pos hk2] at hd
        rw [← hq2e] at hd
        simp at hd
      · rw [← hq1e] at hd
        simp only [if_neg hk2] at hd
        rw [← hq2e] at hd
        simp at hd

theorem tableCardsL_cons (a : String × Option String) (t : List (String × Option String)) :
    tableCardsL (a :: t) = a.1 :: (a.2.toList ++ tableCardsL t) := by
  obtain ⟨k0, v0⟩ := a
  cases v0 <;> rfl

theorem tableCardsL_append_single (m : List (String × Option String)) (k : String)
    (v : Option String) : tableCardsL (m ++ [(k, v)]) = tableCardsL m ++ k :: v.toList := by
  induction m with
  | nil => cases v <;> rfl
  | cons a t ih =>
    rw [List.cons_append, tableCardsL_cons, tableCardsL_cons, ih]
    simp

theorem mapSet_not_has {α : Type} {m : List (String × α)} {k : String} (v : α)
    (h : mapHas m k = false) : mapSet m k v = m ++ [(k, v)] := by
  unfold mapSet
  rw [h]
  simp

theorem mapSet_has {α : Type} {m : List (String × α)} {k : String} (v : α)
    (h : mapHas m k = true) : mapSet m k v = m.map (fun p => if p.1 == k then (k, v) else p) := by
  unfold mapSet
  rw [h]
  simp

theorem tableCardsL_map_inert {k : String} {v : Option String} :
    ∀ {m : List (String × Option String)}, k ∉ m.map (·.1) →
      tableCardsL (m.map (fun p => if p.1 == k then (k, v) else p)) = tableCardsL m := by
  intro m
  induction m with
  | nil => intro _; rfl
  | cons a t ih =>
    intro h
    rw [List.map_cons, List.mem_cons] at h
    push_neg at h
    rw [List.map_cons, if_neg (by simp; exact fun he => h.1 he.symm),
      tableCardsL_cons, tableCardsL_cons, ih h.2]

theorem tableCardsM_mapfun_le {k : String} {v : Option String} :
    ∀ {m : List (String × Option String)}, (m.map (·.1)).Nodup →
      (tableCardsL (m.map (fun p => if p.1 == k then (k, v) else p)) : Multiset String) ≤
        (tableCardsL m : Multiset String) + (v.toList : Multiset String) := by
  intro m
  induction m with
  | nil => intro _; exact Multiset.zero_le _
  | cons a t ih =>
    intro hnd
    rw [List.map_cons, List.nodup_cons] at hnd
    by_cases hk : (a.1 == k) = true
    · have hk2 : a.1 = k := by simpa using hk
      have hnot : k ∉ t.map (·.1) := by rw [← hk2]; exact hnd.1
      rw [List.map_cons, if_pos hk, tableCardsL_cons, tableCardsL_cons,
        tableCardsL_map_inert hnot]
      refine Multiset.le_iff_count.mpr fun x => ?_
      simp only [Multiset.count_add, Multiset.coe_count, List.count_cons,
        List.count_append]
      split_ifs <;> simp_all <;> omega
    · rw [List.map_cons, if_neg (by simpa using hk), tableCardsL_cons, tableCardsL_cons]
      have hc := Multiset.le_iff_count.mp (ih hnd.2)
      refine Multiset.le_iff_count.mpr fun x => ?_
      have hx := hc x
      simp only [Multiset.count_add, Multiset.coe_count, List.count_cons,
        List.count_append] at hx ⊢
      omega

theorem erase_add_singleton_of_mem {l : List String} {card : String} (h : card ∈ l) :
    ((l.erase card : List String) : Multiset String) + ({card} : Multiset String) =
      (l : Multiset String) := by
  rw [← Multiset.coe_erase, add_comm, Multiset.singleton_add]
  exact Multiset.cons_erase (by simpa using h)

theorem filter_ne_add_singleton_le_of_mem {l : List String} {card : String} (h : card ∈ l) :
    ((l.filter (fun c => c != card) : List String) : Multiset String) +
        ({card} : Multiset String) ≤ (l : Multiset String) := by
  refine Multiset.le_iff_count.mpr fun x => ?_
  simp only [Multiset.count_add, Multiset.coe_count]
  by_cases hx : x = card
  · subst hx
    have h0 : (l.filter (fun c => c != x)).count x = 0 := by
      rw [List.count_eq_zero]
      intro hmem
      have hb := (List.mem_filter.mp hmem).2
      simp at hb
    have h1 : 1 ≤ l.count x := List.one_le_count_iff.mpr h
    have h2 : Multiset.count x ({x} : Multiset String) = 1 := by simp
    omega
  · have h0 : (l.filter (fun c => c != card)).count x = l.count x := by
      apply List.count_filter
      simpa using fun he => hx he
    have h2 : Multiset.count x ({card} : Multiset String) = 0 := by
      simp [Multiset.count_singleton]
      exact fun he => hx he
    omega

theorem getPlayer?_some_mem {g : Game} {name : String} {p : Player}
    (h : g.getPlayer? name = some p) : ∃ e ∈ g.players, e.1 = name ∧ e.2 = p := by
  unfold Game.getPlayer? mapGet? at h
  cases hf : g.players.find? (fun q => q.1 == name) with
  | none => rw [hf] at h; simp at h
  | some e =>
    rw [hf] at h
    refine ⟨e, List.mem_of_find?_eq_some hf, by simpa using List.find?_some hf, ?_⟩
    simpa using h

theorem deck_le_handsMOf {l : List (String × Player)} {e : String × Player} (he : e ∈ l) :
    (e.2.deck : Multiset String) ≤ handsMOf l := by
  unfold handsMOf
  exact List.single_le_sum (fun x _ => Multiset.zero_le x) _
    (List.mem_map_of_mem (fun p => (p.2.deck : Multiset String)) he)

theorem transferCardOntoTable_ok {g : Game} {name card : String} {g' : Game}
    (h : g.transferCardOntoTable name card = .ok g') :
    g.victory = false ∧ (g.tableTop.length == 6) = false ∧
      ∃ p, g.getPlayer? name = some p ∧ card ∈ p.deck ∧
        g' = { (g.updatePlayer name (fun q => { q with deck := q.deck.erase card })) with
               tableTop := mapSet g.tableTop card none } := by
  unfold Game.transferCardOntoTable at h
  split at h
  · exact absurd h (by simp)
  · rename_i hvic
    split at h
    · exact absurd h (by simp)
    · rename_i hfull
      split at h
      · exact absurd h (by simp)
      · rename_i p hp
        split at h
        · exact absurd h (by simp)
        · rename_i hcontains
          refine ⟨by simpa using hvic, by simpa using hfull, p, hp,
            by simpa using hcontains, (Except.ok.inj h).symm⟩

theorem transferCardOntoTable_post {g : Game} {name card : String} {g' : Game}
    (hnd : NamesNodup g) (htnd : (g.tableTop.map (·.1)).Nodup)
    (h : g.transferCardOntoTable name card = .ok g') :
    g'.inPlayM ≤ g.inPlayM ∧ rolesOf g' = rolesOf g ∧
      g'.players.map (·.1) = g.players.map (·.1) ∧ g'.victory = g.victory ∧
      g'.tableTop ≠ [] := by
  obtain ⟨hvic, hfull, p, hp, hcard, hshape⟩ := transferCardOntoTable_ok h
  subst hshape
  have hhands : handsMOf (g.updatePlayer name
        (fun q => { q with deck := q.deck.erase card })).players +
      (p.deck : Multiset String) = handsMOf g.players +
        ((p.deck.erase card : List String) : Multiset String) := by
    rw [updatePlayer_players]
    exact handsMOf_update (f := fun q => { q with deck := q.deck.erase card }) hnd hp
  have hhands2 : handsMOf (g.updatePlayer name
        (fun q => { q with deck := q.deck.erase card })).players +
      ({card} : Multiset String) = handsMOf g.players := by
    have he := erase_add_singleton_of_mem hcard
    rw [← he] at hhands
    rw [← add_assoc, add_right_comm] at hhands
    exact add_right_cancel hhands
  refine ⟨?_, ?_, ?_, rfl, ?_⟩
  · rw [inPlayM_def, inPlayM_def]
    show (g.deck : Multiset String) + handsMOf (g.updatePlayer name
        (fun q => { q with deck := q.deck.erase card })).players +
      (tableCardsL (mapSet g.tableTop card none) : Multiset String) ≤ _
    by_cases hhas : mapHas g.tableTop card = true
    · have htle := tableCardsM_mapfun_le (k := card) (v := (none : Option String)) htnd
      rw [← mapSet_has _ hhas] at htle
      have htle2 : (tableCardsL (mapSet g.tableTop card none) : Multiset String) ≤
          (tableCardsL g.tableTop : Multiset String) := by
        simpa using htle
      have hle2 : handsMOf (g.updatePlayer name
          (fun q => { q with deck := q.deck.erase card })).players ≤ handsMOf g.players := by
        rw [← hhands2]
        exact le_add_right le_rfl
      exact add_le_add (add_le_add_left hle2 _) htle2
    · have hnf : mapHas g.tableTop card = false := by simpa using hhas
      rw [mapSet_not_has _ hnf, tableCardsL_append_single]
      apply le_of_eq
      have ht : ((tableCardsL g.tableTop ++ card :: (none : Option String).toList :
          List String) : Multiset String) =
          (tableCardsL g.tableTop : Multiset String) + {card} := rfl
      rw [ht]
      calc (g.deck : Multiset String) + handsMOf (g.updatePlayer name
            (fun q => { q with deck := q.deck.erase card })).players +
          ((tableCardsL g.tableTop : Multiset String) + {card})
          = (g.deck : Multiset String) + (handsMOf (g.updatePlayer name
              (fun q => { q with deck := q.deck.erase card })).players + {card}) +
            (tableCardsL g.tableTop : Multiset String) := by
            abel
        _ = (g.deck : Multiset String) + handsMOf g.players +
            (tableCardsL g.tableTop : Multiset String) := by rw [hhands2]
  · have hb : rolesOf { (g.updatePlayer name
        (fun q => { q with deck := q.deck.erase card })) with
        tableTop := mapSet g.tableTop card none } = rolesOf (g.updatePlayer name
        (fun q => { q with deck := q.deck.erase card })) := rfl
    rw [hb, rolesOf_updatePlayer_of_preserve (f := fun q =>
      { q with deck := q.deck.erase card }) (fun q => ⟨rfl, rfl⟩)]
  · have hb : ({ (g.updatePlayer name
        (fun q => { q with deck := q.deck.erase card })) with
        tableTop := mapSet g.tableTop card none } : Game).players.map (·.1) =
        (g.updatePlayer name
          (fun q => { q with deck := q.deck.erase card })).players.map (·.1) := rfl
    rw [hb, keys_updatePlayer]
  · show mapSet g.tableTop card none ≠ []
    by_cases hhas : mapHas g.tableTop card = true
    · rw [mapSet_has _ hhas]
      intro hc
      have hlen := congrArg List.length hc
      rw [List.length_map] at hlen
      have hnil : g.tableTop = [] := List.length_eq_zero.mp hlen
      rw [hnil] at hhas
      simp [mapHas] at hhas
    · rw [mapSet_not_has _ (by simpa using hhas)]
      simp

theorem replenish_step_post {g : Game} {playerName : String} {p : Player}
    (hnd : NamesNodup g) (hp : g.getPlayer? playerName = some p) :
    rolesOf ({ (g.updatePlayer playerName
          (fun q => { q with deck := q.deck ++ g.deck.take (6 - q.deck.length) })) with
        deck := g.deck.drop (6 - p.deck.length) } : Game) = rolesOf g ∧
      ({ (g.updatePlayer playerName
          (fun q => { q with deck := q.deck ++ g.deck.take (6 - q.deck.length) })) with
        deck := g.deck.drop (6 - p.deck.length) } : Game).players.map (·.1) =
        g.players.map (·.1) ∧
      ({ (g.updatePlayer playerName
          (fun q => { q with deck := q.deck ++ g.deck.take (6 - q.deck.length) })) with
        deck := g.deck.drop (6 - p.deck.length) } : Game).inPlayM = g.inPlayM := by
  refine ⟨?_, ?_, ?_⟩
  · have hb : rolesOf ({ (g.updatePlayer playerName
        (fun q => { q with deck := q.deck ++ g.deck.take (6 - q.deck.length) })) with
        deck := g.deck.drop (6 - p.deck.length) } : Game) =
        rolesOf (g.updatePlayer playerName
          (fun q => { q with deck := q.deck ++ g.deck.take (6 - q.deck.length) })) := rfl
    rw [hb, rolesOf_updatePlayer_of_preserve (f := fun q =>
      { q with deck := q.deck ++ g.deck.take (6 - q.deck.length) }) (fun q => ⟨rfl, rfl⟩)]
  · have hb : ({ (g.updatePlayer playerName
        (fun q => { q with deck := q.deck ++ g.deck.take (6 - q.deck.length) })) with
        deck := g.deck.drop (6 - p.deck.length) } : Game).players.map (·.1) =
        (g.updatePlayer playerName
          (fun q => { q with deck := q.deck ++ g.deck.take (6 - q.deck.length) })).players.map
          (·.1) := rfl
    rw [hb, keys_updatePlayer]
  · have hhands : handsMOf (g.updatePlayer playerName
        (fun q => { q with deck := q.deck ++ g.deck.take (6 - q.deck.length) })).players +
        (p.deck : Multiset String) = handsMOf g.players +
          ((p.deck ++ g.deck.take (6 - p.deck.length) : List String) : Multiset String) := by
      rw [updatePlayer_players]
      exact handsMOf_update (f := fun q =>
        { q with deck := q.deck ++ g.deck.take (6 - q.deck.length) }) hnd hp
    have hhands2 : handsMOf (g.updatePlayer playerName
        (fun q => { q with deck := q.deck ++ g.deck.take (6 - q.deck.length) })).players =
        handsMOf g.players + ((g.deck.take (6 - p.deck.length) : List String) :
          Multiset String) := by
      have ht : ((p.deck ++ g.deck.take (6 - p.deck.length) : List String) :
          Multiset String) = (p.deck : Multiset String) +
          ((g.deck.take (6 - p.deck.length) : List String) : Multiset String) := rfl
      rw [ht] at hhands
      rw [← add_assoc, add_right_comm] at hhands
      exact add_right_cancel hhands
  -- combine: deck' + hands' = deck + hands
    rw [inPlayM_def, inPlayM_def]
    show ((g.deck.drop (6 - p.deck.length) : List String) : Multiset String) +
        handsMOf (g.updatePlayer playerName
          (fun q => { q with deck := q.deck ++ g.deck.take (6 - q.deck.length) })).players +
        (tableCardsL g.tableTop : Multiset String) = _
    rw [hhands2]
    have hsplit : (g.deck : Multiset String) =
        ((g.deck.take (6 - p.deck.length) : List String) : Multiset String) +
          ((g.deck.drop (6 - p.deck.length) : List String) : Multiset String) := by
      have : (g.deck.take (6 - p.deck.length) ++ g.deck.drop (6 - p.deck.length) :
          List String) = g.deck := List.take_append_drop _ _
      calc (g.deck : Multiset String)
          = ((g.deck.take (6 - p.deck.length) ++ g.deck.drop (6 - p.deck.length) :
              List String) : Multiset String) := by rw [this]
        _ = _ := rfl
    rw [hsplit]
    abel

theorem replenishLoop_post {rs : String} :
    ∀ {fuel offset : Nat} {g g' : Game}, NamesNodup g →
      replenishLoop rs fuel offset g = .ok g' →
      rolesOf g' = rolesOf g ∧ g'.players.map (·.1) = g.players.map (·.1) ∧
        g'.victory = g.victory ∧ g'.tableTop = g.tableTop ∧ g'.inPlayM = g.inPlayM := by
  intro fuel
  induction fuel with
  | zero =>
    intro offset g g' _ h
    have : g = g' := Except.ok.inj h
    subst this
    exact ⟨rfl, rfl, rfl, rfl, rfl⟩
  | succ fuel ih =>
    intro offset g g' hnd h
    simp only [replenishLoop] at h
    split at h
    · split at h
      · exact absurd h (by simp)
      · exact absurd h (by simp)
      · rename_i playerName hoff
        split at h
        · exact absurd h (by simp)
        · rename_i p hp
          obtain ⟨hr1, hk1, hm1⟩ := replenish_step_post hnd hp
          by_cases hlt : p.deck.length < 6
          · rw [if_pos hlt] at h
            split at h
            · have he : _ = g' := Except.ok.inj h
              subst he
              exact ⟨hr1, hk1, rfl, rfl, hm1⟩
            · have hnd1 : NamesNodup ({ (g.updatePlayer playerName
                  (fun q => { q with deck := q.deck ++ g.deck.take (6 - q.deck.length) })) with
                  deck := g.deck.drop (6 - p.deck.length) } : Game) :=
                namesNodup_congr hk1 hnd
              obtain ⟨hr2, hk2, hv2, ht2, hm2⟩ := ih hnd1 h
              exact ⟨hr2.trans hr1, hk2.trans hk1, hv2, ht2, hm2.trans hm1⟩
          · rw [if_neg hlt] at h
            split at h
            · have he : _ = g' := Except.ok.inj h
              subst he
              exact ⟨rfl, rfl, rfl, rfl, rfl⟩
            · obtain ⟨hr2, hk2, hv2, ht2, hm2⟩ := ih hnd h
              exact ⟨hr2, hk2, hv2, ht2, hm2⟩
    · have : g = g' := Except.ok.inj h
      subst this
      exact ⟨rfl, rfl, rfl, rfl, rfl⟩

theorem fPTF_error_of_empty_table (fuel now : Nat) (name : String) (g : Game)
    (h : g.tableTop = []) : ∃ e, finalisePlayerTurnF fuel now name g = .error e := by
  cases fuel with
  | zero => exact ⟨(msgFuel, g), rfl⟩
  | succ fuel =>
    by_cases hv : g.victory = true
    · refine ⟨(msgVictory, g), ?_⟩
      simp only [finalisePlayerTurnF, hv]
      rfl
    · refine ⟨(msgFinaliseTurnNoCards, g), ?_⟩
      have hv2 : g.victory = false := by simpa using hv
      simp only [finalisePlayerTurnF, hv2, h]
      rfl

theorem sweepLoopF_ok_id :
    ∀ {fuel now : Nat} {names : List String} {hv : Bool} {g : Game} {res : Game × Bool},
      g.tableTop = [] → sweepLoopF fuel now names hv g = .ok res → res.1 = g := by
  intro fuel
  induction fuel with
  | zero =>
    intro now names hv g res _ h
    cases names with
    | nil =>
      have := Except.ok.inj h
      rw [← this]
    | cons a t => exact absurd h (by simp [sweepLoopF])
  | succ fuel ih =>
    intro now names hv g res htab h
    cases names with
    | nil =>
      simp only [sweepLoopF] at h
      have := Except.ok.inj h
      rw [← this]
    | cons name rest =>
      simp only [sweepLoopF] at h
      split at h
      · exact absurd h (by simp)
      · rename_i p hp
        split at h
        · exact absurd h (by simp)
        · rename_i g1 hafter
          -- hafter : the marking branch produced ok g1
          split at h
          · exact absurd h (by simp)
          · rename_i defName hdef
            split at h
            · exact absurd h (by simp)
            · rename_i pNow hpNow
              -- h : sweepLoopF fuel now rest _ g1 = .ok res
              -- afterMark: deck-empty case always errors, so g1 = g
              have hg1 : g1 = g := by
                by_cases hd : (p.deck.length == 0) = true
                · rw [if_pos hd] at hafter
                  obtain ⟨e, he⟩ := fPTF_error_of_empty_table fuel now name
                    (g.updatePlayer name (fun q => { q with out := some now })) htab
                  rw [he] at hafter
                  exact absurd hafter (by simp)
                · rw [if_neg hd] at hafter
                  exact (Except.ok.inj hafter).symm
              subst hg1
              exact ih htab h

theorem outND_iff (g : Game) :
    OutND g ↔ ∀ r ∈ rolesOf g, r.2.1 ≠ none → r.2.2 = false := by
  unfold OutND rolesOf
  constructor
  · intro h r hr
    obtain ⟨p, hp, he⟩ := List.mem_map.mp hr
    subst he
    exact h p hp
  · intro h p hp
    exact h _ (List.mem_map_of_mem _ hp)

theorem outND_congr {g g' : Game} (h : rolesOf g' = rolesOf g) (ho : OutND g) : OutND g' := by
  rw [outND_iff, h]
  exact (outND_iff g).mp ho

theorem eq_of_mem_of_nodup_keys {α : Type} :
    ∀ {l : List (String × α)}, (l.map (·.1)).Nodup →
      ∀ {a b : String × α}, a ∈ l → b ∈ l → a.1 = b.1 → a = b := by
  intro l
  induction l with
  | nil => intro _ a b ha; exact absurd ha (by simp)
  | cons c t ih =>
    intro hnd a b ha hb h
    rw [List.map_cons, List.nodup_cons] at hnd
    cases List.mem_cons.mp ha with
    | inl hac =>
      cases List.mem_cons.mp hb with
      | inl hbc => rw [hac, hbc]
      | inr hbt =>
        exfalso
        apply hnd.1
        rw [← hac, h]
        exact List.mem_map_of_mem _ hbt
    | inr hat =>
      cases List.mem_cons.mp hb with
      | inl hbc =>
        exfalso
        apply hnd.1
        rw [← hbc, ← h]
        exact List.mem_map_of_mem _ hat
      | inr hbt => exact ih hnd.2 hat hbt h

theorem setDefendingPlayer_outND {g : Game} {name : String} {g' : Game}
    (hnd : NamesNodup g) (h : g.setDefendingPlayer name = .ok g') : OutND g' := by
  obtain ⟨hvic, hmem, attName, hshape⟩ := setDefendingPlayer_ok h
  obtain ⟨hnd', hcnt, _, _, _, _, _, hkeys, _, hdefall⟩ := setDefendingPlayer_post hnd h
  intro pe hpe hout
  by_contra hdef
  have hdef2 : pe.2.isDefending = true := by
    cases hb : pe.2.isDefending
    · exact absurd hb hdef
    · rfl
  have hkey : pe.1 = name := hdefall pe hpe hdef2
  have houts : g'.players.map (fun p => (p.1, p.2.out)) =
      g.players.map (fun p => (p.1, p.2.out)) := by
    subst hshape
    rw [updatePlayer_players, updatePlayer_players, resetRoleFlags_players,
      List.map_map, List.map_map, List.map_map]
    refine List.map_congr_left fun p _ => ?_
    by_cases h1 : (p.1 == name) = true <;> by_cases h2 : (p.1 == attName) = true <;>
      simp [Function.comp, h1, h2]
  have hpe2 : (pe.1, pe.2.out) ∈ g.players.map (fun p => (p.1, p.2.out)) := by
    rw [← houts]
    exact List.mem_map_of_mem _ hpe
  obtain ⟨e', he', hee⟩ := List.mem_map.mp hpe2
  have hmem2 : ∃ e ∈ g.players, (e.2.out == none) = true ∧ e.1 = name := by
    unfold Game.getActivePlayers at hmem
    obtain ⟨e, he, hen⟩ := List.mem_map.mp hmem
    obtain ⟨hel, heo⟩ := List.mem_filter.mp he
    exact ⟨e, hel, heo, hen⟩
  obtain ⟨e, he, heo, hen⟩ := hmem2
  have hp := Prod.mk.inj hee
  have hkeq : e'.1 = e.1 := by
    rw [hp.1, hkey, hen]
  have hee2 : e' = e := eq_of_mem_of_nodup_keys hnd he' he hkeq
  apply hout
  rw [← hp.2, hee2]
  simpa using heo

theorem finaliseRoundF_post :
    ∀ (fuel : Nat) {now : Nat} {g g' : Game}, NamesNodup g →
      finaliseRoundF fuel now g = .ok g' →
      NamesNodup g' ∧ g'.activeDefenderCount = 1 ∧ g'.inPlayM ≤ g.inPlayM ∧
        g'.players.map (·.1) = g.players.map (·.1) ∧ OutND g' := by
  intro fuel now g g' hnd h
  cases fuel with
  | zero => exact absurd h (by simp [finaliseRoundF])
  | succ fuel =>
    simp only [finaliseRoundF] at h
    split at h
    · exact absurd h (by simp)
    · rename_i hvic
      split at h
      · exact absurd h (by simp)
      · rename_i htne
        split at h
        · exact absurd h (by simp)
        · rename_i rs hrs
          -- the defender-reassignment step
          split at h
          · exact absurd h (by simp)
          · rename_i g2 hstep1
            -- facts about g2 from either branch of step1
            have hg2 : NamesNodup g2 ∧ g2.activeDefenderCount = 1 ∧
                g2.players.map (·.1) = g.players.map (·.1) ∧
                (({ g2 with tableTop := [] } : Game).inPlayM ≤ g.inPlayM) ∧ OutND g2 := by
              split at hstep1
              · -- forfeit branch
                split at hstep1
                · exact absurd hstep1 (by simp)
                · rename_i defName hdefName
                  split at hstep1
                  · exact absurd hstep1 (by simp)
                  · rename_i dp hdp
                    split at hstep1
                    · exact absurd hstep1 (by simp)
                    · rename_i defName2 hdefName2
                      split at hstep1
                      · exact absurd hstep1 (by simp)
                      · exact absurd hstep1 (by simp)
                      · rename_i newDef hoff2
                        -- hstep1 : (absorb).setDefendingPlayer newDef = .ok g2
                        have hkeys1 : (g.updatePlayer defName (fun q =>
                            { q with deck := q.deck ++ g.getTableTopDeck })).players.map
                            (·.1) = g.players.map (·.1) := keys_updatePlayer _ _ _
                        have hnd1 : NamesNodup (g.updatePlayer defName (fun q =>
                            { q with deck := q.deck ++ g.getTableTopDeck })) :=
                          namesNodup_congr hkeys1 hnd
                        obtain ⟨hnd2, hcnt2, hvic2, hdk2, htt2, htr2, hdks2, hks2,
                          hm2, hdefall2⟩ := setDefendingPlayer_post hnd1 hstep1
                        have hhands1 : handsMOf (g.updatePlayer defName (fun q =>
                            { q with deck := q.deck ++ g.getTableTopDeck })).players =
                            handsMOf g.players +
                              (g.getTableTopDeck : Multiset String) := by
                          have hadd : handsMOf (g.updatePlayer defName (fun q =>
                              { q with deck := q.deck ++ g.getTableTopDeck })).players +
                              (dp.deck : Multiset String) = handsMOf g.players +
                                ((dp.deck ++ g.getTableTopDeck : List String) :
                                  Multiset String) := by
                            rw [updatePlayer_players]
                            exact handsMOf_update (f := fun q =>
                              { q with deck := q.deck ++ g.getTableTopDeck }) hnd hdp
                          have ht : ((dp.deck ++ g.getTableTopDeck : List String) :
                              Multiset String) = (dp.deck : Multiset String) +
                                (g.getTableTopDeck : Multiset String) := rfl
                          rw [ht, ← add_assoc, add_right_comm] at hadd
                          exact add_right_cancel hadd
                        refine ⟨hnd2, hcnt2, hks2.trans hkeys1, ?_,
                          setDefendingPlayer_outND hnd1 hstep1⟩
                        rw [inPlayM_def, inPlayM_def]
                        show (g2.deck : Multiset String) + handsMOf g2.players +
                            (tableCardsL ([] : List (String × Option String)) :
                              Multiset String) ≤ _
                        have hdeck : g2.deck = g.deck := hdk2
                        have hhands2 : handsMOf g2.players = handsMOf g.players +
                            (g.getTableTopDeck : Multiset String) := by
                          rw [handsMOf_congr hdks2, hhands1]
                        rw [hdeck, hhands2]
                        apply le_of_eq
                        show (g.deck : Multiset String) + (handsMOf g.players +
                            (g.getTableTopDeck : Multiset String)) + 0 = _
                        have hgt : (g.getTableTopDeck : Multiset String) =
                            (tableCardsL g.tableTop : Multiset String) := rfl
                        rw [hgt]
                        abel
              · -- non-forfeit branch
                split at hstep1
                · exact absurd hstep1 (by simp)
                · rename_i defName hdefName
                  split at hstep1
                  · exact absurd hstep1 (by simp)
                  · exact absurd hstep1 (by simp)
                  · rename_i newDef hoff
                    obtain ⟨hnd2, hcnt2, hvic2, hdk2, htt2, htr2, hdks2, hks2,
                      hm2, hdefall2⟩ := setDefendingPlayer_post hnd hstep1
                    refine ⟨hnd2, hcnt2, hks2, ?_,
                      setDefendingPlayer_outND hnd hstep1⟩
                    rw [inPlayM_def, inPlayM_def]
                    show (g2.deck : Multiset String) + handsMOf g2.players +
                        (tableCardsL ([] : List (String × Option String)) :
                          Multiset String) ≤ _
                    rw [hdk2, handsMOf_congr hdks2]
                    show (g.deck : Multiset String) + handsMOf g.players + 0 ≤ _
                    rw [add_zero]
                    exact le_add_right le_rfl
            obtain ⟨hnd2, hcnt2, hks2, hm3le, houtnd2⟩ := hg2
            -- replenishment
            split at h
            · exact absurd h (by simp)
            · rename_i g4 hrepl
              have hg4 : NamesNodup g4 ∧ g4.activeDefenderCount = 1 ∧
                  g4.players.map (·.1) = g2.players.map (·.1) ∧
                  g4.inPlayM ≤ g.inPlayM ∧ g4.tableTop = [] ∧ OutND g4 := by
                have hnd3 : NamesNodup ({ g2 with tableTop := [] } : Game) := hnd2
                have houtnd3 : OutND ({ g2 with tableTop := [] } : Game) := houtnd2
                split at hrepl
                · obtain ⟨hr4, hk4, hv4, ht4, hm4⟩ := replenishLoop_post hnd3 hrepl
                  refine ⟨namesNodup_congr hk4 hnd3, ?_, hk4, ?_, ht4,
                    outND_congr hr4 houtnd3⟩
                  · rw [defCount_congr hr4]
                    exact hcnt2
                  · rw [hm4]
                    exact hm3le
                · have he : _ = g4 := Except.ok.inj hrepl
                  subst he
                  exact ⟨hnd3, hcnt2, rfl, hm3le, rfl, houtnd3⟩
              obtain ⟨hnd4, hcnt4, hks4, hm4le, htt4, houtnd4⟩ := hg4
              -- sweep
              split at h
              · exact absurd h (by simp)
              · rename_i g5 hv5 hsweep
                have hg5 : g5 = g4 := sweepLoopF_ok_id htt4 hsweep
                have hfin : ({ g5 with victory := hv5 } : Game) = g' := Except.ok.inj h
                rw [← hfin, hg5]
                refine ⟨hnd4, ?_, ?_, hks4.trans hks2, houtnd4⟩
                · rw [show ({ g4 with victory := hv5 } : Game).activeDefenderCount =
                    g4.activeDefenderCount from rfl]
                  exact hcnt4
                · rw [show ({ g4 with victory := hv5 } : Game).inPlayM =
                    g4.inPlayM from rfl]
                  exact hm4le


theorem getDefendingPlayerName_updatePlayer {g : Game} {name : String} {f : Player → Player}
    (hf : ∀ q, (f q).isDefending = q.isDefending) :
    (g.updatePlayer name f).getDefendingPlayerName? = g.getDefendingPlayerName? := by
  unfold Game.getDefendingPlayerName?
  rw [updatePlayer_players, List.find?_map]
  have hpred : ((fun pe : String × Player => pe.2.isDefending) ∘
      (fun p : String × Player => if p.1 == name then (p.1, f p.2) else p)) =
      fun p : String × Player => p.2.isDefending := by
    funext p
    by_cases h1 : (p.1 == name) = true <;> simp [Function.comp, h1, hf]
  rw [hpred, Option.map_map]
  have hfst : ((fun pe : String × Player => pe.1) ∘
      (fun p : String × Player => if p.1 == name then (p.1, f p.2) else p)) =
      fun p : String × Player => p.1 := by
    funext p
    by_cases h1 : (p.1 == name) = true <;> simp [Function.comp, h1]
  rw [hfst]

theorem activeNames_updatePlayer {g : Game} {name : String} {f : Player → Player}
    (hf : ∀ q, (f q).out = q.out) :
    (g.updatePlayer name f).getActivePlayers.map (·.1) = g.getActivePlayers.map (·.1) := by
  apply activeNames_congr
  rw [updatePlayer_players, List.map_map]
  refine List.map_congr_left fun p _ => ?_
  by_cases h1 : (p.1 == name) = true <;> simp [Function.comp, h1, hf]

theorem finalisePlayerTurnF_post :
    ∀ (fuel : Nat) {now : Nat} {name : String} {g g' : Game}, NamesNodup g → OutND g →
      finalisePlayerTurnF fuel now name g = .ok g' →
      NamesNodup g' ∧ g'.players.map (·.1) = g.players.map (·.1) ∧
        g'.inPlayM ≤ g.inPlayM ∧
        (g'.activeDefenderCount = 1 ∨
          (g'.activeDefenderCount = g.activeDefenderCount ∧ g'.victory = g.victory)) ∧
        OutND g' ∧
        (∀ d, g.getDefendingPlayerName? = some d → d ∈ g.getActivePlayers.map (·.1)) := by
  intro fuel now name g g' hnd hond h
  cases fuel with
  | zero => exact absurd h (by simp [finalisePlayerTurnF])
  | succ fuel =>
    simp only [finalisePlayerTurnF] at h
    split at h
    · exact absurd h (by simp)
    · rename_i hvic
      split at h
      · exact absurd h (by simp)
      · rename_i htne
        split at h
        · exact absurd h (by simp)
        · rename_i p0 hp0
          split at h
          · exact absurd h (by simp)
          · rename_i defName hdefName
            split at h
            · exact absurd h (by simp)
            · rename_i att hatt
              -- the anchor of the offset lookup is an active player
              have hanchor : ∀ d, g.getDefendingPlayerName? = some d →
                  d ∈ g.getActivePlayers.map (·.1) := by
                intro d hd
                have hb1 : (g.updatePlayer name
                    (fun q => { q with turned := true })).getDefendingPlayerName? =
                    g.getDefendingPlayerName? :=
                  getDefendingPlayerName_updatePlayer (fun q => rfl)
                have hb2 : (g.updatePlayer name
                    (fun q => { q with turned := true })).getActivePlayers.map (·.1) =
                    g.getActivePlayers.map (·.1) :=
                  activeNames_updatePlayer (fun q => rfl)
                have hdd : d = defName := by
                  rw [← hb1] at hd
                  rw [hd] at hdefName
                  exact Option.some.inj hdefName
                subst hdd
                simp only [Game.getPlayerNameByOffsetE] at hatt
                split at hatt
                · exact absurd hatt (by simp)
                · rename_i i hfind
                  obtain ⟨a, ha, hpa⟩ := exists_of_findIdx?_eq_some hfind
                  have haeq : a = d := by simpa using hpa
                  rw [← hb2, ← haeq]
                  exact ha
              have hg1keys : (g.updatePlayer name
                  (fun q => { q with turned := true })).players.map (·.1) =
                  g.players.map (·.1) := keys_updatePlayer _ _ _
              have hg1roles : rolesOf (g.updatePlayer name
                  (fun q => { q with turned := true })) = rolesOf g :=
                rolesOf_updatePlayer_of_preserve (f := fun q => { q with turned := true })
                  (fun q => ⟨rfl, rfl⟩)
              have hg1decks : (g.updatePlayer name
                  (fun q => { q with turned := true })).players.map (fun p => p.2.deck) =
                  g.players.map (fun p => p.2.deck) :=
                decks_updatePlayer_of_preserve (f := fun q => { q with turned := true })
                  (fun q => rfl)
              set g1 := g.updatePlayer name (fun q => { q with turned := true }) with hg1
              have hg2facts : ∀ gx : Game, (gx = g1.grantAttackExceptDefender defName ∨
                  gx = g1) → NamesNodup gx ∧ gx.players.map (·.1) = g.players.map (·.1) ∧
                  gx.inPlayM = g.inPlayM ∧ gx.activeDefenderCount = g.activeDefenderCount ∧
                  gx.victory = g.victory ∧ OutND gx := by
                intro gx hgx
                cases hgx with
                | inl he =>
                  subst he
                  refine ⟨?_, ?_, ?_, ?_, rfl, ?_⟩
                  · exact namesNodup_congr ((keys_grantAttack _ _).trans hg1keys) hnd
                  · exact (keys_grantAttack _ _).trans hg1keys
                  · rw [inPlayM_def, inPlayM_def,
                      handsMOf_congr ((decks_grantAttack _ _).trans hg1decks)]
                    rfl
                  · rw [defCount_congr ((rolesOf_grantAttack _ _).trans hg1roles)]
                  · exact outND_congr ((rolesOf_grantAttack _ _).trans hg1roles) hond
                | inr he =>
                  subst he
                  refine ⟨namesNodup_congr hg1keys hnd, hg1keys, ?_, ?_, rfl,
                    outND_congr hg1roles hond⟩
                  · rw [inPlayM_def, inPlayM_def, handsMOf_congr hg1decks]
                    rfl
                  · rw [defCount_congr hg1roles]
              split at h
              · exact absurd h (by simp)
              · rename_i g3 hstep1
                have hg3 : NamesNodup g3 ∧ g3.players.map (·.1) = g.players.map (·.1) ∧
                    g3.inPlayM ≤ g.inPlayM ∧ (g3.activeDefenderCount = 1 ∨
                      (g3.activeDefenderCount = g.activeDefenderCount ∧
                        g3.victory = g.victory)) ∧ OutND g3 := by
                  split at hstep1
                  · split at hstep1
                    · obtain ⟨ha, hb, hc, hd, hv, ho⟩ := hg2facts _ (Or.inl rfl)
                      obtain ⟨h1, h2, h3, h4, h5⟩ := finaliseRoundF_post fuel ha hstep1
                      exact ⟨h1, h4.trans hb, le_trans h3 (le_of_eq hc), Or.inl h2, h5⟩
                    · have he := Except.ok.inj hstep1
                      subst he
                      obtain ⟨ha, hb, hc, hd, hv, ho⟩ := hg2facts _ (Or.inl rfl)
                      exact ⟨ha, hb, le_of_eq hc, Or.inr ⟨hd, hv⟩, ho⟩
                  · split at hstep1
                    · obtain ⟨ha, hb, hc, hd, hv, ho⟩ := hg2facts _ (Or.inr rfl)
                      obtain ⟨h1, h2, h3, h4, h5⟩ := finaliseRoundF_post fuel ha hstep1
                      exact ⟨h1, h4.trans hb, le_trans h3 (le_of_eq hc), Or.inl h2, h5⟩
                    · have he := Except.ok.inj hstep1
                      subst he
                      obtain ⟨ha, hb, hc, hd, hv, ho⟩ := hg2facts _ (Or.inr rfl)
                      exact ⟨ha, hb, le_of_eq hc, Or.inr ⟨hd, hv⟩, ho⟩
                obtain ⟨hnd3, hks3, hm3, hcd3, ho3⟩ := hg3
                split at h
                · exact absurd h (by simp)
                · rename_i g4 hstep2
                  have hg4 : NamesNodup g4 ∧ g4.players.map (·.1) = g.players.map (·.1) ∧
                      g4.inPlayM ≤ g.inPlayM ∧ (g4.activeDefenderCount = 1 ∨
                        (g4.activeDefenderCount = g.activeDefenderCount ∧
                          g4.victory = g.victory)) ∧ OutND g4 := by
                    split at hstep2
                    · split at hstep2
                      · exact absurd hstep2 (by simp)
                      · rename_i pNow hpNow
                        split at hstep2
                        · obtain ⟨h1, h2, h3, h4, h5⟩ := finaliseRoundF_post fuel hnd3 hstep2
                          exact ⟨h1, h4.trans hks3, le_trans h3 hm3, Or.inl h2, h5⟩
                        · have he : _ = g4 := Except.ok.inj hstep2
                          subst he
                          exact ⟨hnd3, hks3, hm3, hcd3, ho3⟩
                    · have he : _ = g4 := Except.ok.inj hstep2
                      subst he
                      exact ⟨hnd3, hks3, hm3, hcd3, ho3⟩
                  obtain ⟨hnd4, hks4, hm4, hcd4, ho4⟩ := hg4
                  split at h
                  · obtain ⟨h1, h2, h3, h4, h5⟩ := finaliseRoundF_post fuel hnd4 h
                    exact ⟨h1, h4.trans hks4, le_trans h3 hm4, Or.inl h2, h5, hanchor⟩
                  · have he : _ = g' := Except.ok.inj h
                    subst he
                    exact ⟨hnd4, hks4, hm4, hcd4, ho4, hanchor⟩

theorem generateCardDeck_nodup : generateCardDeck.Nodup := by decide

theorem keysM_le_tableCardsM :
    ∀ m : List (String × Option String),
      ((m.map (·.1) : List String) : Multiset String) ≤ (tableCardsL m : Multiset String) := by
  intro m
  induction m with
  | nil => simp
  | cons a t ih =>
    rw [List.map_cons, tableCardsL_cons]
    show (a.1 ::ₘ ((t.map (·.1) : List String) : Multiset String)) ≤
      a.1 ::ₘ ((a.2.toList ++ tableCardsL t : List String) : Multiset String)
    refine Multiset.cons_le_cons _ ?_
    refine le_trans ih ?_
    show (tableCardsL t : Multiset String) ≤
      (a.2.toList : Multiset String) + (tableCardsL t : Multiset String)
    exact self_le_add_left _ _

theorem tableKeysM_le_inPlayM (g : Game) :
    ((g.tableTop.map (·.1) : List String) : Multiset String) ≤ g.inPlayM := by
  refine le_trans (keysM_le_tableCardsM g.tableTop) ?_
  rw [inPlayM_def]
  exact self_le_add_left _ _

theorem tableKeys_nodup_of_inPlay_le {g : Game}
    (h : g.inPlayM ≤ (generateCardDeck : Multiset String)) : (g.tableTop.map (·.1)).Nodup := by
  have hnd : ((g.tableTop.map (·.1) : List String) : Multiset String).Nodup :=
    Multiset.nodup_of_le (le_trans (tableKeysM_le_inPlayM g) h)
      (by rw [Multiset.coe_nodup]; exact generateCardDeck_nodup)
  exact Multiset.coe_nodup.mp hnd

theorem find?_unique {α : Type} {p : α → Bool} :
    ∀ {l : List α} {e : α}, e ∈ l → p e = true → (∀ x ∈ l, p x = true → x = e) →
      l.find? p = some e := by
  intro l
  induction l with
  | nil => intro e he; exact absurd he (by simp)
  | cons a t ih =>
    intro e he hp huniq
    by_cases hpa : p a = true
    · have hae : a = e := huniq a (List.mem_cons_self a t) hpa
      rw [List.find?_cons, hpa]
      rw [hae]
    · have het : e ∈ t := by
        cases List.mem_cons.mp he with
        | inl h1 => rw [h1] at hp; exact absurd hp hpa
        | inr h1 => exact h1
      rw [List.find?_cons]
      have hpa2 : p a = false := by simpa using hpa
      rw [hpa2]
      exact ih het hp (fun x hx hpx => huniq x (List.mem_cons_of_mem _ hx) hpx)

theorem defender_unique {g : Game} (hcnt : g.activeDefenderCount = 1) (ho : OutND g) :
    ∃ e, e ∈ g.players ∧ e.2.out = none ∧ e.2.isDefending = true ∧
      g.getDefendingPlayerName? = some e.1 ∧
      (∀ p ∈ g.players, p.2.isDefending = true → p = e) := by
  unfold Game.activeDefenderCount at hcnt
  obtain ⟨e, hefl⟩ := List.length_eq_one.mp hcnt
  have hef : e ∈ g.players.filter (fun p => p.2.out == none && p.2.isDefending) := by
    rw [hefl]
    exact List.mem_singleton.mpr rfl
  obtain ⟨hel, hep⟩ := List.mem_filter.mp hef
  have heo : e.2.out = none := by
    have := (Bool.and_eq_true _ _).mp hep
    simpa using this.1
  have hed : e.2.isDefending = true := ((Bool.and_eq_true _ _).mp hep).2
  have huniq : ∀ p ∈ g.players, p.2.isDefending = true → p = e := by
    intro p hpmem hpd
    have hpo : p.2.out = none := by
      by_contra hne
      have hfd := ho p hpmem hne
      rw [hfd] at hpd
      exact Bool.noConfusion hpd
    have hpf : p ∈ g.players.filter (fun p => p.2.out == none && p.2.isDefending) :=
      List.mem_filter.mpr ⟨hpmem, by rw [hpo, hpd]; rfl⟩
    rw [hefl] at hpf
    exact List.mem_singleton.mp hpf
  have hfind : g.players.find? (fun p => p.2.isDefending) = some e :=
    find?_unique hel hed huniq
  refine ⟨e, hel, heo, hed, ?_, huniq⟩
  unfold Game.getDefendingPlayerName?
  rw [hfind]
  rfl

theorem fPTF_anchor {fuel now : Nat} {name : String} {g g' : Game}
    (h : finalisePlayerTurnF fuel now name g = .ok g') :
    ∀ d, g.getDefendingPlayerName? = some d → d ∈ g.getActivePlayers.map (·.1) := by
  cases fuel with
  | zero => exact absurd h (by simp [finalisePlayerTurnF])
  | succ fuel =>
    simp only [finalisePlayerTurnF] at h
    split at h
    · exact absurd h (by simp)
    · rename_i hvic
      split at h
      · exact absurd h (by simp)
      · rename_i htne
        split at h
        · exact absurd h (by simp)
        · rename_i p0 hp0
          split at h
          · exact absurd h (by simp)
          · rename_i defName hdefName
            split at h
            · exact absurd h (by simp)
            · rename_i att hatt
              intro d hd
              have hb1 : (g.updatePlayer name
                  (fun q => { q with turned := true })).getDefendingPlayerName? =
                  g.getDefendingPlayerName? :=
                getDefendingPlayerName_updatePlayer (fun q => rfl)
              have hb2 : (g.updatePlayer name
                  (fun q => { q with turned := true })).getActivePlayers.map (·.1) =
                  g.getActivePlayers.map (·.1) :=
                activeNames_updatePlayer (fun q => rfl)
              have hdd : d = defName := by
                rw [← hb1] at hd
                rw [hd] at hdefName
                exact Option.some.inj hdefName
              subst hdd
              simp only [Game.getPlayerNameByOffsetE] at hatt
              split at hatt
              · exact absurd hatt (by simp)
              · rename_i i hfind
                obtain ⟨a, ha, hpa⟩ := exists_of_findIdx?_eq_some hfind
                have haeq : a = d := by simpa using hpa
                rw [← hb2, ← haeq]
                exact ha

theorem markOut_post {g : Game} {name : String} {now : Nat}
    (hcnt : g.activeDefenderCount = 1) (ho : OutND g)
    (hne : ∀ p ∈ g.players, p.2.isDefending = true → p.1 ≠ name) :
    (g.updatePlayer name (fun q => { q with out := some now })).activeDefenderCount = 1 ∧
      OutND (g.updatePlayer name (fun q => { q with out := some now })) := by
  constructor
  · unfold Game.activeDefenderCount
    rw [updatePlayer_players, List.filter_map, List.length_map]
    have hcong : ∀ p ∈ g.players,
        ((fun pe : String × Player => pe.2.out == none && pe.2.isDefending) ∘
          (fun p : String × Player =>
            if p.1 == name then (p.1, { p.2 with out := some now }) else p)) p =
        (fun pe : String × Player => pe.2.out == none && pe.2.isDefending) p := by
      intro p hp
      by_cases h1 : (p.1 == name) = true
      · have hdf : p.2.isDefending = false := by
          by_contra hx
          have ht : p.2.isDefending = true := by
            cases hb : p.2.isDefending
            · exact absurd hb hx
            · rfl
          exact hne p hp ht (by simpa using h1)
        simp [Function.comp, h1, hdf]
      · simp [Function.comp, h1]
    rw [List.filter_congr hcong]
    exact hcnt
  · intro pe hpe hout
    rw [updatePlayer_players] at hpe
    obtain ⟨q, hq, hqe⟩ := List.mem_map.mp hpe
    by_cases h1 : (q.1 == name) = true
    · rw [← hqe]
      simp only [if_pos h1]
      have hdf : q.2.isDefending = false := by
        by_contra hx
        have ht : q.2.isDefending = true := by
          cases hb : q.2.isDefending
          · exact absurd hb hx
          · rfl
        exact hne q hq ht (by simpa using h1)
      simpa using hdf
    · rw [← hqe] at hout ⊢
      simp only [if_neg h1] at hout ⊢
      exact ho q hq hout

theorem handsMOf_cons (a : String × Player) (t : List (String × Player)) :
    handsMOf (a :: t) = (a.2.deck : Multiset String) + handsMOf t := rfl

theorem dealOnce_keys :
    ∀ (ps : List (String × Player)) (deck : List String),
      (dealOnce ps deck).1.map (·.1) = ps.map (·.1) := by
  intro ps
  induction ps with
  | nil => intro deck; rfl
  | cons a rest ih =>
    intro deck
    obtain ⟨n, p⟩ := a
    cases deck with
    | nil =>
      rcases hres : dealOnce rest [] with ⟨rest2, deck2⟩
      have hk := ih []
      rw [hres] at hk
      simp [dealOnce, hres, hk]
    | cons c ds =>
      rcases hres : dealOnce rest ds with ⟨rest2, deck2⟩
      have hk := ih ds
      rw [hres] at hk
      simp [dealOnce, hres, hk]

theorem dealOnce_conserve :
    ∀ (ps : List (String × Player)) (deck : List String),
      handsMOf (dealOnce ps deck).1 + ((dealOnce ps deck).2 : Multiset String) =
        handsMOf ps + (deck : Multiset String) := by
  intro ps
  induction ps with
  | nil => intro deck; rfl
  | cons a rest ih =>
    intro deck
    obtain ⟨n, p⟩ := a
    cases deck with
    | nil =>
      rcases hres : dealOnce rest [] with ⟨rest2, deck2⟩
      have hk := ih []
      rw [hres] at hk
      simp only [dealOnce, hres, handsMOf_cons]
      show (p.deck : Multiset String) + handsMOf rest2 + (deck2 : Multiset String) =
        (p.deck : Multiset String) + handsMOf rest + (([] : List String) : Multiset String)
      calc (p.deck : Multiset String) + handsMOf rest2 + (deck2 : Multiset String)
          = (p.deck : Multiset String) + (handsMOf rest2 + (deck2 : Multiset String)) := by
            rw [add_assoc]
        _ = (p.deck : Multiset String) + (handsMOf rest +
            (([] : List String) : Multiset String)) := by rw [hk]
        _ = _ := by rw [add_assoc]
    | cons c ds =>
      rcases hres : dealOnce rest ds with ⟨rest2, deck2⟩
      have hk := ih ds
      rw [hres] at hk
      simp only [dealOnce, hres, handsMOf_cons]
      show ((p.deck ++ [c] : List String) : Multiset String) + handsMOf rest2 +
          (deck2 : Multiset String) =
        (p.deck : Multiset String) + handsMOf rest + ((c :: ds : List String) : Multiset String)
      have h1 : ((p.deck ++ [c] : List String) : Multiset String) =
          (p.deck : Multiset String) + (([c] : List String) : Multiset String) := rfl
      have h2 : ((c :: ds : List String) : Multiset String) =
          (([c] : List String) : Multiset String) + (ds : Multiset String) := by
        show ((([c] ++ ds : List String)) : Multiset String) = _
        rfl
      rw [h1, h2]
      calc (p.deck : Multiset String) + (([c] : List String) : Multiset String) +
            handsMOf rest2 + (deck2 : Multiset String)
          = (p.deck : Multiset String) + (([c] : List String) : Multiset String) +
            (handsMOf rest2 + (deck2 : Multiset String)) := by rw [add_assoc]
        _ = (p.deck : Multiset String) + (([c] : List String) : Multiset String) +
            (handsMOf rest + (ds : Multiset String)) := by rw [hk]
        _ = _ := by abel

theorem dealLoop_keys :
    ∀ (k : Nat) (ps : List (String × Player)) (deck : List String),
      (dealLoop k ps deck).1.map (·.1) = ps.map (·.1) := by
  intro k
  induction k with
  | zero => intro ps deck; rfl
  | succ k ih =>
    intro ps deck
    rcases hres : dealOnce ps deck with ⟨ps2, deck2⟩
    have h1 := dealOnce_keys ps deck
    rw [hres] at h1
    simp only [dealLoop, hres]
    rw [ih ps2 deck2]
    exact h1

theorem dealLoop_conserve :
    ∀ (k : Nat) (ps : List (String × Player)) (deck : List String),
      handsMOf (dealLoop k ps deck).1 + ((dealLoop k ps deck).2 : Multiset String) =
        handsMOf ps + (deck : Multiset String) := by
  intro k
  induction k with
  | zero => intro ps deck; rfl
  | succ k ih =>
    intro ps deck
    rcases hres : dealOnce ps deck with ⟨ps2, deck2⟩
    have h1 := dealOnce_conserve ps deck
    rw [hres] at h1
    simp only [dealLoop, hres]
    rw [ih ps2 deck2]
    exact h1

theorem handsMOf_empty_players :
    ∀ ns : List String, handsMOf (ns.map (fun n => (n, ({} : Player)))) = 0 := by
  intro ns
  induction ns with
  | nil => rfl
  | cons n t ih =>
    rw [List.map_cons, handsMOf_cons, ih]
    rfl

theorem newGame_inv {names shuffled : List String} {chosen : Option String} {g : Game}
    (hperm : shuffled.Perm generateCardDeck)
    (h : newGame names shuffled chosen = .ok g) : EngineInv g := by
  rcases hdl : dealLoop 6 (names.map (fun n => (n, ({} : Player)))) shuffled
    with ⟨players1, deck1⟩
  cases chosen with
  | none =>
    exfalso
    simp only [newGame, hdl] at h
    split at h
    · exact absurd h (by simp)
    · split at h
      · exact absurd h (by simp)
      · split at h
        · exact absurd h (by simp)
        · exact absurd h (by simp)
  | some chosenName =>
    simp only [newGame, hdl] at h
    split at h
    · exact absurd h (by simp)
    · rename_i hguard1
      split at h
      · exact absurd h (by simp)
      · rename_i hguard2
        split at h
        · exact absurd h (by simp)
        · rename_i hguard3
          have hnames : names.Nodup := by
            have hlen : names.dedup.length = names.length := by simpa using hguard3
            have hsub : names.dedup.Sublist names := List.dedup_sublist names
            have heq : names.dedup = names := List.Sublist.eq_of_length hsub hlen
            rw [← heq]
            exact List.nodup_dedup names
          split at h
          · exact absurd h (by simp)
          · rename_i g1 hsdp
            split at h
            · exact absurd h (by simp)
            · rename_i top rest hdeck
              split at h
              · exact absurd h (by simp)
              · rename_i t hparse
                have hg : _ = g := Except.ok.inj h
                subst hg
                have hkeys1 : players1.map (·.1) = names := by
                  have hk := dealLoop_keys 6 (names.map (fun n => (n, ({} : Player)))) shuffled
                  rw [hdl] at hk
                  rw [hk, List.map_map]
                  have hid : ((fun x : String × Player => x.1) ∘
                      (fun n : String => (n, ({} : Player)))) = fun n : String => n := by
                    funext n
                    rfl
                  rw [hid]
                  exact List.map_id names
                have hcons : handsMOf players1 + (deck1 : Multiset String) =
                    (shuffled : Multiset String) := by
                  have hc := dealLoop_conserve 6 (names.map (fun n => (n, ({} : Player))))
                    shuffled
                  rw [hdl] at hc
                  rw [hc, handsMOf_empty_players]
                  rw [zero_add]
                have hnddraft : NamesNodup ({ deck := deck1, trumpCard := ⟨0, "", ""⟩,
                                              tableTop := [], players := players1,
                                              victory := false } : Game) := by
                  show (players1.map (·.1)).Nodup
                  rw [hkeys1]
                  exact hnames
                obtain ⟨hnd1, hcnt1, hvic1, hdk1, htt1, htr1, hdks1, hks1, hm1, hdefall1⟩ :=
                  setDefendingPlayer_post hnddraft hsdp
                have ho1 : OutND g1 := setDefendingPlayer_outND hnddraft hsdp
                refine ⟨hnd1, fun _ => hcnt1, ho1, ?_⟩
                have hm : ({ g1 with trumpCard := ⟨t.value, t.suit, top⟩,
                                     deck := rest ++ [top] } : Game).inPlayM =
                    (shuffled : Multiset String) := by
                  rw [inPlayM_def]
                  show ((rest ++ [top] : List String) : Multiset String) + handsMOf g1.players
                    + (tableCardsL g1.tableTop : Multiset String) = _
                  rw [htt1]
                  have hrot : ((rest ++ [top] : List String) : Multiset String) =
                      ((top :: rest : List String) : Multiset String) := by
                    show (rest : Multiset String) + (([top] : List String) : Multiset String) =
                      top ::ₘ (rest : Multiset String)
                    rw [add_comm]
                    rfl
                  rw [hrot]
                  have hd1 : ((top :: rest : List String) : Multiset String) =
                      (deck1 : Multiset String) := by
                    rw [← hdeck, hdk1]
                  rw [hd1, handsMOf_congr hdks1]
                  show (deck1 : Multiset String) + handsMOf players1 + 0 = _
                  rw [add_zero, add_comm]
                  exact hcons
                rw [hm]
                exact le_of_eq (Multiset.coe_eq_coe.mpr hperm)

theorem addCard_inv {fuel now : Nat} {name card : String} {g g' : Game}
    (hinv : EngineInv g) (h : addCardToTableTopF fuel now name card g = .ok g') :
    EngineInv g' := by
  obtain ⟨hnd, hcnt, hond, hle⟩ := hinv
  simp only [addCardToTableTopF] at h
  split at h
  · exact absurd h (by simp)
  · rename_i hvic
    split at h
    · exact absurd h (by simp)
    · rename_i hfull
      split at h
      · exact absurd h (by simp)
      · rename_i player hplayer
        split at h
        · exact absurd h (by simp)
        · rename_i hholds
          split at h
          · exact absurd h (by simp)
          · rename_i coveringCard hparse
            split at h
            · exact absurd h (by simp)
            · rename_i vals hvals
              split at h
              · exact absurd h (by simp)
              · rename_i hrank
                split at h
                · exact absurd h (by simp)
                · rename_i g1 hstep1
                  have hvicf : g.victory = false := by simpa using hvic
                  have hg1 : NamesNodup g1 ∧ g1.activeDefenderCount = 1 ∧
                      g1.victory = false ∧ g1.tableTop = g.tableTop ∧
                      g1.inPlayM = g.inPlayM ∧ OutND g1 := by
                    split at hstep1
                    · split at hstep1
                      · exact absurd hstep1 (by simp)
                      · split at hstep1
                        · exact absurd hstep1 (by simp)
                        · exact absurd hstep1 (by simp)
                        · rename_i nextName hoff
                          split at hstep1
                          · exact absurd hstep1 (by simp)
                          · rename_i nextPlayer hnp
                            split at hstep1
                            · exact absurd hstep1 (by simp)
                            · rename_i henough
                              split at hstep1
                              · exact absurd hstep1 (by simp)
                              · rename_i bad hbad
                                split at hstep1
                                · exact absurd hstep1 (by simp)
                                · rename_i hbadf
                                  split at hstep1
                                  · exact absurd hstep1 (by simp)
                                  · exact absurd hstep1 (by simp)
                                  · rename_i nd hoff2
                                    obtain ⟨hnd2, hcnt2, hvic2, hdk2, htt2, htr2, hdks2,
                                      hks2, hm2, hdall2⟩ := setDefendingPlayer_post hnd hstep1
                                    exact ⟨hnd2, hcnt2, hvic2, htt2, hm2,
                                      setDefendingPlayer_outND hnd hstep1⟩
                    · have he := Except.ok.inj hstep1
                      subst he
                      exact ⟨hnd, hcnt hvicf, hvicf, rfl, rfl, hond⟩
                  obtain ⟨hnd1, hcnt1, hvic1, htt1, hm1, ho1⟩ := hg1
                  split at h
                  · exact absurd h (by simp)
                  · rename_i g2 htr
                    have htnd1 : (g1.tableTop.map (·.1)).Nodup := by
                      rw [htt1]
                      exact tableKeys_nodup_of_inPlay_le hle
                    obtain ⟨hm2, hr2, hk2, hv2, htne2⟩ :=
                      transferCardOntoTable_post hnd1 htnd1 htr
                    have hnd2 : NamesNodup g2 := namesNodup_congr hk2 hnd1
                    have hcnt2 : g2.activeDefenderCount = 1 := by
                      rw [defCount_congr hr2]
                      exact hcnt1
                    have ho2 : OutND g2 := outND_congr hr2 ho1
                    have hvic2 : g2.victory = false := by
                      rw [hv2]
                      exact hvic1
                    have hle2 : g2.inPlayM ≤ (generateCardDeck : Multiset String) :=
                      le_trans hm2 (le_trans (le_of_eq hm1) hle)
                    split at h
                    · exact absurd h (by simp)
                    · rename_i pNow hpNow
                      split at h
                      · rename_i hzero
                        split at h
                        · exact absurd h (by simp)
                        · rename_i g4 hfpt
                          obtain ⟨e, hel, heo, hed, hdefname, huniq⟩ :=
                            defender_unique hcnt2 ho2
                          have hbridge : (g2.updatePlayer name
                              (fun q => { q with out := some now })).getDefendingPlayerName? =
                              g2.getDefendingPlayerName? :=
                            getDefendingPlayerName_updatePlayer (fun q => rfl)
                          have hanchor := fPTF_anchor hfpt e.1 (by rw [hbridge]; exact hdefname)
                          have hene : e.1 ≠ name := by
                            intro heq
                            unfold Game.getActivePlayers at hanchor
                            obtain ⟨q, hq, hqn⟩ := List.mem_map.mp hanchor
                            obtain ⟨hql, hqo⟩ := List.mem_filter.mp hq
                            rw [updatePlayer_players] at hql
                            obtain ⟨q0, hq0, hq0e⟩ := List.mem_map.mp hql
                            by_cases h1 : (q0.1 == name) = true
                            · have h1p : q0.1 = name := by simpa using h1
                              rw [← hq0e] at hqo
                              simp [h1p] at hqo
                            · rw [← hq0e] at hqn
                              simp only [if_neg h1] at hqn
                              apply h1
                              have : q0.1 = name := by
                                rw [← heq]
                                exact hqn
                              simpa using this
                          have hne2 : ∀ p ∈ g2.players, p.2.isDefending = true →
                              p.1 ≠ name := by
                            intro p hp hpd
                            rw [huniq p hp hpd]
                            exact hene
                          obtain ⟨hcnt3, ho3⟩ := markOut_post hcnt2 ho2 hne2
                          have hnd3 : NamesNodup (g2.updatePlayer name
                              (fun q => { q with out := some now })) :=
                            namesNodup_congr (keys_updatePlayer _ _ _) hnd2
                          have hm3 : (g2.updatePlayer name
                              (fun q => { q with out := some now })).inPlayM = g2.inPlayM := by
                            rw [inPlayM_def, inPlayM_def, handsMOf_congr
                              (decks_updatePlayer_of_preserve (f := fun q =>
                                { q with out := some now }) (fun q => rfl))]
                            rfl
                          obtain ⟨hnd4, hks4, hm4, hcd4, ho4, _⟩ :=
                            finalisePlayerTurnF_post fuel hnd3 ho3 hfpt
                          have hcnt4 : g4.activeDefenderCount = 1 := by
                            cases hcd4 with
                            | inl h1 => exact h1
                            | inr h1 =>
                              rw [h1.1]
                              exact hcnt3
                          have hle4 : g4.inPlayM ≤ (generateCardDeck : Multiset String) :=
                            le_trans hm4 (le_trans (le_of_eq hm3) hle2)
                          split at h
                          · have he : _ = g' := Except.ok.inj h
                            subst he
                            exact ⟨hnd4, fun hv => Bool.noConfusion hv, ho4, hle4⟩
                          · have he : _ = g' := Except.ok.inj h
                            subst he
                            exact ⟨hnd4, fun _ => hcnt4, ho4, hle4⟩
                      · have he : _ = g' := Except.ok.inj h
                        subst he
                        exact ⟨hnd2, fun _ => hcnt2, ho2, hle2⟩

theorem coverCard_inv {fuel now : Nat} {card : String} {pos : Nat} {g g' : Game}
    (hinv : EngineInv g) (h : coverCardOnTableTopF fuel now card pos g = .ok g') :
    EngineInv g' := by
  obtain ⟨hnd, hcnt, hond, hle⟩ := hinv
  simp only [coverCardOnTableTopF] at h
  split at h
  · exact absurd h (by simp)
  · rename_i defName hdefName
    split at h
    · exact absurd h (by simp)
    · rename_i dp hdp
      split at h
      · exact absurd h (by simp)
      · rename_i hvic
        split at h
        · exact absurd h (by simp)
        · rename_i hholds
          split at h
          · exact absurd h (by simp)
          · exact absurd h (by simp)
          · rename_i placed hat
            split at h
            · exact absurd h (by simp)
            · rename_i placedCard hparse1
              split at h
              · exact absurd h (by simp)
              · rename_i coveringCard hparse2
                -- shared facts about the mutated state `g2`
                have hvicf : g.victory = false := by simpa using hvic
                have hcnt1 : g.activeDefenderCount = 1 := hcnt hvicf
                have hcard : card ∈ dp.deck := by
                  have := hholds
                  simp only [Bool.not_eq_true, Bool.not_eq_false] at this
                  simpa using this
                have hhas : mapHas g.tableTop placed = true := by
                  simp only [Game.getCardOnTableTopAtE] at hat
                  split at hat
                  · exact absurd hat (by simp)
                  · have hget : (g.tableTop.map (·.1)).get? pos = some placed := by
                      have := Except.ok.inj hat
                      rw [this]
                    have hmem : placed ∈ g.tableTop.map (·.1) := List.get?_mem hget
                    unfold mapHas
                    rw [List.any_eq_true]
                    obtain ⟨e, he, hee⟩ := List.mem_map.mp hmem
                    exact ⟨e, he, by simpa using hee⟩
                have htnd : (g.tableTop.map (·.1)).Nodup := tableKeys_nodup_of_inPlay_le hle
                have hroles2 : rolesOf (({ g with tableTop := mapSet g.tableTop placed (some card) } : Game).updatePlayer defName
                    (fun q => { q with deck := q.deck.filter (fun c => c != card) })) =
                    rolesOf g := by
                  rw [rolesOf_updatePlayer_of_preserve (f := fun q =>
                    { q with deck := q.deck.filter (fun c => c != card) })
                    (fun q => ⟨rfl, rfl⟩)]
                  rfl
                have hkeys2 : (({ g with tableTop := mapSet g.tableTop placed (some card) } : Game).updatePlayer defName
                    (fun q => { q with deck := q.deck.filter (fun c => c != card) })).players.map
                    (·.1) = g.players.map (·.1) := keys_updatePlayer _ _ _
                have hnd2 : NamesNodup (({ g with tableTop := mapSet g.tableTop placed (some card) } : Game).updatePlayer defName
                    (fun q => { q with deck := q.deck.filter (fun c => c != card) })) :=
                  namesNodup_congr hkeys2 hnd
                have hcnt2 : (({ g with tableTop := mapSet g.tableTop placed (some card) } : Game).updatePlayer defName
                    (fun q => { q with deck := q.deck.filter (fun c => c != card) })).activeDefenderCount = 1 := by
                  rw [defCount_congr hroles2]
                  exact hcnt1
                have ho2 : OutND (({ g with tableTop := mapSet g.tableTop placed (some card) } : Game).updatePlayer defName
                    (fun q => { q with deck := q.deck.filter (fun c => c != card) })) :=
                  outND_congr hroles2 hond
                have hm2 : (({ g with tableTop := mapSet g.tableTop placed (some card) } : Game).updatePlayer defName
                    (fun q => { q with deck := q.deck.filter (fun c => c != card) })).inPlayM ≤ g.inPlayM := by
                  have htable : (tableCardsL (mapSet g.tableTop placed (some card)) :
                      Multiset String) ≤ (tableCardsL g.tableTop : Multiset String) +
                        ({card} : Multiset String) := by
                    have htle := tableCardsM_mapfun_le (k := placed) (v := some card) htnd
                    rw [← mapSet_has _ hhas] at htle
                    simpa using htle
                  have hh1 : handsMOf ((({ g with tableTop := mapSet g.tableTop placed (some card) } : Game).updatePlayer defName
                      (fun q => { q with deck := q.deck.filter (fun c => c != card) })).players) + (dp.deck : Multiset String) =
                      handsMOf g.players + ((dp.deck.filter (fun c => c != card) :
                        List String) : Multiset String) := by
                    rw [updatePlayer_players]
                    exact handsMOf_update (f := fun q =>
                      { q with deck := q.deck.filter (fun c => c != card) }) hnd hdp
                  have hfl : ((dp.deck.filter (fun c => c != card) : List String) :
                      Multiset String) + ({card} : Multiset String) ≤
                      (dp.deck : Multiset String) := filter_ne_add_singleton_le_of_mem hcard
                  have hhands : handsMOf ((({ g with tableTop := mapSet g.tableTop placed (some card) } : Game).updatePlayer defName
                      (fun q => { q with deck := q.deck.filter (fun c => c != card) })).players) + ({card} : Multiset String) ≤
                      handsMOf g.players := by
                    have hstep : handsMOf ((({ g with tableTop := mapSet g.tableTop placed (some card) } : Game).updatePlayer defName
                        (fun q => { q with deck := q.deck.filter (fun c => c != card) })).players) + ({card} : Multiset String) +
                        (dp.deck : Multiset String) ≤
                        handsMOf g.players + (dp.deck : Multiset String) := by
                      calc handsMOf ((({ g with tableTop := mapSet g.tableTop placed (some card) } : Game).updatePlayer defName
                            (fun q => { q with deck := q.deck.filter (fun c => c != card) })).players) + ({card} : Multiset String) +
                            (dp.deck : Multiset String)
                          = handsMOf ((({ g with tableTop := mapSet g.tableTop placed (some card) } : Game).updatePlayer defName
                            (fun q => { q with deck := q.deck.filter (fun c => c != card) })).players) + (dp.deck : Multiset String) +
                            ({card} : Multiset String) := by abel
                        _ = handsMOf g.players + ((dp.deck.filter (fun c => c != card) :
                            List String) : Multiset String) + ({card} : Multiset String) := by
                            rw [hh1]
                        _ = handsMOf g.players + (((dp.deck.filter (fun c => c != card) :
                            List String) : Multiset String) + ({card} : Multiset String)) := by
                            rw [add_assoc]
                        _ ≤ handsMOf g.players + (dp.deck : Multiset String) :=
                            add_le_add_left hfl _
                    exact (add_le_add_iff_right _).mp hstep
                  rw [inPlayM_def, inPlayM_def]
                  calc (g.deck : Multiset String) + handsMOf ((({ g with tableTop := mapSet g.tableTop placed (some card) } : Game).updatePlayer
                        defName (fun q => { q with deck := q.deck.filter (fun c => c != card) })).players) +
                        (tableCardsL (mapSet g.tableTop placed (some card)) : Multiset String)
                      ≤ (g.deck : Multiset String) + handsMOf ((({ g with tableTop := mapSet g.tableTop placed (some card) } : Game).updatePlayer
                        defName (fun q => { q with deck := q.deck.filter (fun c => c != card) })).players) +
                        ((tableCardsL g.tableTop : Multiset String) +
                          ({card} : Multiset String)) := add_le_add_left htable _
                    _ = (g.deck : Multiset String) + (handsMOf ((({ g with tableTop := mapSet g.tableTop placed (some card) } : Game).updatePlayer
                        defName (fun q => { q with deck := q.deck.filter (fun c => c != card) })).players) + ({card} : Multiset String)) +
                        (tableCardsL g.tableTop : Multiset String) := by abel
                    _ ≤ (g.deck : Multiset String) + handsMOf g.players +
                        (tableCardsL g.tableTop : Multiset String) :=
                        add_le_add (add_le_add_left hhands _) le_rfl
                have hle2 : (({ g with tableTop := mapSet g.tableTop placed (some card) } : Game).updatePlayer defName
                    (fun q => { q with deck := q.deck.filter (fun c => c != card) })).inPlayM ≤
                    (generateCardDeck : Multiset String) := le_trans hm2 hle
                -- the two suit branches lead to the same `proceed` expression
                split at h
                · split at h
                  · exact absurd h (by simp)
                  · split at h
                    · exact absurd h (by simp)
                    · rename_i defNow hdefNow
                      split at h
                      · obtain ⟨h1, h2, h3, h4, h5⟩ := finaliseRoundF_post fuel hnd2 h
                        exact ⟨h1, fun _ => h2, h5, le_trans h3 hle2⟩
                      · have he : _ = g' := Except.ok.inj h
                        subst he
                        refine ⟨namesNodup_congr ((keys_resetTurned _).trans hkeys2) hnd,
                          fun _ => ?_, outND_congr ((rolesOf_resetTurned _).trans hroles2) hond,
                          ?_⟩
                        · rw [defCount_congr (rolesOf_resetTurned _)]
                          exact hcnt2
                        · refine le_trans (le_of_eq ?_) hle2
                          rw [inPlayM_def, inPlayM_def,
                            handsMOf_congr (decks_resetTurned _)]
                          rfl
                · split at h
                  · exact absurd h (by simp)
                  · split at h
                    · exact absurd h (by simp)
                    · rename_i defNow hdefNow
                      split at h
                      · obtain ⟨h1, h2, h3, h4, h5⟩ := finaliseRoundF_post fuel hnd2 h
                        exact ⟨h1, fun _ => h2, h5, le_trans h3 hle2⟩
                      · have he : _ = g' := Except.ok.inj h
                        subst he
                        refine ⟨namesNodup_congr ((keys_resetTurned _).trans hkeys2) hnd,
                          fun _ => ?_, outND_congr ((rolesOf_resetTurned _).trans hroles2) hond,
                          ?_⟩
                        · rw [defCount_congr (rolesOf_resetTurned _)]
                          exact hcnt2
                        · refine le_trans (le_of_eq ?_) hle2
                          rw [inPlayM_def, inPlayM_def,
                            handsMOf_congr (decks_resetTurned _)]
                          rfl

theorem reachable_inv : ∀ {g : Game}, Reachable g → EngineInv g := by
  intro g hr
  induction hr with
  | init hperm hcv hng => exact newGame_inv hperm hng
  | attack hr hstep ih => exact addCard_inv ih hstep
  | cover hr hstep ih => exact coverCard_inv ih hstep
  | turn hr hstep ih =>
    obtain ⟨hnd, hcnt, ho, hle⟩ := ih
    obtain ⟨h1, h2, h3, h4, h5, _⟩ := finalisePlayerTurnF_post engineFuel hnd ho hstep
    refine ⟨h1, ?_, h5, le_trans h3 hle⟩
    intro hv
    cases h4 with
    | inl hh => exact hh
    | inr hh =>
      rw [hh.1]
      refine hcnt ?_
      rw [← hh.2]
      exact hv
  | roundEnd hr hstep ih =>
    obtain ⟨hnd, hcnt, ho, hle⟩ := ih
    obtain ⟨h1, h2, h3, h4, h5⟩ := finaliseRoundF_post engineFuel hnd hstep
    exact ⟨h1, fun _ => h2, h5, le_trans h3 hle⟩

theorem card_handsMOf :
    ∀ l : List (String × Player),
      Multiset.card (handsMOf l) = (l.map (fun p => p.2.deck.length)).sum := by
  intro l
  induction l with
  | nil => rfl
  | cons a t ih =>
    rw [handsMOf_cons, Multiset.card_add, ih]
    rfl

theorem cardsInPlay_eq_card (g : Game) : g.cardsInPlay = Multiset.card g.inPlayM := by
  rw [inPlayM_def, Multiset.card_add, Multiset.card_add, card_handsMOf]
  rfl

/-- **C2 (amended).** In every reachable state the number of cards in play (draw
deck, all hands, and the table top) is at most the generated deck size, 52.
Exact conservation fails (see the counterexample theorem): a defended round
discards the table's cards from play. -/
theorem c2_cards_in_play_at_most_deck_size :
    ∀ {g : Game}, Reachable g → g.cardsInPlay ≤ generateCardDeck.length := by
  intro g hr
  obtain ⟨_, _, _, hle⟩ := reachable_inv hr
  rw [cardsInPlay_eq_card]
  calc Multiset.card g.inPlayM
      ≤ Multiset.card (generateCardDeck : Multiset String) := Multiset.card_le_card hle
    _ = generateCardDeck.length := rfl

theorem c2_cards_in_play_at_most_deck_size_witness :
    Reachable sA3 ∧ sA3.cardsInPlay ≤ generateCardDeck.length :=
  ⟨reach_sA3, c2_cards_in_play_at_most_deck_size reach_sA3⟩

/-- **C3.** In every reachable state that has not ended (`victory = false`) exactly
one non-eliminated player carries the `isDefending` flag: construction establishes
it via `setDefendingPlayer`, and every successful mutation preserves it. -/
theorem c3_unique_active_defender :
    ∀ {g : Game}, Reachable g → g.victory = false → g.activeDefenderCount = 1 := by
  intro g hr hv
  obtain ⟨_, hcnt, _, _⟩ := reachable_inv hr
  exact hcnt hv

theorem c3_unique_active_defender_witness :
    Reachable sA3 ∧ sA3.victory = false ∧ sA3.activeDefenderCount = 1 :=
  ⟨reach_sA3, rfl, c3_unique_active_defender reach_sA3 rfl⟩

theorem not_table_key_of_hand {g : Game} {name card : String} {p : Player}
    (hle : g.inPlayM ≤ (generateCardDeck : Multiset String))
    (hp : g.getPlayer? name = some p) (hcard : card ∈ p.deck) :
    mapHas g.tableTop card = false := by
  cases hb : mapHas g.tableTop card
  · rfl
  · exfalso
    have hkeymem : card ∈ g.tableTop.map (·.1) := by
      unfold mapHas at hb
      obtain ⟨e, he, hee⟩ := List.any_eq_true.mp hb
      exact List.mem_map.mpr ⟨e, he, by simpa using hee⟩
    have hcntt : 1 ≤ Multiset.count card ((tableCardsL g.tableTop : List String) :
        Multiset String) := by
      have h1 : 1 ≤ Multiset.count card ((g.tableTop.map (·.1) : List String) :
          Multiset String) := Multiset.one_le_count_iff_mem.mpr (by simpa using hkeymem)
      exact le_trans h1 (Multiset.count_le_of_le card (keysM_le_tableCardsM g.tableTop))
    have hcnth : 1 ≤ Multiset.count card (handsMOf g.players) := by
      obtain ⟨e, he, hen, hep⟩ := getPlayer?_some_mem hp
      have h1 : 1 ≤ Multiset.count card (e.2.deck : Multiset String) :=
        Multiset.one_le_count_iff_mem.mpr (by rw [hep]; simpa using hcard)
      exact le_trans h1 (Multiset.count_le_of_le card (deck_le_handsMOf he))
    have hle2 := Multiset.count_le_of_le card hle
    have hnodup : Multiset.count card ((generateCardDeck : List String) :
        Multiset String) ≤ 1 := by
      rw [Multiset.coe_count]
      exact List.nodup_iff_count_le_one.mp generateCardDeck_nodup card
    rw [inPlayM_def] at hle2
    simp only [Multiset.count_add] at hle2
    omega

/-- **C10.** A successful `addCardToTableTop` by a non-defending player whose move
does not empty both their hand and the draw deck changes exactly two things: the
card is appended to the table top as a new uncovered key and removed (one copy)
from the actor's hand.  The deck, the victory flag, and every player's flags and
every other player's hand are untouched. -/
theorem c10_attacker_add_card_frame :
    ∀ {now : Nat} {name card : String} {g g' : Game} {p : Player},
      Reachable g → g.getPlayer? name = some p → p.isDefending = false →
      (p.deck.erase card ≠ [] ∨ g.deck ≠ []) →
      Game.addCardToTableTop now name card g = .ok g' →
      g'.tableTop = g.tableTop ++ [(card, none)] ∧ g'.deck = g.deck ∧
        g'.victory = g.victory ∧
        g'.players = g.players.map (fun q =>
          if q.1 == name then (q.1, { q.2 with deck := q.2.deck.erase card }) else q) := by
  intro now name card g g' p hr hp hpdef hne h
  obtain ⟨hndI, _, _, hle⟩ := reachable_inv hr
  simp only [Game.addCardToTableTop, addCardToTableTopF] at h
  split at h
  · exact absurd h (by simp)
  · rename_i hvic
    split at h
    · exact absurd h (by simp)
    · rename_i hfull
      split at h
      · exact absurd h (by simp)
      · rename_i player hplayer
        have hpe : player = p := by
          rw [hplayer] at hp
          exact Option.some.inj hp
        subst hpe
        split at h
        · exact absurd h (by simp)
        · rename_i hholds
          split at h
          · exact absurd h (by simp)
          · rename_i coveringCard hparse
            split at h
            · exact absurd h (by simp)
            · rename_i vals hvals
              split at h
              · exact absurd h (by simp)
              · rename_i hrank
                split at h
                · exact absurd h (by simp)
                · rename_i g1 hstep1
                  have hg1 : g = g1 := by
                    split at hstep1
                    · rename_i hdefT
                      rw [hpdef] at hdefT
                      exact absurd hdefT (by simp)
                    · exact (Except.ok.inj hstep1)
                  subst hg1
                  split at h
                  · exact absurd h (by simp)
                  · rename_i g2 htr
                    obtain ⟨hvicf, hfull2, p2, hp2, hcard2, hshape⟩ :=
                      transferCardOntoTable_ok htr
                    have hp2e : player = p2 := by
                      rw [hp2] at hplayer
                      exact (Option.some.inj hplayer).symm
                    subst hp2e
                    have hnotkey : mapHas g.tableTop card = false :=
                      not_table_key_of_hand hle hp2 hcard2
                    split at h
                    · exact absurd h (by simp)
                    · rename_i pNow hpNow
                      have hpNowe : pNow =
                          { player with deck := player.deck.erase card } := by
                        rw [hshape] at hpNow
                        have hred : ({ (g.updatePlayer name (fun q =>
                            { q with deck := q.deck.erase card })) with
                            tableTop := mapSet g.tableTop card none } : Game).getPlayer? name =
                            (g.updatePlayer name (fun q =>
                              { q with deck := q.deck.erase card })).getPlayer? name := rfl
                        rw [hred, getPlayer?_updatePlayer] at hpNow
                        have hnn : (name == name) = true := by simp
                        rw [if_pos hnn, hp2] at hpNow
                        exact (Option.some.inj hpNow).symm
                      subst hpNowe
                      split at h
                      · rename_i hcond
                        exfalso
                        have hd2 : g2.deck = g.deck := by
                          rw [hshape]
                          rfl
                        rw [hd2] at hcond
                        have hcond2 := (Bool.and_eq_true _ _).mp hcond
                        have hlen1 : (player.deck.erase card).length = 0 := by
                          have := hcond2.1
                          simpa using this
                        have hlen2 : g.deck.length = 0 := by
                          have := hcond2.2
                          simpa using this
                        cases hne with
                        | inl h1 => exact h1 (List.length_eq_zero.mp hlen1)
                        | inr h1 => exact h1 (List.length_eq_zero.mp hlen2)
                      · have he : _ = g' := Except.ok.inj h
                        subst he
                        rw [hshape]
                        have hpl : ({ (g.updatePlayer name (fun q =>
                            { q with deck := q.deck.erase card })) with
                            tableTop := mapSet g.tableTop card none } : Game).players =
                            (g.updatePlayer name (fun q =>
                              { q with deck := q.deck.erase card })).players := rfl
                        refine ⟨?_, rfl, rfl, ?_⟩
                        · show mapSet g.tableTop card none = _
                          exact mapSet_not_has _ hnotkey
                        · rw [hpl, updatePlayer_players]

theorem c10_attacker_add_card_frame_witness :
    Reachable sA0 ∧
      sA0.getPlayer? "A" = some ⟨["7H", "7D", "7C", "7S", "2H", "2D"],
        true, true, false, false, none⟩ ∧
      (false : Bool) = false ∧
      ((["7H", "7D", "7C", "7S", "2H", "2D"].erase "7H" ≠ []) ∨ sA0.deck ≠ []) ∧
      (sA1.tableTop = sA0.tableTop ++ [("7H", none)] ∧ sA1.deck = sA0.deck ∧
        sA1.victory = sA0.victory ∧
        sA1.players = sA0.players.map (fun q =>
          if q.1 == "A" then (q.1, { q.2 with deck := q.2.deck.erase "7H" }) else q)) :=
  ⟨reach_sA0, rfl, rfl, Or.inl (by decide),
    c10_attacker_add_card_frame reach_sA0 rfl rfl (Or.inl (by decide)) sA1_step⟩

theorem setDefendingPlayer_error_table {g : Game} {n : String} {e : String} {ge : Game}
    (h : g.setDefendingPlayer n = .error (e, ge)) : ge.tableTop = g.tableTop := by
  simp only [Game.setDefendingPlayer] at h
  split at h
  · have h2 := (Prod.mk.inj (Except.error.inj h)).2
    rw [← h2]
  · split at h
    · have h2 := (Prod.mk.inj (Except.error.inj h)).2
      rw [← h2]
    · split at h
      · have h2 := (Prod.mk.inj (Except.error.inj h)).2
        rw [← h2]
        rfl
      · have h2 := (Prod.mk.inj (Except.error.inj h)).2
        rw [← h2]
        rfl
      · split at h
        · have h2 := (Prod.mk.inj (Except.error.inj h)).2
          rw [← h2]
          rfl
        · exact absurd h (by simp)

theorem replenishLoop_error_table {rs : String} :
    ∀ {fuel offset : Nat} {g ge : Game} {e : String},
      replenishLoop rs fuel offset g = .error (e, ge) → ge.tableTop = g.tableTop := by
  intro fuel
  induction fuel with
  | zero =>
    intro offset g ge e h
    exact Except.noConfusion h
  | succ fuel ih =>
    intro offset g ge e h
    simp only [replenishLoop] at h
    split at h
    · split at h
      · have h2 := (Prod.mk.inj (Except.error.inj h)).2
        rw [← h2]
      · have h2 := (Prod.mk.inj (Except.error.inj h)).2
        rw [← h2]
      · rename_i playerName hoff
        split at h
        · have h2 := (Prod.mk.inj (Except.error.inj h)).2
          rw [← h2]
        · rename_i p hp
          by_cases hlt : p.deck.length < 6
          · rw [if_pos hlt] at h
            split at h
            · exact absurd h (by simp)
            · have h3 := ih h
              rw [h3]
              rfl
          · rw [if_neg hlt] at h
            split at h
            · exact absurd h (by simp)
            · exact ih h
    · exact absurd h (by simp)

theorem fPTF_error_state_of_empty_table (fuel now : Nat) (name : String) (g : Game)
    (h : g.tableTop = []) :
    ∃ msg, finalisePlayerTurnF fuel now name g = .error (msg, g) := by
  cases fuel with
  | zero => exact ⟨msgFuel, rfl⟩
  | succ fuel =>
    by_cases hv : g.victory = true
    · refine ⟨msgVictory, ?_⟩
      simp only [finalisePlayerTurnF, hv]
      rfl
    · refine ⟨msgFinaliseTurnNoCards, ?_⟩
      have hv2 : g.victory = false := by simpa using hv
      simp only [finalisePlayerTurnF, hv2, h]
      rfl

theorem sweepLoopF_error_table :
    ∀ {fuel now : Nat} {names : List String} {hv : Bool} {g ge : Game} {e : String},
      g.tableTop = [] → sweepLoopF fuel now names hv g = .error (e, ge) →
      ge.tableTop = [] := by
  intro fuel
  induction fuel with
  | zero =>
    intro now names hv g ge e htab h
    cases names with
    | nil => exact Except.noConfusion h
    | cons a t =>
      have h' : (Except.error (msgFuel, g) : Except (String × Game) (Game × Bool)) =
          .error (e, ge) := h
      have h2 := (Prod.mk.inj (Except.error.inj h')).2
      rw [← h2]
      exact htab
  | succ fuel ih =>
    intro now names hv g ge e htab h
    cases names with
    | nil => exact Except.noConfusion h
    | cons name rest =>
      simp only [sweepLoopF] at h
      split at h
      · have h2 := (Prod.mk.inj (Except.error.inj h)).2
        rw [← h2]
        exact htab
      · rename_i p hp
        split at h
        · rename_i ee hafter
          have h2 := Except.error.inj h
          subst h2
          by_cases hd : (p.deck.length == 0) = true
          · rw [if_pos hd] at hafter
            obtain ⟨msg, hmsg⟩ := fPTF_error_state_of_empty_table fuel now name
              (g.updatePlayer name (fun q => { q with out := some now })) htab
            rw [hmsg] at hafter
            have h3 := (Except.error.inj hafter)
            have h4 := (Prod.mk.inj h3).2
            rw [← h4]
            exact htab
          · rw [if_neg hd] at hafter
            exact absurd hafter (by simp)
        · rename_i g1 hafter
          have hg1 : g1 = g := by
            by_cases hd : (p.deck.length == 0) = true
            · rw [if_pos hd] at hafter
              obtain ⟨msg, hmsg⟩ := fPTF_error_state_of_empty_table fuel now name
                (g.updatePlayer name (fun q => { q with out := some now })) htab
              rw [hmsg] at hafter
              exact absurd hafter (by simp)
            · rw [if_neg hd] at hafter
              exact (Except.ok.inj hafter).symm
          subst hg1
          split at h
          · have h2 := (Prod.mk.inj (Except.error.inj h)).2
            rw [← h2]
            exact htab
          · rename_i defName hdef
            split at h
            · have h2 := (Prod.mk.inj (Except.error.inj h)).2
              rw [← h2]
              exact htab
            · exact ih htab h

theorem replenishLoop_ok_table {rs : String} :
    ∀ {fuel offset : Nat} {g g' : Game},
      replenishLoop rs fuel offset g = .ok g' → g'.tableTop = g.tableTop := by
  intro fuel
  induction fuel with
  | zero =>
    intro offset g g' h
    have := Except.ok.inj h
    rw [← this]
  | succ fuel ih =>
    intro offset g g' h
    simp only [replenishLoop] at h
    split at h
    · split at h
      · exact absurd h (by simp)
      · exact absurd h (by simp)
      · rename_i playerName hoff
        split at h
        · exact absurd h (by simp)
        · rename_i p hp
          by_cases hlt : p.deck.length < 6
          · rw [if_pos hlt] at h
            split at h
            · have he := Except.ok.inj h
              rw [← he]
              rfl
            · have h3 := ih h
              rw [h3]
              rfl
          · rw [if_neg hlt] at h
            split at h
            · have he := Except.ok.inj h
              rw [← he]
            · exact ih h
    · have := Except.ok.inj h
      rw [← this]

theorem finaliseRoundF_error_table :
    ∀ (fuel : Nat) {now : Nat} {g ge : Game} {e : String},
      finaliseRoundF fuel now g = .error (e, ge) →
      ge.tableTop = g.tableTop ∨ ge.tableTop = [] := by
  intro fuel now g ge e h
  cases fuel with
  | zero =>
    have h' : (Except.error (msgFuel, g) : GRes) = .error (e, ge) := h
    have h2 := (Prod.mk.inj (Except.error.inj h')).2
    exact Or.inl (by rw [← h2])
  | succ fuel =>
    simp only [finaliseRoundF] at h
    split at h
    · have h2 := (Prod.mk.inj (Except.error.inj h)).2
      exact Or.inl (by rw [← h2])
    · rename_i hvic
      split at h
      · have h2 := (Prod.mk.inj (Except.error.inj h)).2
        exact Or.inl (by rw [← h2])
      · rename_i htne
        split at h
        · have h2 := (Prod.mk.inj (Except.error.inj h)).2
          exact Or.inl (by rw [← h2])
        · rename_i rs hrs
          split at h
          · rename_i ee hstep1
            have h2 := Except.error.inj h
            subst h2
            split at hstep1
            · split at hstep1
              · have h2 := (Prod.mk.inj (Except.error.inj hstep1)).2
                exact Or.inl (by rw [← h2])
              · rename_i defName hdefName
                split at hstep1
                · have h2 := (Prod.mk.inj (Except.error.inj hstep1)).2
                  exact Or.inl (by rw [← h2])
                · rename_i dp hdp
                  split at hstep1
                  · have h2 := (Prod.mk.inj (Except.error.inj hstep1)).2
                    refine Or.inl ?_
                    rw [← h2]
                    rfl
                  · split at hstep1
                    · have h2 := (Prod.mk.inj (Except.error.inj hstep1)).2
                      refine Or.inl ?_
                      rw [← h2]
                      rfl
                    · have h2 := (Prod.mk.inj (Except.error.inj hstep1)).2
                      refine Or.inl ?_
                      rw [← h2]
                      rfl
                    · rename_i newDef hoff2
                      have h3 := setDefendingPlayer_error_table hstep1
                      refine Or.inl ?_
                      rw [h3]
                      rfl
            · split at hstep1
              · have h2 := (Prod.mk.inj (Except.error.inj hstep1)).2
                exact Or.inl (by rw [← h2])
              · rename_i defName hdefName
                split at hstep1
                · have h2 := (Prod.mk.inj (Except.error.inj hstep1)).2
                  exact Or.inl (by rw [← h2])
                · have h2 := (Prod.mk.inj (Except.error.inj hstep1)).2
                  exact Or.inl (by rw [← h2])
                · rename_i newDef hoff
                  have h3 := setDefendingPlayer_error_table hstep1
                  exact Or.inl h3
          · rename_i g2 hstep1
            split at h
            · rename_i ee hrepl
              have h2 := Except.error.inj h
              subst h2
              split at hrepl
              · have h3 := replenishLoop_error_table hrepl
                refine Or.inr ?_
                rw [h3]
              · exact absurd hrepl (by simp)
            · rename_i g4 hrepl
              have htt4 : g4.tableTop = [] := by
                split at hrepl
                · have h3 := replenishLoop_ok_table hrepl
                  rw [h3]
                · have he := Except.ok.inj hrepl
                  rw [← he]
              split at h
              · rename_i ee hsweep
                have h2 := Except.error.inj h
                subst h2
                exact Or.inr (sweepLoopF_error_table htt4 hsweep)
              · exact absurd h (by simp)

theorem not_in_tableCards_of_hand {g : Game} {name card : String} {p : Player}
    (hle : g.inPlayM ≤ (generateCardDeck : Multiset String))
    (hp : g.getPlayer? name = some p) (hcard : card ∈ p.deck) :
    card ∉ tableCardsL g.tableTop := by
  intro hmem
  have hcntt : 1 ≤ Multiset.count card ((tableCardsL g.tableTop : List String) :
      Multiset String) := Multiset.one_le_count_iff_mem.mpr (by simpa using hmem)
  have hcnth : 1 ≤ Multiset.count card (handsMOf g.players) := by
    obtain ⟨e, he, hen, hep⟩ := getPlayer?_some_mem hp
    have h1 : 1 ≤ Multiset.count card (e.2.deck : Multiset String) :=
      Multiset.one_le_count_iff_mem.mpr (by rw [hep]; simpa using hcard)
    exact le_trans h1 (Multiset.count_le_of_le card (deck_le_handsMOf he))
  have hle2 := Multiset.count_le_of_le card hle
  have hnodup : Multiset.count card ((generateCardDeck : List String) :
      Multiset String) ≤ 1 := by
    rw [Multiset.coe_count]
    exact List.nodup_iff_count_le_one.mp generateCardDeck_nodup card
  rw [inPlayM_def] at hle2
  simp only [Multiset.count_add] at hle2
  omega

theorem mem_tableCardsL_value :
    ∀ {m : List (String × Option String)} {k c : String},
      (k, some c) ∈ m → c ∈ tableCardsL m := by
  intro m
  induction m with
  | nil =>
    intro k c h
    exact absurd h (by simp)
  | cons a t ih =>
    intro k c h
    rw [tableCardsL_cons]
    cases List.mem_cons.mp h with
    | inl he =>
      rw [← he]
      simp
    | inr ht =>
      have h2 := ih ht
      simp [h2]

theorem mapSet_ne_of_fresh_value {m : List (String × Option String)} {k c : String}
    (hhas : mapHas m k = true) (hnotin : c ∉ tableCardsL m) :
    mapSet m k (some c) ≠ m := by
  intro heq
  apply hnotin
  obtain ⟨e, he, hek⟩ := List.any_eq_true.mp hhas
  have hmem : (k, some c) ∈ mapSet m k (some c) := by
    rw [mapSet_has _ hhas]
    refine List.mem_map.mpr ⟨e, he, ?_⟩
    simp [hek]
  rw [heq] at hmem
  exact mem_tableCardsL_value hmem

theorem hand_mem_genDeck {g : Game} {name card : String} {p : Player}
    (hle : g.inPlayM ≤ (generateCardDeck : Multiset String))
    (hp : g.getPlayer? name = some p) (hcard : card ∈ p.deck) :
    card ∈ generateCardDeck := by
  have hcnth : 1 ≤ Multiset.count card (handsMOf g.players) := by
    obtain ⟨e, he, hen, hep⟩ := getPlayer?_some_mem hp
    have h1 : 1 ≤ Multiset.count card (e.2.deck : Multiset String) :=
      Multiset.one_le_count_iff_mem.mpr (by rw [hep]; simpa using hcard)
    exact le_trans h1 (Multiset.count_le_of_le card (deck_le_handsMOf he))
  have hmm : card ∈ g.inPlayM := by
    rw [inPlayM_def]
    refine Multiset.mem_add.mpr (Or.inl (Multiset.mem_add.mpr (Or.inr ?_)))
    exact Multiset.count_pos.mp (by omega)
  have := Multiset.mem_of_le hle hmm
  simpa using this

theorem tableKey_mem_genDeck {g : Game} {k : String}
    (hle : g.inPlayM ≤ (generateCardDeck : Multiset String))
    (hmem : k ∈ g.tableTop.map (·.1)) : k ∈ generateCardDeck := by
  have h1 : k ∈ ((g.tableTop.map (·.1) : List String) : Multiset String) := by
    simpa using hmem
  have h2 : k ∈ g.inPlayM := Multiset.mem_of_le (tableKeysM_le_inPlayM g) h1
  have := Multiset.mem_of_le hle h2
  simpa using this

theorem parse_pair_inj :
    ∀ a ∈ generateCardDeck, ∀ b ∈ generateCardDeck,
      (parseCard? a).map (fun c => (c.value, c.suit)) =
        (parseCard? b).map (fun c => (c.value, c.suit)) → a = b := by
  decide

/-- **C6 (amended).** With a parseable covering card from the defender's hand and a
parseable table key at the position, in a running game: a same-suit cover is
rejected with `CoverTooLow` (and an unchanged state) exactly when the placed rank
is higher, and a successful cover has strictly higher rank; a cross-suit cover is
rejected with `CoverWrongSuit` exactly when the covering suit is not the trump
suit, and a successful cross-suit cover is a trump.  Passing this validation does
not guarantee success: the nested round finalisation can still throw (claim C4),
which refutes the original "succeeds if and only if" phrasing. -/
theorem c6_cover_legality_amended {now : Nat} {card : String} {pos : Nat} {g : Game}
    {defName : String} {dp : Player} {placed : String} {placedCard coveringCard : CardType}
    (hr : Reachable g) (hvicf : g.victory = false)
    (hdefName : g.getDefendingPlayerName? = some defName)
    (hdp : g.getPlayer? defName = some dp)
    (hcard : card ∈ dp.deck)
    (hat : g.getCardOnTableTopAtE pos = .ok (some placed))
    (hparse1 : parseCardE placed = .ok placedCard)
    (hparse2 : parseCardE card = .ok coveringCard) :
    (coveringCard.suit = placedCard.suit →
      ((Game.coverCardOnTableTop now card pos g = .error (msgCoverTooLow, g)) ↔
        placedCard.value > coveringCard.value) ∧
      (∀ g', Game.coverCardOnTableTop now card pos g = .ok g' →
        coveringCard.value > placedCard.value)) ∧
    (coveringCard.suit ≠ placedCard.suit →
      ((Game.coverCardOnTableTop now card pos g = .error (msgCoverWrongSuit, g)) ↔
        coveringCard.suit ≠ g.trumpCard.suit) ∧
      (∀ g', Game.coverCardOnTableTop now card pos g = .ok g' →
        coveringCard.suit = g.trumpCard.suit)) := by
  obtain ⟨hnd, hcntI, hoI, hle⟩ := reachable_inv hr
  have hcont : dp.deck.contains card = true := by simpa using hcard
  have hkeymem : placed ∈ g.tableTop.map (·.1) := by
    simp only [Game.getCardOnTableTopAtE] at hat
    split at hat
    · exact absurd hat (by simp)
    · have hget := Except.ok.inj hat
      exact List.get?_mem hget
  have hhas : mapHas g.tableTop placed = true := by
    unfold mapHas
    rw [List.any_eq_true]
    obtain ⟨e, he, hee⟩ := List.mem_map.mp hkeymem
    exact ⟨e, he, by simpa using hee⟩
  have htabne : g.tableTop ≠ [] := by
    intro h0
    rw [h0] at hkeymem
    simp at hkeymem
  have hfreshv : card ∉ tableCardsL g.tableTop := not_in_tableCards_of_hand hle hdp hcard
  have hmapne : mapSet g.tableTop placed (some card) ≠ g.tableTop :=
    mapSet_ne_of_fresh_value hhas hfreshv
  have hcardkeys : mapHas g.tableTop card = false := not_table_key_of_hand hle hdp hcard
  have hcardne : card ≠ placed := by
    intro hcp
    rw [hcp] at hcardkeys
    rw [hhas] at hcardkeys
    exact Bool.noConfusion hcardkeys
  have hstateg : ∀ {e : String} {fuel : Nat},
      finaliseRoundF fuel now (({ deck := g.deck, trumpCard := g.trumpCard, tableTop := mapSet g.tableTop placed (some card), players := g.players, victory := false } : Game).updatePlayer defName
        (fun q => { q with deck := q.deck.filter (fun c => c != card) })) ≠
        .error (e, g) := by
    intro e fuel heq
    have h3 := finaliseRoundF_error_table fuel heq
    cases h3 with
    | inl h4 =>
      have h5 : g.tableTop = mapSet g.tableTop placed (some card) := h4
      exact hmapne h5.symm
    | inr h4 => exact htabne h4
  refine ⟨?_, ?_⟩
  · intro hss
    have hssb : (coveringCard.suit == placedCard.suit) = true := by simpa using hss
    have hvalne : coveringCard.value ≠ placedCard.value := by
      intro hveq
      apply hcardne
      apply parse_pair_inj card (hand_mem_genDeck hle hdp hcard) placed
        (tableKey_mem_genDeck hle hkeymem)
      have hp1 : parseCard? card = some coveringCard := by
        unfold parseCard?
        rw [hparse2]
        rfl
      have hp2 : parseCard? placed = some placedCard := by
        unfold parseCard?
        rw [hparse1]
        rfl
      rw [hp1, hp2]
      simp [hveq, hss]
    refine ⟨⟨?_, ?_⟩, ?_⟩
    · intro heq
      simp only [Game.coverCardOnTableTop, coverCardOnTableTopF, hdefName, hdp, hvicf,
        hcont, hat, hparse1, hparse2, Bool.not_true, Bool.false_eq_true, if_false] at heq
      split at heq
      · split at heq
        · rename_i hgt
          exact hgt
        · exfalso
          split at heq
          · have h5 := (Prod.mk.inj (Except.error.inj heq)).1
            exact absurd h5 (by decide)
          · split at heq
            · exact hstateg heq
            · exact absurd heq (by simp)
      · rename_i hcond
        exact absurd hssb hcond
    · intro hgt
      simp only [Game.coverCardOnTableTop, coverCardOnTableTopF, hdefName, hdp, hvicf,
        hcont, hat, hparse1, hparse2, Bool.not_true, Bool.false_eq_true, if_false]
      rw [if_pos hssb, if_pos hgt]
    · intro g' heq
      simp only [Game.coverCardOnTableTop, coverCardOnTableTopF, hdefName, hdp, hvicf,
        hcont, hat, hparse1, hparse2, Bool.not_true, Bool.false_eq_true, if_false] at heq
      split at heq
      · split at heq
        · exact absurd heq (by simp)
        · rename_i hgt
          omega
      · rename_i hcond
        exact absurd hssb hcond
  · intro hds
    have hssb : ¬((coveringCard.suit == placedCard.suit) = true) := by
      intro h1
      exact hds (by simpa using h1)
    refine ⟨⟨?_, ?_⟩, ?_⟩
    · intro heq
      simp only [Game.coverCardOnTableTop, coverCardOnTableTopF, hdefName, hdp, hvicf,
        hcont, hat, hparse1, hparse2, Bool.not_true, Bool.false_eq_true, if_false] at heq
      split at heq
      · rename_i hcond
        exact absurd hcond hssb
      · split at heq
        · rename_i hcond
          simpa using hcond
        · exfalso
          split at heq
          · have h5 := (Prod.mk.inj (Except.error.inj heq)).1
            exact absurd h5 (by decide)
          · split at heq
            · exact hstateg heq
            · exact absurd heq (by simp)
    · intro hnt
      simp only [Game.coverCardOnTableTop, coverCardOnTableTopF, hdefName, hdp, hvicf,
        hcont, hat, hparse1, hparse2, Bool.not_true, Bool.false_eq_true, if_false]
      rw [if_neg hssb, if_pos (by simpa using hnt)]
    · intro g' heq
      simp only [Game.coverCardOnTableTop, coverCardOnTableTopF, hdefName, hdp, hvicf,
        hcont, hat, hparse1, hparse2, Bool.not_true, Bool.false_eq_true, if_false] at heq
      split at heq
      · rename_i hcond
        exact absurd hcond hssb
      · split at heq
        · exact absurd heq (by simp)
        · rename_i hcond
          simpa using hcond

/-- **C6 (counterexample).** The claim partitions every same-suit cover attempt into
success (when the covering rank is strictly higher) and a `CoverTooLow` failure.
In the reachable state `sC11` the defender covers the table key `QD` (rank 12)
with the same-suit `KD` (rank 13) — a legal cover by the claim — yet the call
fails with the finalisation error of claim C4 and a mutated state, not with
success and not with `CoverTooLow`. -/
theorem c6_counterexample_legal_cover_still_fails :
    Reachable sC11 ∧
      sC11.getDefendingPlayerName? = some "D2" ∧
      (sC11.getPlayer? "D2").map (fun p => p.deck.contains "KD") = some true ∧
      sC11.getCardOnTableTopAtE 5 = .ok (some "QD") ∧
      (parseCardE "KD").map (fun c => (c.value, c.suit)) = .ok (13, "D") ∧
      (parseCardE "QD").map (fun c => (c.value, c.suit)) = .ok (12, "D") ∧
      Game.coverCardOnTableTop 0 "KD" 5 sC11 = .error (msgFinaliseTurnNoCards, sC12bad) :=
  ⟨reach_sC11, rfl, rfl, rfl, rfl, rfl, sC12_step⟩

theorem c6_cover_legality_amended_witness :
    Reachable sA1 ∧ sA1.victory = false ∧
      sA1.getDefendingPlayerName? = some "B" ∧
      sA1.getCardOnTableTopAtE 0 = .ok (some "7H") ∧
      (8 : Nat) > 7 :=
  ⟨reach_sA1, rfl, rfl, rfl,
    ((@c6_cover_legality_amended 0 "8H" 0 sA1 "B"
        ⟨["8H", "8D", "8C", "8S", "2C", "2S"], false, false, false, true, none⟩ "7H"
        ⟨7, "H", "7H"⟩ ⟨8, "H", "8H"⟩
        reach_sA1 rfl rfl rfl (by decide) rfl rfl rfl).1 rfl).2 sA2 sA2_step⟩
